import Mathlib

/-!
# Dual-channel pub/sub demo: frame codec, publisher loops, receive statistics

Shallow embedding of `src/ws/src/demo/src/dual_pubsub.cpp` (the rcl program,
namespace `Rcl`) and `src/ws/src/demo/src/dual_pubsub_cpp.cpp` (the rclcpp node,
namespace `DualPubSubNode`).

Conventions of the embedding
* `uint8_t` is `Fin 256`; wider machine integers are `Nat` / `Int` with the
  wrap-around written out (`% 2 ^ 32`, `% 2 ^ 64`).
* `steady_clock` readings are `Int` nanosecond ticks and are inputs of every step.
* `double` values are rationals (`ℚ`); a value that is not a finite number (infinity,
  not-a-number) is `none`. The two computations whose rounding decides a branch or an
  integer, the quotient `1000.0 / rate` that is cast to `int` and the elapsed time in
  seconds, are rounded to the nearest binary64 value (`round_double`); the printed
  statistics (rates, latency average, loss rate) are left exact, so they can differ
  from the printed doubles by the rounding of the last place.
* `memcpy` on an object copies its object representation; the host byte order
  is the parameter `be` (`true` for a big-endian host), shared by both ends.
* External calls (`rcl_publish`, `rcl_take`, `publish`) are inputs of the step
  that makes them.
-/

namespace DualPubSub

/-! ## Bytes and object representations -/

/-- One `uint8_t`. -/
abbrev Byte := Fin 256

/-- Contents of `msg.data`; `msg.data.size` is the length of the list. -/
abbrev Frame := List Byte

/-- The `w` low-order bytes of `v`, least significant first. -/
def leBytes : Nat → Nat → List Byte
  | 0, _ => []
  | w + 1, v => ⟨v % 256, Nat.mod_lt v (by decide)⟩ :: leBytes w (v / 256)

/-- Value of a byte string read least significant byte first. -/
def leVal : List Byte → Nat
  | [] => 0
  | b :: bs => b.val + 256 * leVal bs

/-- Object representation of a `w`-byte unsigned value on the host. -/
def objBytes (be : Bool) (w v : Nat) : List Byte :=
  if be then (leBytes w v).reverse else leBytes w v

/-- Unsigned value stored in an object representation on the host. -/
def objVal (be : Bool) (bs : List Byte) : Nat :=
  if be then leVal bs.reverse else leVal bs

/-- The four bytes `memcpy` reads from a `uint32_t` holding `x`. -/
def uint32_bytes (be : Bool) (x : Nat) : List Byte := objBytes be 4 x

/-- The eight bytes `memcpy` reads from an `int64_t` holding `t` (two-complement encoding). -/
def int64_bytes (be : Bool) (t : Int) : List Byte := objBytes be 8 (t % 2 ^ 64).toNat

/-- The `int64_t` whose object representation is `bs`. -/
def int64_of (be : Bool) (bs : List Byte) : Int :=
  let v := objVal be bs
  if v < 2 ^ 63 then (v : Int) else (v : Int) - 2 ^ 64

/-- The call `memcpy(dst + off, src, n)` where `dst` is an allocation with the given
contents: `none` when the copy would read past `src` or write past the end of
the allocation (undefined behaviour). -/
def memcpy (dst : List Byte) (off : Nat) (src : List Byte) (n : Nat) : Option (List Byte) :=
  if off + n ≤ dst.length ∧ n ≤ src.length then
    some (dst.take off ++ src.take n ++ dst.drop (off + n))
  else none

/-- The call `malloc(n)`: `n` bytes of indeterminate content (taken as zero; `create_message`
overwrites all of them with the base payload before anything reads them). -/
def malloc (n : Nat) : List Byte := List.replicate n 0

/-- The call `std::vector<uint8_t>::resize(n, value)`. -/
def resize (v : List Byte) (n : Nat) (value : Byte) : List Byte :=
  v.take n ++ List.replicate (n - v.length) value

/-- The call `std::fill(v.begin(), v.end(), value)`. -/
def fill (v : List Byte) (value : Byte) : List Byte := v.map (fun _ => value)

/-! ## Receiver-side field extraction (both programs, same text) -/

/-- Receiver read of the id: `if (msg.data.size >= sizeof(uint32_t))
memcpy(&msg_id, msg.data.data, 4)`; `none` when the guard fails. -/
def read_msg_id (be : Bool) (data : Frame) : Option Nat :=
  if data.length ≥ 4 then some (objVal be (data.take 4)) else none

/-- Receiver read of the timestamp: `if (msg.data.size >= sizeof(uint32_t) + sizeof(int64_t))
memcpy(&send_timestamp, msg.data.data + 4, 8)`; `none` when the guard fails. -/
def read_send_timestamp (be : Bool) (data : Frame) : Option Int :=
  if data.length ≥ 4 + 8 then some (int64_of be ((data.drop 4).take 8)) else none

/-! ## `create_message` -/

namespace Rcl

/-- One of the two `static thread_local` padding templates of `create_message`. -/
structure BasePayload where
  base_payload : List Byte
  last_payload_size : Nat
  last_fill_byte : Byte
  deriving DecidableEq, Repr

/-- The `static thread_local` variables of `create_message`. -/
structure Statics where
  slot1 : BasePayload
  slot2 : BasePayload
  deriving DecidableEq, Repr

/-- Initial values of the statics: empty vectors, sizes 0, fill bytes 0. -/
def Statics.init : Statics :=
  { slot1 := { base_payload := [], last_payload_size := 0, last_fill_byte := 0 },
    slot2 := { base_payload := [], last_payload_size := 0, last_fill_byte := 0 } }

/-- The template holds `last_payload_size` bytes, all equal to `last_fill_byte`. -/
def BasePayload.Valid (c : BasePayload) : Prop :=
  c.base_payload = List.replicate c.last_payload_size c.last_fill_byte

/-- Both templates are valid. -/
def Statics.Valid (st : Statics) : Prop := st.slot1.Valid ∧ st.slot2.Valid

instance (c : BasePayload) : Decidable c.Valid := by
  unfold BasePayload.Valid; exact inferInstance

instance (st : Statics) : Decidable st.Valid := by
  unfold Statics.Valid; exact inferInstance

/-- Lines 93-99: the template is rebuilt only if size or fill byte changed. -/
def refresh (cur : BasePayload) (payload : Nat) (fill_byte : Byte) : BasePayload :=
  if cur.last_payload_size ≠ payload ∨ cur.last_fill_byte ≠ fill_byte then
    { base_payload := fill (resize cur.base_payload payload 0) fill_byte,
      last_payload_size := payload,
      last_fill_byte := fill_byte }
  else cur

/-- The function `create_message(payload, fill_byte, msg_id)` of `dual_pubsub.cpp`, with the
statics before the call and the clock reading `timestamp` as inputs. Returns the
message data (`none`: a `memcpy` left the allocation) and the statics after the call. -/
def create_message (be : Bool) (st : Statics) (payload : Nat) (fill_byte : Byte)
    (msg_id : Nat) (timestamp : Int) : Option Frame × Statics :=
  let cur := refresh (if fill_byte = 0xA1 then st.slot1 else st.slot2) payload fill_byte
  let st1 := if fill_byte = 0xA1 then { st with slot1 := cur } else { st with slot2 := cur }
  let data := do
    let d0 ← memcpy (malloc payload) 0 cur.base_payload payload
    let d1 ← memcpy d0 0 (uint32_bytes be msg_id) 4
    if payload ≥ 4 + 8 then memcpy d1 4 (int64_bytes be timestamp) 8 else pure d1
  (data, st1)

end Rcl

namespace DualPubSubNode

/-- The method `DualPubSubNode::create_message(payload, fill_byte, msg_id)` of
`dual_pubsub_cpp.cpp`, with the clock reading `timestamp` as input
(`none`: a `memcpy` left the storage of the vector). -/
def create_message (be : Bool) (payload : Nat) (fill_byte : Byte)
    (msg_id : Nat) (timestamp : Int) : Option Frame := do
  let d0 := resize [] payload fill_byte
  let d1 ← memcpy d0 0 (uint32_bytes be msg_id) 4
  if payload ≥ 4 + 8 then memcpy d1 4 (int64_bytes be timestamp) 8 else pure d1

end DualPubSubNode

/-- The byte layout a frame has by the format description: id, then timestamp
when there is room for it, then padding. -/
def frame_layout (be : Bool) (payload : Nat) (fill_byte : Byte) (msg_id : Nat)
    (timestamp : Int) : Frame :=
  if 12 ≤ payload then
    uint32_bytes be msg_id ++ int64_bytes be timestamp ++ List.replicate (payload - 12) fill_byte
  else
    uint32_bytes be msg_id ++ List.replicate (payload - 4) fill_byte

/-! ## Receive statistics (both programs) -/

/-- Receiver-side variables of one channel (`count1`, `count1_last_second`, ...,
`first_msg1` in `run_dual_subscriber`; the members of the same names in
`DualPubSubNode`, where `count_last_second` is `count1_last_status_`). -/
structure StatWindow where
  count : Nat
  count_last_second : Nat
  latency_sum : ℚ
  latency_count : Nat
  latency_sum_last_second : ℚ
  latency_count_last_second : Nat
  payload_size : Nat
  first_msg_id : Nat
  last_msg_id : Nat
  missed_events : Nat
  first_msg : Bool
  deriving DecidableEq, Repr

/-- Values at subscriber start (lines 343-354; `setup_dual_subscriber`). -/
def StatWindow.init : StatWindow :=
  { count := 0, count_last_second := 0, latency_sum := 0, latency_count := 0,
    latency_sum_last_second := 0, latency_count_last_second := 0, payload_size := 0,
    first_msg_id := 0, last_msg_id := 0, missed_events := 0, first_msg := true }

/-- Difference `a - b` of two `uint32_t` values. -/
def uint32_sub (a b : Nat) : Nat := (((a : Int) - (b : Int)) % 2 ^ 32).toNat

/-- Difference `a - b` of two `size_t` values. -/
def size_sub (a b : Nat) : Nat := (((a : Int) - (b : Int)) % 2 ^ 64).toNat

/-- Difference `a - b` of two `int64_t` values, as the two's complement hardware gives it
(an overflowing signed difference is undefined in C++). -/
def int64_sub (a b : Int) : Int := (a - b + 2 ^ 63) % 2 ^ 64 - 2 ^ 63

/-- Update of one channel for a taken message: the body of `if (rc == RCL_RET_OK)`
(lines 432-457) and of `subscription1_callback` (lines 339-364), which differ only in
the width of the counter (`count_mod` is `2 ^ 32` resp. `2 ^ 64`). `recv_timestamp`
is the clock reading taken when the message carries a timestamp. -/
def on_message (count_mod : Nat) (be : Bool) (w : StatWindow) (data : Frame)
    (recv_timestamp : Int) : StatWindow :=
  let w1 := { w with count := (w.count + 1) % count_mod, payload_size := data.length }
  let w2 :=
    match read_msg_id be data with
    | some msg_id =>
      if w1.first_msg then
        { w1 with first_msg_id := msg_id, last_msg_id := msg_id, first_msg := false }
      else if msg_id > (w1.last_msg_id + 1) % 2 ^ 32 then
        { w1 with missed_events := (w1.missed_events + 1) % 2 ^ 32, last_msg_id := msg_id }
      else
        { w1 with last_msg_id := msg_id }
    | none => w1
  match read_send_timestamp be data with
  | some send_timestamp =>
    let latency_ms : ℚ := ((int64_sub recv_timestamp send_timestamp : Int) : ℚ) / 1000000
    { w2 with latency_sum := w2.latency_sum + latency_ms,
              latency_count := (w2.latency_count + 1) % 2 ^ 32 }
  | none => w2

/-- Lines 381-387 and 307-313: the loss rate printed for one channel. -/
def loss_rate (w : StatWindow) : ℚ :=
  if w.count_last_second = w.count then 100
  else
    let total_expected := if w.first_msg then 0 else uint32_sub w.last_msg_id w.first_msg_id
    if total_expected = 0 then 0 else (w.missed_events : ℚ) / (total_expected : ℚ) * 100

/-- Lines 369-376 and 295-302: windowed latency average, `none` for the quiet NaN. -/
def avg_latency (w : StatWindow) : Option ℚ :=
  let msgs_with_latency := uint32_sub w.latency_count w.latency_count_last_second
  if msgs_with_latency > 0 then
    some ((w.latency_sum - w.latency_sum_last_second) / (msgs_with_latency : ℚ))
  else none

/-- Lines 405-410 and 329-334: copy of the cumulative values into the snapshot fields. -/
def snapshot (w : StatWindow) : StatWindow :=
  { w with count_last_second := w.count,
           latency_sum_last_second := w.latency_sum,
           latency_count_last_second := w.latency_count }

/-- Sequence of taken messages of one channel, each with its receive clock reading. -/
def receive_all (count_mod : Nat) (be : Bool) (w : StatWindow) (msgs : List (Frame × Int)) :
    StatWindow :=
  msgs.foldl (fun acc m => on_message count_mod be acc m.1 m.2) w

namespace Rcl

/-- One channel of the receive part of `run_dual_subscriber` (`uint32_t count1`). -/
def take_message (be : Bool) (w : StatWindow) (data : Frame) (recv_timestamp : Int) :
    StatWindow :=
  on_message (2 ^ 32) be w data recv_timestamp

end Rcl

namespace DualPubSubNode

/-- The callback `subscription1_callback` on the variables of channel 1
(`std::atomic<size_t> count1_`);
`subscription2_callback` is the same text on the variables of channel 2. -/
def subscription1_callback (be : Bool) (w : StatWindow) (data : Frame) (recv_timestamp : Int) :
    StatWindow :=
  on_message (2 ^ 64) be w data recv_timestamp

end DualPubSubNode

/-! ## Publisher loops of `dual_pubsub.cpp` -/

/-! ### Binary64 arithmetic -/

/-- The power `2 ^ k` as a rational, for an integer exponent. -/
def pow2 (k : Int) : ℚ :=
  if 0 ≤ k then ((2 ^ k.toNat : Nat) : ℚ) else 1 / ((2 ^ (-k).toNat : Nat) : ℚ)

/-- Number of halvings that take `n` below 2, with at most `fuel` steps. -/
def halvings : Nat → Nat → Nat
  | 0, _ => 0
  | fuel + 1, n => if n < 2 then 0 else halvings fuel (n / 2) + 1

/-- Position of the leading binary digit of `n`: the `k` with `2 ^ k ≤ n < 2 ^ (k + 1)`. -/
def leading_bit (n : Nat) : Nat := halvings n n

/-- Binary exponent of a positive rational `x`: the `e` with `2 ^ e ≤ x < 2 ^ (e + 1)`. -/
def binade (x : ℚ) : Int :=
  if pow2 ((leading_bit x.num.toNat : Int) - (leading_bit x.den : Int)) ≤ x then
    (leading_bit x.num.toNat : Int) - (leading_bit x.den : Int)
  else (leading_bit x.num.toNat : Int) - (leading_bit x.den : Int) - 1

/-- Rounding to the nearest integer, a tie going to the even one. -/
def round_half_even (m : ℚ) : Int :=
  if m - ⌊m⌋ < 1 / 2 then ⌊m⌋
  else if 1 / 2 < m - ⌊m⌋ then ⌊m⌋ + 1
  else if ⌊m⌋ % 2 = 0 then ⌊m⌋ else ⌊m⌋ + 1

/-- The binary64 value nearest to a positive rational (round to nearest, ties to even):
the value is rounded to a multiple of `2 ^ (e - 52)`, where `e` is its binary exponent
and at least -1022 (below that the values are subnormal). The upper end of the exponent
range is handled where a result is formed (`double_div`). -/
def round_pos (x : ℚ) : ℚ :=
  (round_half_even (x / pow2 (max (binade x) (-1022) - 52)) : ℚ)
    * pow2 (max (binade x) (-1022) - 52)

/-- The binary64 value nearest to a rational. -/
def round_double (x : ℚ) : ℚ :=
  if 0 < x then round_pos x else if x < 0 then -round_pos (-x) else 0

/-- The quotient `a / b` of two `double` values: the binary64 value nearest to the exact
quotient, and `none` when the result is not a finite number (division by zero, or a
quotient that rounds beyond the largest finite value). -/
def double_div (a b : ℚ) : Option ℚ :=
  if b = 0 then none
  else if pow2 1024 ≤ |round_double (a / b)| then none
  else some (round_double (a / b))

/-- The cast `(int)x` of a `double` x (`none`: not a finite number). A value whose integer
part fits `int` is truncated toward zero. For every other value the conversion is
undefined in C++; the value given here is `INT_MIN`, which is what the conversion
instruction of x86-64 returns. -/
def trunc_int : Option ℚ → Int
  | some x =>
    if -2147483649 < x ∧ x < 2147483648 then Int.tdiv x.num (x.den : Int) else -2147483648
  | none => -2147483648

/-- The local `double interval_ms = 1000.0 / rate` of the publisher loops (lines 170,
171, 245), also the operand of the cast in `setup_dual_publisher`. -/
def interval_ms (rate : ℚ) : Option ℚ := double_div 1000 rate

/-- The value `std::chrono::duration<double>(d).count()`: a tick difference in seconds.
The tick count is converted to `double` and divided by `1e9`. -/
def seconds (d : Int) : ℚ := round_double (round_double (d : ℚ) / 1000000000)

/-- The test `duration > 0.0 && elapsed >= duration` made at clock reading `now` by a loop
or callback started at `start`. -/
def duration_over (duration : ℚ) (start now : Int) : Prop :=
  duration > 0 ∧ seconds (now - start) ≥ duration

instance (duration : ℚ) (start now : Int) : Decidable (duration_over duration start now) := by
  unfold duration_over; exact inferInstance

/-- The sum `t + std::chrono::milliseconds(ms)` on a nanosecond time point. -/
def add_ms (t ms : Int) : Int := t + ms * 1000000

/-- One attempted emission: the id passed to `create_message`, the message data
it returned, and whether the transport accepted it. -/
structure Emission where
  msg_id : Nat
  data : Option Frame
  published : Bool
  deriving DecidableEq, Repr

namespace Rcl

/-- Per-channel locals of a publisher loop (`next_pub`, `count`,
`count_last_status`, `msg_id`). -/
structure Channel where
  next_pub : Int
  count : Nat
  count_last_status : Nat
  msg_id : Nat
  deriving DecidableEq, Repr

/-- Channel locals at loop entry (lines 166-175, 246-250). -/
def Channel.init (start : Int) : Channel :=
  { next_pub := start, count := 0, count_last_status := 0, msg_id := 0 }

/-- Body of `if (should_pub1) { ... }` (lines 198-206, 208-216, 267-275): `send_ok` is
the result of `publish_message`. -/
def emit (be : Bool) (rate : ℚ) (payload : Nat) (fill_byte : Byte) (ch : Channel)
    (statics : Statics) (now timestamp : Int) (send_ok : Bool) :
    Channel × Statics × Emission :=
  let made := create_message be statics payload fill_byte ch.msg_id timestamp
  let ch1 :=
    if send_ok then
      { ch with count := (ch.count + 1) % 2 ^ 64, msg_id := (ch.msg_id + 1) % 2 ^ 32 }
    else ch
  ({ ch1 with next_pub := add_ms now (trunc_int (interval_ms rate)) }, made.2,
    { msg_id := ch.msg_id, data := made.1, published := send_ok })

/-- Locals of `publisher_thread`, with the thread-local statics of `create_message`. -/
structure ThreadLoop where
  start : Int
  last_status : Int
  ch : Channel
  statics : Statics
  deriving DecidableEq, Repr

/-- Locals of `publisher_thread` at loop entry; `start` is the first clock reading. -/
def ThreadLoop.init (start : Int) : ThreadLoop :=
  { start := start, last_status := start, ch := Channel.init start, statics := Statics.init }

/-- What one iteration of `publisher_thread` reads from outside. -/
structure ThreadTick where
  should_stop : Bool
  now : Int
  timestamp : Int
  send_ok : Bool
  deriving DecidableEq, Repr

/-- One iteration of the `while` loop of `publisher_thread` (lines 252-278); `none` when
the loop is left. The second component is the rate logged by the status block. -/
def publisher_thread_iter (be : Bool) (duration rate : ℚ) (payload : Nat) (fill_byte : Byte)
    (s : ThreadLoop) (t : ThreadTick) : Option (ThreadLoop × Option ℚ × Option Emission) :=
  if t.should_stop then none
  else
    if duration_over duration s.start t.now then none
    else
      let time_since_status := seconds (t.now - s.last_status)
      let status : Option ℚ :=
        if time_since_status ≥ 1 then
          some ((size_sub s.ch.count s.ch.count_last_status : ℚ) / time_since_status)
        else none
      let s1 : ThreadLoop :=
        if time_since_status ≥ 1 then
          { s with ch := { s.ch with count_last_status := s.ch.count }, last_status := t.now }
        else s
      if t.now ≥ s1.ch.next_pub then
        let r := emit be rate payload fill_byte s1.ch s1.statics t.now t.timestamp t.send_ok
        some ({ s1 with ch := r.1, statics := r.2.1 }, status, some r.2.2)
      else
        some (s1, status, none)

/-- The loop of `publisher_thread` on a sequence of iterations: final locals and the
emissions attempted, in order. Iterations after the one that leaves the loop do not
happen. -/
def publisher_thread_run (be : Bool) (duration rate : ℚ) (payload : Nat) (fill_byte : Byte) :
    ThreadLoop → List ThreadTick → ThreadLoop × List Emission
  | s, [] => (s, [])
  | s, t :: ts =>
    match publisher_thread_iter be duration rate payload fill_byte s t with
    | none => (s, [])
    | some (s1, _, e) =>
      let r := publisher_thread_run be duration rate payload fill_byte s1 ts
      (r.1, e.toList ++ r.2)

/-- Locals of `run_dual_publisher`. -/
structure DualLoop where
  start : Int
  last_status : Int
  ch1 : Channel
  ch2 : Channel
  statics : Statics
  deriving DecidableEq, Repr

/-- Locals of `run_dual_publisher` at loop entry. -/
def DualLoop.init (start : Int) : DualLoop :=
  { start := start, last_status := start, ch1 := Channel.init start,
    ch2 := Channel.init start, statics := Statics.init }

/-- What one iteration of `run_dual_publisher` reads from outside. -/
structure DualTick where
  now : Int
  timestamp1 : Int
  send_ok1 : Bool
  timestamp2 : Int
  send_ok2 : Bool
  deriving DecidableEq, Repr

/-- One iteration of the `while (true)` loop of `run_dual_publisher` (lines 177-219);
`none` when the loop is left. Second component: the two rates logged by the status
block; then the emission attempted on channel 1 and on channel 2. -/
def run_dual_publisher_iter (be : Bool) (duration rate1 rate2 : ℚ) (payload1 payload2 : Nat)
    (s : DualLoop) (t : DualTick) :
    Option (DualLoop × Option (ℚ × ℚ) × Option Emission × Option Emission) :=
  if duration_over duration s.start t.now then none
  else
    let time_since_status := seconds (t.now - s.last_status)
    let status : Option (ℚ × ℚ) :=
      if time_since_status ≥ 1 then
        some ((size_sub s.ch1.count s.ch1.count_last_status : ℚ) / time_since_status,
              (size_sub s.ch2.count s.ch2.count_last_status : ℚ) / time_since_status)
      else none
    let s1 : DualLoop :=
      if time_since_status ≥ 1 then
        { s with ch1 := { s.ch1 with count_last_status := s.ch1.count },
                 ch2 := { s.ch2 with count_last_status := s.ch2.count },
                 last_status := t.now }
      else s
    let should_pub1 : Bool := t.now ≥ s1.ch1.next_pub
    let should_pub2 : Bool := t.now ≥ s1.ch2.next_pub
    let r1 : DualLoop × Option Emission :=
      if should_pub1 then
        let r := emit be rate1 payload1 0xA1 s1.ch1 s1.statics t.now t.timestamp1 t.send_ok1
        ({ s1 with ch1 := r.1, statics := r.2.1 }, some r.2.2)
      else (s1, none)
    let r2 : DualLoop × Option Emission :=
      if should_pub2 then
        let r := emit be rate2 payload2 0xB2 r1.1.ch2 r1.1.statics t.now t.timestamp2 t.send_ok2
        ({ r1.1 with ch2 := r.1, statics := r.2.1 }, some r.2.2)
      else (r1.1, none)
    some (r2.1, status, r1.2, r2.2)

/-- The loop of `run_dual_publisher` on a sequence of iterations: final locals and the
emissions attempted on channel 1 and on channel 2, in order. -/
def run_dual_publisher_run (be : Bool) (duration rate1 rate2 : ℚ) (payload1 payload2 : Nat) :
    DualLoop → List DualTick → DualLoop × List Emission × List Emission
  | s, [] => (s, [], [])
  | s, t :: ts =>
    match run_dual_publisher_iter be duration rate1 rate2 payload1 payload2 s t with
    | none => (s, [], [])
    | some (s1, _, e1, e2) =>
      let r := run_dual_publisher_run be duration rate1 rate2 payload1 payload2 s1 ts
      (r.1, e1.toList ++ r.2.1, e2.toList ++ r.2.2)

end Rcl

/-! ## Timer callbacks of `dual_pubsub_cpp.cpp` -/

namespace DualPubSubNode

/-- How a call `publisher1_->publish(msg)` can end. The call returns `void`: the
callback cannot tell `delivered` from `dropped`, and `threw` leaves the callback
at the call. -/
inductive PublishOutcome where
  | delivered
  | dropped
  | threw
  deriving DecidableEq, Repr

/-- Members of `DualPubSubNode` that the callbacks read and write; `w1.count` is
`count1_`, `w2.count` is `count2_`. -/
structure Node where
  duration : ℚ
  payload1 : Nat
  payload2 : Nat
  finished : Bool
  start_time : Int
  last_status_time : Int
  msg_id1 : Nat
  msg_id2 : Nat
  w1 : StatWindow
  w2 : StatWindow
  deriving DecidableEq, Repr

/-- Members after the constructor ran `setup_dual_publisher` at clock reading `start`
(the receive-side members, which publisher mode never reads, are given their
subscriber start values). -/
def Node.init (duration : ℚ) (payload1 payload2 : Nat) (start : Int) : Node :=
  { duration := duration, payload1 := payload1, payload2 := payload2, finished := false,
    start_time := start, last_status_time := start, msg_id1 := 0, msg_id2 := 0,
    w1 := StatWindow.init, w2 := StatWindow.init }

/-- The method `stop_publishing()`: timers are cancelled and the flag is raised. -/
def stop_publishing (n : Node) : Node :=
  if !n.finished then { n with finished := true } else n

/-- The callback `publish_topic1()` fired at clock reading `now` (lines 207-222). `msg_id1_++` is
evaluated before `create_message` is entered; `count1_++` is reached when
`publish` returns. -/
def publish_topic1 (be : Bool) (n : Node) (now timestamp : Int) (o : PublishOutcome) :
    Node × Option Emission :=
  if n.finished then (n, none)
  else if duration_over n.duration n.start_time now then
    (stop_publishing n, none)
  else
    let n1 := { n with msg_id1 := (n.msg_id1 + 1) % 2 ^ 32 }
    let data := create_message be n.payload1 0xA1 n.msg_id1 timestamp
    match o with
    | PublishOutcome.threw =>
      (n1, some { msg_id := n.msg_id1, data := data, published := false })
    | PublishOutcome.dropped =>
      ({ n1 with w1 := { n1.w1 with count := (n1.w1.count + 1) % 2 ^ 64 } },
        some { msg_id := n.msg_id1, data := data, published := false })
    | PublishOutcome.delivered =>
      ({ n1 with w1 := { n1.w1 with count := (n1.w1.count + 1) % 2 ^ 64 } },
        some { msg_id := n.msg_id1, data := data, published := true })

/-- The callback `publish_topic2()` fired at clock reading `now` (lines 224-239). -/
def publish_topic2 (be : Bool) (n : Node) (now timestamp : Int) (o : PublishOutcome) :
    Node × Option Emission :=
  if n.finished then (n, none)
  else if duration_over n.duration n.start_time now then
    (stop_publishing n, none)
  else
    let n1 := { n with msg_id2 := (n.msg_id2 + 1) % 2 ^ 32 }
    let data := create_message be n.payload2 0xB2 n.msg_id2 timestamp
    match o with
    | PublishOutcome.threw =>
      (n1, some { msg_id := n.msg_id2, data := data, published := false })
    | PublishOutcome.dropped =>
      ({ n1 with w2 := { n1.w2 with count := (n1.w2.count + 1) % 2 ^ 64 } },
        some { msg_id := n.msg_id2, data := data, published := false })
    | PublishOutcome.delivered =>
      ({ n1 with w2 := { n1.w2 with count := (n1.w2.count + 1) % 2 ^ 64 } },
        some { msg_id := n.msg_id2, data := data, published := true })

end DualPubSubNode

/-! ## Notions used to state the properties -/

/-- Arguments of one call of `create_message`: payload, fill byte, id, clock reading. -/
abbrev Rcl.Call := Nat × Byte × Nat × Int

/-- Statics of `create_message` after a sequence of calls made from the initial statics. -/
def Rcl.statics_after (be : Bool) (calls : List Rcl.Call) : Rcl.Statics :=
  calls.foldl (fun st c => (Rcl.create_message be st c.1 c.2.1 c.2.2.1 c.2.2.2).2)
    Rcl.Statics.init

/-- Ids of the id-bearing messages of a received sequence, in order of arrival. -/
def received_ids (be : Bool) (msgs : List (Frame × Int)) : List Nat :=
  msgs.filterMap (fun m => read_msg_id be m.1)

/-- Number of positions `i ≥ 1` of an id sequence at which the id is greater than the
previous id plus 1, the sum taken over the integers. -/
def gap_events_int : List Nat → Nat
  | a :: b :: rest => (if b > a + 1 then 1 else 0) + gap_events_int (b :: rest)
  | _ => 0

/-- Number of positions `i ≥ 1` of an id sequence at which the id is greater than the
previous id plus 1, the sum taken in `uint32_t`. -/
def gap_events_u32 : List Nat → Nat
  | a :: b :: rest => (if b > (a + 1) % 2 ^ 32 then 1 else 0) + gap_events_u32 (b :: rest)
  | _ => 0

/-- Four-byte messages carrying the given ids, each received at clock reading 0. -/
def id_frames (be : Bool) (ids : List Nat) : List (Frame × Int) :=
  ids.map (fun i => (uint32_bytes be i, 0))

namespace Rcl

/-- The function `format_bytes` of `dual_pubsub.cpp` (lines 130-140); `std::to_string` of a
`size_t` is its decimal numeral. -/
def format_bytes (bytes : Nat) : String :=
  if bytes ≥ 1024 * 1024 * 1024 then
    toString (bytes / (1024 * 1024 * 1024)) ++ " GB"
  else if bytes ≥ 1024 * 1024 then
    toString (bytes / (1024 * 1024)) ++ " MB"
  else if bytes ≥ 1024 then
    toString (bytes / 1024) ++ " KB"
  else
    toString bytes ++ " B"

end Rcl

namespace DualPubSubNode

/-- The method `DualPubSubNode::format_bytes` of `dual_pubsub_cpp.cpp` (lines 116-126). -/
def format_bytes (bytes : Nat) : String :=
  if bytes ≥ 1024 * 1024 * 1024 then
    toString (bytes / (1024 * 1024 * 1024)) ++ " GB"
  else if bytes ≥ 1024 * 1024 then
    toString (bytes / (1024 * 1024)) ++ " MB"
  else if bytes ≥ 1024 then
    toString (bytes / 1024) ++ " KB"
  else
    toString bytes ++ " B"

end DualPubSubNode

/-- Figures printed for one channel by a status report. -/
structure ChannelReport where
  size : String
  rate : ℚ
  avg_latency : Option ℚ
  loss_rate : ℚ
  deriving DecidableEq, Repr

/-- What a subscriber run does, in order: a status report (with the two windows it was
computed from), a message taken on channel 1, a message taken on channel 2. -/
inductive SubEvent where
  | report (w1 w2 : StatWindow) (r1 r2 : ChannelReport)
  | frame1 (data : Frame)
  | frame2 (data : Frame)
  deriving DecidableEq, Repr

/-- The event is a status report. -/
def SubEvent.is_report : SubEvent → Bool
  | SubEvent.report _ _ _ _ => true
  | _ => false

/-- The event is a message taken on channel 1. -/
def SubEvent.is_frame1 : SubEvent → Bool
  | SubEvent.frame1 _ => true
  | _ => false

/-- The event is a message taken on channel 2. -/
def SubEvent.is_frame2 : SubEvent → Bool
  | SubEvent.frame2 _ => true
  | _ => false

namespace Rcl

/-- Figures of one channel in the status block of `run_dual_subscriber` (lines 366-403);
`count1 - count1_last_second` is a `uint32_t` difference. -/
def channel_report (w : StatWindow) (time_since_last_display : ℚ) : ChannelReport :=
  { size := format_bytes w.payload_size,
    rate := (uint32_sub w.count w.count_last_second : ℚ) / time_since_last_display,
    avg_latency := avg_latency w,
    loss_rate := loss_rate w }

/-- Locals of `run_dual_subscriber`. -/
structure SubLoop where
  start : Int
  last_rate_display : Int
  w1 : StatWindow
  w2 : StatWindow
  deriving DecidableEq, Repr

/-- Locals of `run_dual_subscriber` at loop entry (lines 341-354). -/
def SubLoop.init (start : Int) : SubLoop :=
  { start := start, last_rate_display := start, w1 := StatWindow.init, w2 := StatWindow.init }

/-- What one iteration of `run_dual_subscriber` reads from outside: the clock, whether
the two `rcl_wait_set_add_subscription` calls returned `RCL_RET_OK`, whether `rcl_wait`
returned `RCL_RET_TIMEOUT`, and for each channel the message and receive clock reading
when its wait-set slot is set and `rcl_take` returned `RCL_RET_OK`. -/
structure SubTick where
  now : Int
  add_ok1 : Bool
  add_ok2 : Bool
  timed_out : Bool
  take1 : Option (Frame × Int)
  take2 : Option (Frame × Int)
  deriving DecidableEq, Repr

/-- Result of one iteration: what it did, the locals afterwards, and whether the loop
was left (`break`). -/
structure SubStep where
  log : List SubEvent
  state : SubLoop
  left : Bool
  deriving DecidableEq, Repr

/-- The status block of `run_dual_subscriber` (lines 364-412) at clock reading `now`:
when a second has passed since the last report, the report is printed and the
cumulative values are copied into the snapshot fields; otherwise nothing happens. -/
def status_block (s : SubLoop) (now : Int) : List SubEvent × SubLoop :=
  let time_since_last_display := seconds (now - s.last_rate_display)
  if time_since_last_display ≥ 1 then
    ([SubEvent.report s.w1 s.w2 (channel_report s.w1 time_since_last_display)
        (channel_report s.w2 time_since_last_display)],
     { s with w1 := snapshot s.w1, w2 := snapshot s.w2, last_rate_display := now })
  else ([], s)

/-- The rest of an iteration of `run_dual_subscriber` (lines 414-495): the wait set is
filled (a failure leaves the loop), `rcl_wait` is called (a time-out ends the
iteration), and the messages that are ready are taken. -/
def wait_and_take (be : Bool) (s : SubLoop) (t : SubTick) : SubStep :=
  if t.add_ok1 = false ∨ t.add_ok2 = false then { log := [], state := s, left := true }
  else if t.timed_out then { log := [], state := s, left := false }
  else
    let w1 :=
      match t.take1 with
      | some m => take_message be s.w1 m.1 m.2
      | none => s.w1
    let w2 :=
      match t.take2 with
      | some m => take_message be s.w2 m.1 m.2
      | none => s.w2
    { log := (t.take1.map (fun m => SubEvent.frame1 m.1)).toList
               ++ (t.take2.map (fun m => SubEvent.frame2 m.1)).toList,
      state := { s with w1 := w1, w2 := w2 },
      left := false }

/-- One iteration of the `while (1)` loop of `run_dual_subscriber` (lines 357-496). -/
def run_dual_subscriber_iter (be : Bool) (duration : ℚ) (s : SubLoop) (t : SubTick) :
    SubStep :=
  if duration_over duration s.start t.now then { log := [], state := s, left := true }
  else
    { log := (status_block s t.now).1 ++ (wait_and_take be (status_block s t.now).2 t).log,
      state := (wait_and_take be (status_block s t.now).2 t).state,
      left := (wait_and_take be (status_block s t.now).2 t).left }

/-- The loop of `run_dual_subscriber` on a sequence of iterations: final locals and what
was done, in order. Iterations after the one that leaves the loop do not happen. -/
def run_dual_subscriber_run (be : Bool) (duration : ℚ) :
    SubLoop → List SubTick → SubLoop × List SubEvent
  | s, [] => (s, [])
  | s, t :: ts =>
    if (run_dual_subscriber_iter be duration s t).left then
      ((run_dual_subscriber_iter be duration s t).state,
       (run_dual_subscriber_iter be duration s t).log)
    else
      ((run_dual_subscriber_run be duration
          (run_dual_subscriber_iter be duration s t).state ts).1,
       (run_dual_subscriber_iter be duration s t).log ++
        (run_dual_subscriber_run be duration
          (run_dual_subscriber_iter be duration s t).state ts).2)

/-- Clock reading, timestamp and send outcome of channel 1 in an iteration of
`run_dual_publisher`, as an iteration of `publisher_thread` with the stop flag down. -/
def DualTick.thread1 (u : DualTick) : ThreadTick :=
  { should_stop := false, now := u.now, timestamp := u.timestamp1, send_ok := u.send_ok1 }

/-- Clock reading, timestamp and send outcome of channel 2 in an iteration of
`run_dual_publisher`, as an iteration of `publisher_thread` with the stop flag down. -/
def DualTick.thread2 (u : DualTick) : ThreadTick :=
  { should_stop := false, now := u.now, timestamp := u.timestamp2, send_ok := u.send_ok2 }

end Rcl

namespace DualPubSubNode

/-- Periods, in milliseconds, of the two publish timers created by
`setup_dual_publisher` (lines 132-133): `static_cast<int>(1000.0 / rate1_)`. -/
def setup_dual_publisher (rate1 rate2 : ℚ) : Int × Int :=
  (trunc_int (interval_ms rate1), trunc_int (interval_ms rate2))

/-- Figures of one channel in `print_subscriber_status` (lines 292-327);
`count1_ - count1_last_status_` is a `size_t` difference. -/
def channel_report (w : StatWindow) (time_since_last_display : ℚ) : ChannelReport :=
  { size := format_bytes w.payload_size,
    rate := (size_sub w.count w.count_last_second : ℚ) / time_since_last_display,
    avg_latency := avg_latency w,
    loss_rate := loss_rate w }

/-- The timer callback `print_subscriber_status()` fired at clock reading `now`
(lines 286-336). -/
def print_subscriber_status (n : Node) (now : Int) : Node × List SubEvent :=
  if n.finished then (n, [])
  else
    let time_since_last_display := seconds (now - n.last_status_time)
    ({ n with w1 := snapshot n.w1, w2 := snapshot n.w2, last_status_time := now },
     [SubEvent.report n.w1 n.w2 (channel_report n.w1 time_since_last_display)
        (channel_report n.w2 time_since_last_display)])

/-- A callback of the subscriber node run by the executor. -/
inductive Callback where
  | subscription1 (data : Frame) (recv_timestamp : Int)
  | subscription2 (data : Frame) (recv_timestamp : Int)
  | status (now : Int)
  deriving DecidableEq, Repr

/-- Effect of one callback on the members of the node, and what it did. -/
def run_callback (be : Bool) (n : Node) : Callback → Node × List SubEvent
  | Callback.subscription1 data recv_timestamp =>
    ({ n with w1 := subscription1_callback be n.w1 data recv_timestamp },
     [SubEvent.frame1 data])
  | Callback.subscription2 data recv_timestamp =>
    ({ n with w2 := subscription1_callback be n.w2 data recv_timestamp },
     [SubEvent.frame2 data])
  | Callback.status now => print_subscriber_status n now

/-- A sequence of callbacks of the subscriber node, run one after the other. -/
def run_callbacks (be : Bool) : Node → List Callback → Node × List SubEvent
  | n, [] => (n, [])
  | n, c :: cs =>
    ((run_callbacks be (run_callback be n c).1 cs).1,
     (run_callback be n c).2 ++ (run_callbacks be (run_callback be n c).1 cs).2)

end DualPubSubNode

/-! ## Command line (both programs) -/

namespace Rcl

end Rcl

namespace DualPubSubNode

end DualPubSubNode

/-- A window that has seen no id and whose latency count equals its snapshot (as after
any sequence of messages shorter than 4 bytes and status reports). -/
def StatWindow.untracked (w : StatWindow) : Prop :=
  w.first_msg = true ∧ w.latency_count = w.latency_count_last_second

/-- For a report event: both windows are without id, both latencies are not-a-number,
and a channel whose count differs from its snapshot is shown with loss rate 0. -/
def SubEvent.short_frame_report : SubEvent → Prop
  | SubEvent.report w1 w2 r1 r2 =>
    (w1.first_msg = true ∧ r1.avg_latency = none ∧
      (w1.count ≠ w1.count_last_second → r1.loss_rate = 0)) ∧
    (w2.first_msg = true ∧ r2.avg_latency = none ∧
      (w2.count ≠ w2.count_last_second → r2.loss_rate = 0))
  | _ => True

/-- The callback is a status report or delivers a message shorter than 4 bytes. -/
def DualPubSubNode.Callback.short : DualPubSubNode.Callback → Prop
  | DualPubSubNode.Callback.subscription1 data _ => data.length < 4
  | DualPubSubNode.Callback.subscription2 data _ => data.length < 4
  | DualPubSubNode.Callback.status _ => True

/-- Data returned by a sequence of calls of the rcl `create_message`, made one after
the other from the given statics. -/
def Rcl.returns_of (be : Bool) : Rcl.Statics → List Rcl.Call → List (Option Frame)
  | _, [] => []
  | st, c :: cs =>
    (Rcl.create_message be st c.1 c.2.1 c.2.2.1 c.2.2.2).1 ::
      Rcl.returns_of be (Rcl.create_message be st c.1 c.2.1 c.2.2.1 c.2.2.2).2 cs

/-- Sequence bookkeeping of a window on an in-order stream: before the first id no gap
has been counted; afterwards the first id is not above the last one, the last one is
below `2 ^ 32 - 1`, and twice the missed events fit in the distance between them. -/
def StatWindow.in_order (w : StatWindow) : Prop :=
  (w.first_msg = true ∧ w.missed_events = 0) ∨
  (w.first_msg = false ∧ w.first_msg_id ≤ w.last_msg_id ∧ w.last_msg_id < 2 ^ 32 - 1 ∧
    2 * w.missed_events ≤ w.last_msg_id - w.first_msg_id)

/-- The ids still to come continue an in-order stream after the window: they are
non-decreasing, below `2 ^ 32 - 1`, and not below the last id the window has seen. -/
def StatWindow.admits (w : StatWindow) (ids : List Nat) : Prop :=
  List.Chain' (fun a b => a ≤ b) ids ∧ (∀ i ∈ ids, i < 2 ^ 32 - 1) ∧
  (w.first_msg = false → ∀ i ∈ ids, w.last_msg_id ≤ i)

/-- The loss rate of a report is at most 50, or it is the 100 of a window without any
message (count equal to its snapshot). -/
def ChannelReport.at_most_half (w : StatWindow) (r : ChannelReport) : Prop :=
  r.loss_rate ≤ 50 ∨ (r.loss_rate = 100 ∧ w.count_last_second = w.count)

/-- Ids of the messages handed to channel 1 over a sequence of iterations of
`run_dual_subscriber`. -/
def Rcl.tick_ids1 (be : Bool) (ticks : List Rcl.SubTick) : List Nat :=
  ticks.filterMap (fun t => t.take1.bind (fun m => read_msg_id be m.1))

/-- Ids of the messages handed to channel 2 over a sequence of iterations of
`run_dual_subscriber`. -/
def Rcl.tick_ids2 (be : Bool) (ticks : List Rcl.SubTick) : List Nat :=
  ticks.filterMap (fun t => t.take2.bind (fun m => read_msg_id be m.1))

/-- Id delivered to channel 1 by a callback of the subscriber node. -/
def DualPubSubNode.Callback.id1 (be : Bool) : DualPubSubNode.Callback → Option Nat
  | DualPubSubNode.Callback.subscription1 data _ => read_msg_id be data
  | _ => none

/-- Id delivered to channel 2 by a callback of the subscriber node. -/
def DualPubSubNode.Callback.id2 (be : Bool) : DualPubSubNode.Callback → Option Nat
  | DualPubSubNode.Callback.subscription2 data _ => read_msg_id be data
  | _ => none

/-- For a report event: both windows keep the bookkeeping of an in-order stream and both
printed loss rates are at most 50 or the 100 of a window without message. -/
def SubEvent.in_order_report : SubEvent → Prop
  | SubEvent.report w1 w2 r1 r2 =>
    (w1.in_order ∧ r1.at_most_half w1) ∧ (w2.in_order ∧ r2.at_most_half w2)
  | _ => True

/-- Clock readings of the iterations of `publisher_thread` in which an emission was
attempted, in order. -/
def Rcl.thread_attempt_times (be : Bool) (duration rate : ℚ) (payload : Nat)
    (fill_byte : Byte) : Rcl.ThreadLoop → List Rcl.ThreadTick → List Int
  | _, [] => []
  | s, t :: ts =>
    match Rcl.publisher_thread_iter be duration rate payload fill_byte s t with
    | none => []
    | some (s1, _, e) =>
      (e.map (fun _ => t.now)).toList
        ++ Rcl.thread_attempt_times be duration rate payload fill_byte s1 ts

/-- Clock readings of the iterations of `run_dual_publisher` in which an emission was
attempted on channel 1 and on channel 2, in order. -/
def Rcl.dual_attempt_times (be : Bool) (duration rate1 rate2 : ℚ) (payload1 payload2 : Nat) :
    Rcl.DualLoop → List Rcl.DualTick → List Int × List Int
  | _, [] => ([], [])
  | s, t :: ts =>
    match Rcl.run_dual_publisher_iter be duration rate1 rate2 payload1 payload2 s t with
    | none => ([], [])
    | some (s1, _, e1, e2) =>
      ((e1.map (fun _ => t.now)).toList
          ++ (Rcl.dual_attempt_times be duration rate1 rate2 payload1 payload2 s1 ts).1,
       (e2.map (fun _ => t.now)).toList
          ++ (Rcl.dual_attempt_times be duration rate1 rate2 payload1 payload2 s1 ts).2)

/-! ## Timer runs, status callback of the publisher node, input frames -/

namespace DualPubSubNode

/-- The timer callback `print_publisher_status()` fired at clock reading `now`
(lines 268-284); the second component holds the two logged rates. The callback reads
neither `duration_` nor `start_time_`. -/
def print_publisher_status (n : Node) (now : Int) : Node × Option (ℚ × ℚ) :=
  if n.finished then (n, none)
  else
    let time_since_status := seconds (now - n.last_status_time)
    ({ n with w1 := { n.w1 with count_last_second := n.w1.count },
              w2 := { n.w2 with count_last_second := n.w2.count },
              last_status_time := now },
     some ((size_sub n.w1.count n.w1.count_last_second : ℚ) / time_since_status,
           (size_sub n.w2.count n.w2.count_last_second : ℚ) / time_since_status))

/-- What one firing of a publish timer reads from outside: the clock reading of the
callback, the clock reading taken inside `create_message`, and how `publish` ended. -/
structure TimerTick where
  now : Int
  timestamp : Int
  outcome : PublishOutcome
  deriving DecidableEq, Repr

/-- Successive firings of `timer1_`: final members and the emissions made, in order. An
exception thrown by `publish` is caught neither by the callback nor by `main`
(lines 476-504), so no callback runs after it. -/
def publish_topic1_run (be : Bool) : Node → List TimerTick → Node × List Emission
  | n, [] => (n, [])
  | n, t :: ts =>
    if t.outcome = PublishOutcome.threw then
      ((publish_topic1 be n t.now t.timestamp t.outcome).1,
       (publish_topic1 be n t.now t.timestamp t.outcome).2.toList)
    else
      ((publish_topic1_run be (publish_topic1 be n t.now t.timestamp t.outcome).1 ts).1,
       (publish_topic1 be n t.now t.timestamp t.outcome).2.toList ++
        (publish_topic1_run be (publish_topic1 be n t.now t.timestamp t.outcome).1 ts).2)

/-- Successive firings of `timer2_`. -/
def publish_topic2_run (be : Bool) : Node → List TimerTick → Node × List Emission
  | n, [] => (n, [])
  | n, t :: ts =>
    if t.outcome = PublishOutcome.threw then
      ((publish_topic2 be n t.now t.timestamp t.outcome).1,
       (publish_topic2 be n t.now t.timestamp t.outcome).2.toList)
    else
      ((publish_topic2_run be (publish_topic2 be n t.now t.timestamp t.outcome).1 ts).1,
       (publish_topic2 be n t.now t.timestamp t.outcome).2.toList ++
        (publish_topic2_run be (publish_topic2 be n t.now t.timestamp t.outcome).1 ts).2)

/-- The messages that a callback of the subscriber node delivers. -/
def Callback.frames : Callback → List SubEvent
  | Callback.subscription1 data _ => [SubEvent.frame1 data]
  | Callback.subscription2 data _ => [SubEvent.frame2 data]
  | Callback.status _ => []

/-- The callback is the status timer. -/
def Callback.is_status : Callback → Bool
  | Callback.status _ => true
  | _ => false

end DualPubSubNode

/-- The messages that an iteration of `run_dual_subscriber` is given to take: none when
`rcl_wait` timed out. -/
def Rcl.SubTick.frames (t : Rcl.SubTick) : List SubEvent :=
  if t.timed_out then []
  else (t.take1.map (fun m => SubEvent.frame1 m.1)).toList
    ++ (t.take2.map (fun m => SubEvent.frame2 m.1)).toList

/-- The iteration of `run_dual_subscriber` passes the duration test and both
subscriptions are added to the wait set. -/
def Rcl.SubTick.stays (duration : ℚ) (start : Int) (t : Rcl.SubTick) : Prop :=
  ¬ duration_over duration start t.now ∧ t.add_ok1 = true ∧ t.add_ok2 = true

instance (duration : ℚ) (start : Int) (t : Rcl.SubTick) :
    Decidable (t.stays duration start) := by
  unfold Rcl.SubTick.stays; exact inferInstance

/-! ## Lemmas on the codec -/

theorem leBytes_length (w v : Nat) : (leBytes w v).length = w := by
  induction w generalizing v with
  | zero => rfl
  | succ w ih => simp [leBytes, ih]

theorem leVal_leBytes (w v : Nat) : leVal (leBytes w v) = v % 256 ^ w := by
  induction w generalizing v with
  | zero => simp [leBytes, leVal, Nat.mod_one]
  | succ w ih =>
    simp only [leBytes, leVal, ih]
    rw [pow_succ, Nat.mul_comm (256 ^ w) 256, Nat.mod_mul]

theorem objBytes_length (be : Bool) (w v : Nat) : (objBytes be w v).length = w := by
  unfold objBytes; split <;> simp [leBytes_length]

theorem objVal_objBytes (be : Bool) (w v : Nat) : objVal be (objBytes be w v) = v % 256 ^ w := by
  unfold objVal objBytes; cases be <;> simp [leVal_leBytes]

theorem uint32_bytes_length (be : Bool) (x : Nat) : (uint32_bytes be x).length = 4 :=
  objBytes_length be 4 x

theorem int64_bytes_length (be : Bool) (t : Int) : (int64_bytes be t).length = 8 :=
  objBytes_length be 8 _

theorem objVal_uint32_bytes (be : Bool) (x : Nat) (hx : x < 2 ^ 32) :
    objVal be (uint32_bytes be x) = x := by
  unfold uint32_bytes
  rw [objVal_objBytes]
  exact Nat.mod_eq_of_lt (by norm_num at hx ⊢; exact hx)

theorem int64_of_int64_bytes (be : Bool) (t : Int) (hlo : -2 ^ 63 ≤ t) (hhi : t < 2 ^ 63) :
    int64_of be (int64_bytes be t) = t := by
  unfold int64_of int64_bytes
  rw [objVal_objBytes]
  norm_num at hlo hhi ⊢
  have h1 : ((t % 18446744073709551616).toNat : Int) = t % 18446744073709551616 :=
    Int.toNat_of_nonneg (Int.emod_nonneg _ (by norm_num))
  have h2 : (t % 18446744073709551616).toNat < 18446744073709551616 := by omega
  rw [Nat.mod_eq_of_lt h2]
  split <;> omega


/-! ## Lemmas on `create_message` -/

theorem fill_resize (v : List Byte) (n : Nat) (b : Byte) :
    fill (resize v n 0) b = List.replicate n b := by
  unfold fill resize
  rw [List.eq_replicate_iff]
  constructor
  · simp only [List.length_map, List.length_append, List.length_take, List.length_replicate]
    omega
  · intro x hx
    simp only [List.mem_map] at hx
    obtain ⟨_, _, rfl⟩ := hx
    rfl

theorem Rcl.refresh_base (cur : Rcl.BasePayload) (h : cur.Valid) (payload : Nat) (b : Byte) :
    (Rcl.refresh cur payload b).base_payload = List.replicate payload b := by
  unfold Rcl.refresh
  split
  · exact fill_resize _ _ _
  · rename_i hne
    simp only [not_or, not_not] at hne
    rw [h, hne.1, hne.2]

theorem Rcl.refresh_valid (cur : Rcl.BasePayload) (h : cur.Valid) (payload : Nat) (b : Byte) :
    (Rcl.refresh cur payload b).Valid := by
  unfold Rcl.refresh
  split
  · exact fill_resize _ _ _
  · exact h

theorem memcpy_base (payload : Nat) (b : Byte) :
    memcpy (malloc payload) 0 (List.replicate payload b) payload
      = some (List.replicate payload b) := by
  simp [memcpy, malloc]

theorem memcpy_msg_id (payload : Nat) (b : Byte) (src : List Byte) (hsrc : src.length = 4)
    (hp : 4 ≤ payload) :
    memcpy (List.replicate payload b) 0 src 4 = some (src ++ List.replicate (payload - 4) b) := by
  have : List.take 4 src = src := by rw [← hsrc]; exact List.take_length src
  simp [memcpy, hsrc, hp, this]

theorem memcpy_timestamp (payload : Nat) (b : Byte) (hd src : List Byte) (hhd : hd.length = 4)
    (hsrc : src.length = 8) (hp : 12 ≤ payload) :
    memcpy (hd ++ List.replicate (payload - 4) b) 4 src 8
      = some (hd ++ src ++ List.replicate (payload - 12) b) := by
  have h8 : List.take 8 src = src := by rw [← hsrc]; exact List.take_length src
  have h4 : List.take 4 (hd ++ List.replicate (payload - 4) b) = hd := by
    rw [← hhd]; exact List.take_left _ _
  have hdrop : List.drop (4 + 8) (hd ++ List.replicate (payload - 4) b)
      = List.replicate (payload - 12) b := by
    rw [List.drop_append_eq_append_drop, List.drop_of_length_le (by omega), hhd,
      List.drop_replicate]
    simp only [List.nil_append]
    congr 1
  unfold memcpy
  rw [if_pos (by simp [hhd, hsrc]; omega), h4, h8, hdrop]

/-- Data part of the rcl `create_message` for a payload that has room for the id. -/
theorem Rcl.create_message_data (be : Bool) (st : Rcl.Statics) (hst : st.Valid)
    (payload : Nat) (b : Byte) (msg_id : Nat) (ts : Int) (hp : 4 ≤ payload) :
    (Rcl.create_message be st payload b msg_id ts).1
      = some (frame_layout be payload b msg_id ts) := by
  have hcur : (if b = 0xA1 then st.slot1 else st.slot2).Valid := by
    split
    · exact hst.1
    · exact hst.2
  simp only [Rcl.create_message, Rcl.refresh_base _ hcur, memcpy_base, Option.bind_eq_bind,
    Option.some_bind, memcpy_msg_id payload b _ (uint32_bytes_length be msg_id) hp,
    frame_layout]
  by_cases h12 : 12 ≤ payload
  · rw [if_pos (by omega), if_pos h12]
    exact memcpy_timestamp payload b _ _ (uint32_bytes_length be msg_id)
      (int64_bytes_length be ts) h12
  · rw [if_neg (by omega), if_neg h12]
    rfl

/-- Data of the rclcpp `create_message` for a payload that has room for the id. -/
theorem DualPubSubNode.cpp_create_message_data (be : Bool) (payload : Nat) (b : Byte)
    (msg_id : Nat) (ts : Int) (hp : 4 ≤ payload) :
    DualPubSubNode.create_message be payload b msg_id ts
      = some (frame_layout be payload b msg_id ts) := by
  have hres : resize [] payload b = List.replicate payload b := by simp [resize]
  simp only [DualPubSubNode.create_message, hres, Option.bind_eq_bind,
    memcpy_msg_id payload b _ (uint32_bytes_length be msg_id) hp, Option.some_bind, frame_layout]
  by_cases h12 : 12 ≤ payload
  · rw [if_pos (by omega), if_pos h12]
    exact memcpy_timestamp payload b _ _ (uint32_bytes_length be msg_id)
      (int64_bytes_length be ts) h12
  · rw [if_neg (by omega), if_neg h12]
    rfl

theorem frame_layout_length (be : Bool) (payload : Nat) (b : Byte) (msg_id : Nat) (ts : Int)
    (hp : 4 ≤ payload) : (frame_layout be payload b msg_id ts).length = payload := by
  unfold frame_layout
  split <;> simp [uint32_bytes_length, int64_bytes_length] <;> omega

theorem frame_layout_take4 (be : Bool) (payload : Nat) (b : Byte) (msg_id : Nat) (ts : Int) :
    (frame_layout be payload b msg_id ts).take 4 = uint32_bytes be msg_id := by
  have h := uint32_bytes_length be msg_id
  unfold frame_layout
  split
  · rw [List.append_assoc, ← h]; exact List.take_left _ _
  · rw [← h]; exact List.take_left _ _

theorem frame_layout_timestamp (be : Bool) (payload : Nat) (b : Byte) (msg_id : Nat) (ts : Int)
    (hp : 12 ≤ payload) :
    ((frame_layout be payload b msg_id ts).drop 4).take 8 = int64_bytes be ts := by
  have h := uint32_bytes_length be msg_id
  have h8 := int64_bytes_length be ts
  unfold frame_layout
  rw [if_pos hp, List.append_assoc]
  have : List.drop 4 (uint32_bytes be msg_id ++ (int64_bytes be ts ++ List.replicate (payload - 12) b))
      = int64_bytes be ts ++ List.replicate (payload - 12) b := by
    rw [← h]; exact List.drop_left _ _
  rw [this, ← h8]
  exact List.take_left _ _

theorem read_msg_id_frame_layout (be : Bool) (payload : Nat) (b : Byte) (msg_id : Nat) (ts : Int)
    (hp : 4 ≤ payload) (hid : msg_id < 2 ^ 32) :
    read_msg_id be (frame_layout be payload b msg_id ts) = some msg_id := by
  unfold read_msg_id
  rw [if_pos (by rw [frame_layout_length be payload b msg_id ts hp]; exact hp),
    frame_layout_take4, objVal_uint32_bytes be msg_id hid]

theorem read_send_timestamp_frame_layout (be : Bool) (payload : Nat) (b : Byte) (msg_id : Nat)
    (ts : Int) (hp : 12 ≤ payload) (hlo : -2 ^ 63 ≤ ts) (hhi : ts < 2 ^ 63) :
    read_send_timestamp be (frame_layout be payload b msg_id ts) = some ts := by
  unfold read_send_timestamp
  rw [if_pos (by rw [frame_layout_length be payload b msg_id ts (by omega)]; omega),
    frame_layout_timestamp be payload b msg_id ts hp, int64_of_int64_bytes be ts hlo hhi]

theorem read_send_timestamp_short (be : Bool) (f : Frame) (h : f.length < 12) :
    read_send_timestamp be f = none := by
  unfold read_send_timestamp
  rw [if_neg (by omega)]


theorem memcpy_length (dst : List Byte) (off : Nat) (src : List Byte) (n : Nat) (d : List Byte)
    (h : memcpy dst off src n = some d) : d.length = dst.length := by
  unfold memcpy at h
  split at h
  · rename_i hb
    injection h with h
    subst h
    simp only [List.length_append, List.length_take, List.length_drop]
    omega
  · exact absurd h (by simp)

theorem memcpy_overrun (dst : List Byte) (off : Nat) (src : List Byte) (n : Nat)
    (h : dst.length < off + n) : memcpy dst off src n = none := by
  unfold memcpy
  rw [if_neg (by omega)]

theorem Rcl.create_message_overrun (be : Bool) (st : Rcl.Statics) (payload : Nat) (b : Byte)
    (msg_id : Nat) (ts : Int) (hp : payload < 4) :
    (Rcl.create_message be st payload b msg_id ts).1 = none := by
  simp only [Rcl.create_message, Option.bind_eq_bind]
  cases h0 : memcpy (malloc payload) 0
      (Rcl.refresh (if b = 0xA1 then st.slot1 else st.slot2) payload b).base_payload payload with
  | none => rfl
  | some d0 =>
    have hlen : d0.length = payload := by
      rw [memcpy_length _ _ _ _ _ h0]; simp [malloc]
    simp only [Option.some_bind]
    rw [memcpy_overrun d0 0 _ 4 (by omega)]
    rfl

theorem DualPubSubNode.cpp_create_message_overrun (be : Bool) (payload : Nat) (b : Byte)
    (msg_id : Nat) (ts : Int) (hp : payload < 4) :
    DualPubSubNode.create_message be payload b msg_id ts = none := by
  have hres : resize [] payload b = List.replicate payload b := by simp [resize]
  simp only [DualPubSubNode.create_message, hres, Option.bind_eq_bind]
  rw [memcpy_overrun _ 0 _ 4 (by simp; omega)]
  rfl

theorem Rcl.init_valid : Rcl.Statics.init.Valid := by
  constructor <;> rfl

theorem Rcl.create_message_valid (be : Bool) (st : Rcl.Statics) (hst : st.Valid) (payload : Nat)
    (b : Byte) (msg_id : Nat) (ts : Int) :
    (Rcl.create_message be st payload b msg_id ts).2.Valid := by
  simp only [Rcl.create_message]
  split
  · exact ⟨Rcl.refresh_valid _ hst.1 _ _, hst.2⟩
  · exact ⟨hst.1, Rcl.refresh_valid _ hst.2 _ _⟩

theorem Rcl.statics_after_valid (be : Bool) (calls : List Rcl.Call) :
    (Rcl.statics_after be calls).Valid := by
  unfold Rcl.statics_after
  generalize hst : Rcl.Statics.init = st
  have hv : st.Valid := hst ▸ Rcl.init_valid
  clear hst
  induction calls generalizing st with
  | nil => exact hv
  | cons c cs ih =>
    rw [List.foldl_cons]
    exact ih _ (Rcl.create_message_valid be st hv _ _ _ _)

theorem frame_layout_padding (be : Bool) (payload : Nat) (b : Byte) (msg_id : Nat) (ts : Int)
    (i : Nat) (hlo : (if 12 ≤ payload then 12 else 4) ≤ i) (hi : i < payload) :
    (frame_layout be payload b msg_id ts)[i]? = some b := by
  have h4 := uint32_bytes_length be msg_id
  have h8 := int64_bytes_length be ts
  unfold frame_layout
  split
  · rename_i h12
    rw [if_pos h12] at hlo
    rw [List.getElem?_append_right (by simp [h4, h8]; omega), List.getElem?_replicate,
      if_pos (by simp [h4, h8]; omega)]
  · rename_i h12
    rw [if_neg h12] at hlo
    rw [List.getElem?_append_right (by omega), List.getElem?_replicate,
      if_pos (by omega)]

theorem frame_layout_no_timestamp (be : Bool) (payload : Nat) (b : Byte) (msg_id : Nat)
    (ts : Int) (hp : payload < 12) :
    ((frame_layout be payload b msg_id ts).drop 4).take 8 ≠ int64_bytes be ts := by
  intro h
  have hl := congrArg List.length h
  rw [int64_bytes_length] at hl
  have h4 := uint32_bytes_length be msg_id
  unfold frame_layout at hl
  rw [if_neg (by omega)] at hl
  simp only [List.length_take, List.length_drop, List.length_append, List.length_replicate] at hl
  omega

/-! ## Frame codec: claims C1, C2, C3 -/

/-- C1. Round-trip law of the frame codec, the clock reading being an input of
`create_message`: for every fill byte, every 32-bit `seq`, every 64-bit clock reading `ts`
and every payload size of at least 4, the frame made by `create_message` (in any state of
its statics reached by earlier calls, and as well the frame of the rclcpp
`create_message`) is read back by the receiver as `msg_id = seq`, and as
`send_timestamp = ts` when the payload size is at least 12, as absent when it is in
`[4, 12)`. -/
theorem create_message_roundtrip (be : Bool) (calls : List Rcl.Call) (payload : Nat)
    (fill_byte : Byte) (seq : Nat) (ts : Int) (hseq : seq < 2 ^ 32)
    (hlo : -2 ^ 63 ≤ ts) (hhi : ts < 2 ^ 63) (hp : 4 ≤ payload) :
    ∃ f : Frame,
      (Rcl.create_message be (Rcl.statics_after be calls) payload fill_byte seq ts).1 = some f ∧
      DualPubSubNode.create_message be payload fill_byte seq ts = some f ∧
      read_msg_id be f = some seq ∧
      read_send_timestamp be f = (if 12 ≤ payload then some ts else none) := by
  refine ⟨frame_layout be payload fill_byte seq ts,
    Rcl.create_message_data be _ (Rcl.statics_after_valid be calls) payload fill_byte seq ts hp,
    DualPubSubNode.cpp_create_message_data be payload fill_byte seq ts hp,
    read_msg_id_frame_layout be payload fill_byte seq ts hp hseq, ?_⟩
  split
  · rename_i h12
    exact read_send_timestamp_frame_layout be payload fill_byte seq ts h12 hlo hhi
  · rename_i h12
    exact read_send_timestamp_short be _
      (by rw [frame_layout_length be payload fill_byte seq ts hp]; omega)

/-- Instance of C1: payload 20, fill byte 0xA1, id 7, clock reading 1000, after one
earlier call with another size. -/
theorem create_message_roundtrip_witness :
    (7 < 2 ^ 32 ∧ (-2 ^ 63 : Int) ≤ 1000 ∧ (1000 : Int) < 2 ^ 63 ∧ 4 ≤ 20) ∧
    ∃ f : Frame,
      (Rcl.create_message false (Rcl.statics_after false [(8, 0xA1, 6, 900)]) 20 0xA1 7 1000).1
        = some f ∧
      DualPubSubNode.create_message false 20 0xA1 7 1000 = some f ∧
      read_msg_id false f = some 7 ∧
      read_send_timestamp false f = (if 12 ≤ 20 then some 1000 else none) :=
  ⟨by norm_num, create_message_roundtrip false [(8, 0xA1, 6, 900)] 20 0xA1 7 1000
    (by norm_num) (by norm_num) (by norm_num) (by norm_num)⟩

/-- C2. For every payload size of at least 4, every fill byte and every `seq`, the frame
returned by `create_message` (both programs) has exactly `payload` bytes, bytes `[0,4)`
are the four bytes of `seq`, bytes `[4,12)` are the eight bytes of the clock reading if
and only if `payload ≥ 12`, and every other byte equals the fill byte. -/
theorem create_message_layout (be : Bool) (calls : List Rcl.Call) (payload : Nat)
    (fill_byte : Byte) (seq : Nat) (ts : Int) (hp : 4 ≤ payload) :
    ∃ f : Frame,
      (Rcl.create_message be (Rcl.statics_after be calls) payload fill_byte seq ts).1 = some f ∧
      DualPubSubNode.create_message be payload fill_byte seq ts = some f ∧
      f.length = payload ∧
      f.take 4 = uint32_bytes be seq ∧
      ((f.drop 4).take 8 = int64_bytes be ts ↔ 12 ≤ payload) ∧
      ∀ i : Nat, (if 12 ≤ payload then 12 else 4) ≤ i → i < payload → f[i]? = some fill_byte := by
  refine ⟨frame_layout be payload fill_byte seq ts,
    Rcl.create_message_data be _ (Rcl.statics_after_valid be calls) payload fill_byte seq ts hp,
    DualPubSubNode.cpp_create_message_data be payload fill_byte seq ts hp,
    frame_layout_length be payload fill_byte seq ts hp,
    frame_layout_take4 be payload fill_byte seq ts, ?_,
    fun i hlo hi => frame_layout_padding be payload fill_byte seq ts i hlo hi⟩
  constructor
  · intro h
    by_contra h12
    exact frame_layout_no_timestamp be payload fill_byte seq ts (by omega) h
  · intro h12
    exact frame_layout_timestamp be payload fill_byte seq ts h12

/-- Instance of C2: payload 6 on a big-endian host, no room for the timestamp. -/
theorem create_message_layout_witness :
    4 ≤ 6 ∧
    ∃ f : Frame,
      (Rcl.create_message true (Rcl.statics_after true []) 6 0xB2 258 5).1 = some f ∧
      DualPubSubNode.create_message true 6 0xB2 258 5 = some f ∧
      f.length = 6 ∧
      f.take 4 = uint32_bytes true 258 ∧
      ((f.drop 4).take 8 = int64_bytes true 5 ↔ 12 ≤ 6) ∧
      ∀ i : Nat, (if 12 ≤ 6 then 12 else 4) ≤ i → i < 6 → f[i]? = some 0xB2 :=
  ⟨by decide, create_message_layout true [] 6 0xB2 258 5 (by decide)⟩

/-- C3 (what the code does). For every payload size in `0..3`, whatever the statics,
fill byte, id and clock reading, `create_message` of both programs copies the four bytes
of the id into a buffer of fewer than four bytes: the copy writes past the end of the
buffer and no frame of `payload` bytes is defined. -/
theorem create_message_small_payload_overruns (be : Bool) (st : Rcl.Statics)
    (payload : Fin 4) (fill_byte : Byte) (msg_id : Nat) (ts : Int) :
    (Rcl.create_message be st payload.val fill_byte msg_id ts).1 = none ∧
    DualPubSubNode.create_message be payload.val fill_byte msg_id ts = none ∧
    memcpy (List.replicate payload.val fill_byte) 0 (uint32_bytes be msg_id) 4 = none :=
  ⟨Rcl.create_message_overrun be st payload.val fill_byte msg_id ts payload.isLt,
   DualPubSubNode.cpp_create_message_overrun be payload.val fill_byte msg_id ts payload.isLt,
   memcpy_overrun _ 0 _ 4 (by simp)⟩


/-! ## Receive step: lemmas -/

theorem read_msg_id_short (be : Bool) (f : Frame) (h : f.length < 4) :
    read_msg_id be f = none := by
  unfold read_msg_id
  rw [if_neg (by omega)]

/-- Effect of a message without id on the sequence bookkeeping. -/
theorem on_message_no_id (count_mod : Nat) (be : Bool) (w : StatWindow) (data : Frame)
    (recv : Int) (h : read_msg_id be data = none) :
    (on_message count_mod be w data recv).first_msg = w.first_msg ∧
    (on_message count_mod be w data recv).first_msg_id = w.first_msg_id ∧
    (on_message count_mod be w data recv).last_msg_id = w.last_msg_id ∧
    (on_message count_mod be w data recv).missed_events = w.missed_events := by
  unfold on_message
  simp only [h]
  split <;> simp

/-- Effect of the first id-bearing message on the sequence bookkeeping. -/
theorem on_message_first_id (count_mod : Nat) (be : Bool) (w : StatWindow) (data : Frame)
    (recv : Int) (msg_id : Nat) (h : read_msg_id be data = some msg_id)
    (hf : w.first_msg = true) :
    (on_message count_mod be w data recv).first_msg = false ∧
    (on_message count_mod be w data recv).first_msg_id = msg_id ∧
    (on_message count_mod be w data recv).last_msg_id = msg_id ∧
    (on_message count_mod be w data recv).missed_events = w.missed_events := by
  unfold on_message
  simp only [h, hf]
  split <;> simp

/-- Effect of a later id-bearing message on the sequence bookkeeping. -/
theorem on_message_next_id (count_mod : Nat) (be : Bool) (w : StatWindow) (data : Frame)
    (recv : Int) (msg_id : Nat) (h : read_msg_id be data = some msg_id)
    (hf : w.first_msg = false) :
    (on_message count_mod be w data recv).first_msg = false ∧
    (on_message count_mod be w data recv).first_msg_id = w.first_msg_id ∧
    (on_message count_mod be w data recv).last_msg_id = msg_id ∧
    (on_message count_mod be w data recv).missed_events =
      (if msg_id > (w.last_msg_id + 1) % 2 ^ 32 then (w.missed_events + 1) % 2 ^ 32
       else w.missed_events) := by
  by_cases hc : (w.last_msg_id + 1) % 4294967296 < msg_id <;>
    cases hts : read_send_timestamp be data <;>
    simp [on_message, h, hf, hc, hts]

theorem receive_all_cons (count_mod : Nat) (be : Bool) (w : StatWindow) (m : Frame × Int)
    (ms : List (Frame × Int)) :
    receive_all count_mod be w (m :: ms)
      = receive_all count_mod be (on_message count_mod be w m.1 m.2) ms := rfl

theorem receive_all_append (count_mod : Nat) (be : Bool) (w : StatWindow)
    (ms more : List (Frame × Int)) :
    receive_all count_mod be w (ms ++ more)
      = receive_all count_mod be (receive_all count_mod be w ms) more := by
  unfold receive_all
  rw [List.foldl_append]

theorem received_ids_cons_none (be : Bool) (m : Frame × Int) (ms : List (Frame × Int))
    (h : read_msg_id be m.1 = none) : received_ids be (m :: ms) = received_ids be ms := by
  simp [received_ids, List.filterMap_cons, h]

theorem received_ids_cons_some (be : Bool) (m : Frame × Int) (ms : List (Frame × Int))
    (a : Nat) (h : read_msg_id be m.1 = some a) :
    received_ids be (m :: ms) = a :: received_ids be ms := by
  simp [received_ids, List.filterMap_cons, h]

theorem getLast?_cons_cons_some (a b : Nat) (l : List Nat) :
    (a :: b :: l).getLast? = (b :: l).getLast? := by
  simp [List.getLast?_cons_cons]

/-- Sequence bookkeeping after a run of messages, from a window that has seen an id. -/
theorem receive_all_tracked (count_mod : Nat) (be : Bool) (ms : List (Frame × Int))
    (w : StatWindow) (hf : w.first_msg = false) :
    (receive_all count_mod be w ms).first_msg = false ∧
    (receive_all count_mod be w ms).first_msg_id = w.first_msg_id ∧
    some (receive_all count_mod be w ms).last_msg_id
      = (w.last_msg_id :: received_ids be ms).getLast? ∧
    (receive_all count_mod be w ms).missed_events % 2 ^ 32
      = (w.missed_events + gap_events_u32 (w.last_msg_id :: received_ids be ms)) % 2 ^ 32 := by
  induction ms generalizing w with
  | nil => simp [receive_all, received_ids, gap_events_u32, hf]
  | cons m ms ih =>
    rw [receive_all_cons]
    cases h : read_msg_id be m.1 with
    | none =>
      obtain ⟨h1, h2, h3, h4⟩ := on_message_no_id count_mod be w m.1 m.2 h
      obtain ⟨i1, i2, i3, i4⟩ := ih _ (h1.trans hf)
      rw [received_ids_cons_none be m ms h]
      refine ⟨i1, i2.trans h2, ?_, ?_⟩
      · rw [i3, h3]
      · rw [i4, h3, h4]
    | some a =>
      obtain ⟨h1, h2, h3, h4⟩ := on_message_next_id count_mod be w m.1 m.2 a h hf
      obtain ⟨i1, i2, i3, i4⟩ := ih _ h1
      rw [received_ids_cons_some be m ms a h]
      refine ⟨i1, i2.trans h2, ?_, ?_⟩
      · rw [i3, h3, getLast?_cons_cons_some]
      · rw [i4, h3, h4]
        simp only [gap_events_u32]
        split <;> omega

/-- Sequence bookkeeping after a run of messages, from a window that has seen no id. -/
theorem receive_all_untracked (count_mod : Nat) (be : Bool) (ms : List (Frame × Int))
    (w : StatWindow) (hf : w.first_msg = true) :
    (received_ids be ms = [] →
      (receive_all count_mod be w ms).first_msg = true ∧
      (receive_all count_mod be w ms).first_msg_id = w.first_msg_id ∧
      (receive_all count_mod be w ms).last_msg_id = w.last_msg_id ∧
      (receive_all count_mod be w ms).missed_events = w.missed_events) ∧
    (received_ids be ms ≠ [] →
      (receive_all count_mod be w ms).first_msg = false ∧
      some (receive_all count_mod be w ms).first_msg_id = (received_ids be ms).head? ∧
      some (receive_all count_mod be w ms).last_msg_id = (received_ids be ms).getLast? ∧
      (receive_all count_mod be w ms).missed_events % 2 ^ 32
        = (w.missed_events + gap_events_u32 (received_ids be ms)) % 2 ^ 32) := by
  induction ms generalizing w with
  | nil => simp [receive_all, received_ids, hf]
  | cons m ms ih =>
    rw [receive_all_cons]
    cases h : read_msg_id be m.1 with
    | none =>
      obtain ⟨h1, h2, h3, h4⟩ := on_message_no_id count_mod be w m.1 m.2 h
      obtain ⟨i1, i2⟩ := ih _ (h1.trans hf)
      rw [received_ids_cons_none be m ms h]
      constructor
      · intro he
        obtain ⟨j1, j2, j3, j4⟩ := i1 he
        exact ⟨j1, j2.trans h2, j3.trans h3, j4.trans h4⟩
      · intro hne
        obtain ⟨j1, j2, j3, j4⟩ := i2 hne
        exact ⟨j1, j2, j3, by rw [j4, h4]⟩
    | some a =>
      obtain ⟨h1, h2, h3, h4⟩ := on_message_first_id count_mod be w m.1 m.2 a h hf
      obtain ⟨i1, i2, i3, i4⟩ := receive_all_tracked count_mod be ms _ h1
      rw [received_ids_cons_some be m ms a h]
      constructor
      · intro he
        exact absurd he (by simp)
      · intro _
        refine ⟨i1, ?_, ?_, ?_⟩
        · rw [i2, h2]; rfl
        · rw [i3, h3]
        · rw [i4, h3, h4]

theorem gap_events_u32_cons_le (a : Nat) (rest : List Nat) :
    gap_events_u32 (a :: rest) ≤ rest.length := by
  induction rest generalizing a with
  | nil => simp [gap_events_u32]
  | cons b rest ih =>
    have := ih b
    simp only [gap_events_u32, List.length_cons]
    split <;> omega

theorem gap_events_u32_lt (ids : List Nat) (hne : ids ≠ []) :
    gap_events_u32 ids < ids.length := by
  cases ids with
  | nil => exact absurd rfl hne
  | cons a rest =>
    have := gap_events_u32_cons_le a rest
    simp only [List.length_cons]
    omega

theorem received_ids_length_le (be : Bool) (ms : List (Frame × Int)) :
    (received_ids be ms).length ≤ ms.length := by
  unfold received_ids
  exact List.length_filterMap_le _ _

theorem receive_all_missed_lt (count_mod : Nat) (be : Bool) (ms : List (Frame × Int))
    (w : StatWindow) (hw : w.missed_events < 2 ^ 32) :
    (receive_all count_mod be w ms).missed_events < 2 ^ 32 := by
  induction ms generalizing w with
  | nil => exact hw
  | cons m ms ih =>
    rw [receive_all_cons]
    apply ih
    cases h : read_msg_id be m.1 with
    | none => rw [(on_message_no_id count_mod be w m.1 m.2 h).2.2.2]; exact hw
    | some a =>
      cases hf : w.first_msg with
      | true => rw [(on_message_first_id count_mod be w m.1 m.2 a h hf).2.2.2]; exact hw
      | false =>
        rw [(on_message_next_id count_mod be w m.1 m.2 a h hf).2.2.2]
        split
        · exact Nat.mod_lt _ (by norm_num)
        · exact hw


theorem uint32_sub_of_le (a b : Nat) (hab : b ≤ a) (ha : a < 2 ^ 32) :
    uint32_sub a b = a - b := by
  unfold uint32_sub
  norm_num at ha ⊢
  omega

/-! ## Receive statistics: claims C4, C7, C8, C9, C10 -/

/-- C4. A received frame shorter than 4 bytes only increments the cumulative count of its
channel (the `++` of the counter type: modulo `2 ^ 32` in the rcl program, modulo `2 ^ 64`
in the rclcpp node) and records its length as the payload size; every other field of
the window (first-seen id, last-seen id, first-frame flag, missed events, latency sum,
latency count, snapshots) is unchanged. The step is a total function: it has a result for
every frame. For a frame of length in `[4, 12)` the latency sum and the latency sample
count are unchanged. -/
theorem short_frame_is_only_counted (be : Bool) (w : StatWindow) (data : Frame) (recv : Int) :
    (data.length < 4 →
      Rcl.take_message be w data recv
        = { w with count := (w.count + 1) % 2 ^ 32, payload_size := data.length } ∧
      DualPubSubNode.subscription1_callback be w data recv
        = { w with count := (w.count + 1) % 2 ^ 64, payload_size := data.length }) ∧
    (4 ≤ data.length → data.length < 12 →
      (Rcl.take_message be w data recv).latency_sum = w.latency_sum ∧
      (Rcl.take_message be w data recv).latency_count = w.latency_count ∧
      (DualPubSubNode.subscription1_callback be w data recv).latency_sum = w.latency_sum ∧
      (DualPubSubNode.subscription1_callback be w data recv).latency_count
        = w.latency_count) := by
  constructor
  · intro h
    simp [Rcl.take_message, DualPubSubNode.subscription1_callback, on_message,
      read_msg_id_short be data h, read_send_timestamp_short be data (by omega)]
  · intro _ h12
    have hts := read_send_timestamp_short be data h12
    simp only [Rcl.take_message, DualPubSubNode.subscription1_callback, on_message, hts]
    cases read_msg_id be data with
    | none => simp
    | some a => simp only []; split <;> [simp; (split <;> simp)]

/-- Instance of C4: a 2-byte frame on a fresh window, and a 6-byte frame. -/
theorem short_frame_is_only_counted_witness :
    (Rcl.take_message false StatWindow.init [0xA1, 0xA1] 0
        = { StatWindow.init with count := (0 + 1) % 2 ^ 32, payload_size := 2 } ∧
      DualPubSubNode.subscription1_callback false StatWindow.init [0xA1, 0xA1] 0
        = { StatWindow.init with count := (0 + 1) % 2 ^ 64, payload_size := 2 }) ∧
    ((Rcl.take_message false StatWindow.init [7, 0, 0, 0, 0xA1, 0xA1] 0).latency_sum = 0 ∧
      (Rcl.take_message false StatWindow.init [7, 0, 0, 0, 0xA1, 0xA1] 0).latency_count = 0 ∧
      (DualPubSubNode.subscription1_callback false StatWindow.init
        [7, 0, 0, 0, 0xA1, 0xA1] 0).latency_sum = 0 ∧
      (DualPubSubNode.subscription1_callback false StatWindow.init
        [7, 0, 0, 0, 0xA1, 0xA1] 0).latency_count = 0) :=
  ⟨(short_frame_is_only_counted false StatWindow.init [0xA1, 0xA1] 0).1 (by decide),
   (short_frame_is_only_counted false StatWindow.init [7, 0, 0, 0, 0xA1, 0xA1] 0).2
     (by decide) (by decide)⟩

/-- Counterexample to C7 as worded: after id `2 ^ 32 - 1` the id 5 is counted as a missed event,
because `last_msg_id + 1` wraps to 0 in `uint32_t`, while over the integers 5 is not
greater than `2 ^ 32`. -/
theorem gap_comparison_wraps :
    received_ids false (id_frames false [4294967295, 5]) = [4294967295, 5] ∧
    (receive_all (2 ^ 32) false StatWindow.init
      (id_frames false [4294967295, 5])).missed_events = 1 ∧
    (receive_all (2 ^ 64) false StatWindow.init
      (id_frames false [4294967295, 5])).missed_events = 1 ∧
    gap_events_int [4294967295, 5] = 0 := by
  refine ⟨by decide, by decide, by decide, by decide⟩

/-- C7 (amended). Gap detection counts gap events, not missing messages: for every
sequence of at most `2 ^ 32` received frames the missed-event count equals the number of
positions `i ≥ 1` of the sequence of received ids at which the id is greater than the
previous id plus 1, the sum being taken in `uint32_t` (in general the two are equal
modulo `2 ^ 32`); each frame raises the count by at most 1; receiving the ids
`0,1,2,5,6` yields exactly 1 missed event and `last - first = 6`. -/
theorem missed_events_counts_gap_events (count_mod : Nat) (be : Bool)
    (msgs : List (Frame × Int)) :
    (msgs.length ≤ 2 ^ 32 →
      (receive_all count_mod be StatWindow.init msgs).missed_events
        = gap_events_u32 (received_ids be msgs)) ∧
    (receive_all count_mod be StatWindow.init msgs).missed_events
      = gap_events_u32 (received_ids be msgs) % 2 ^ 32 ∧
    (∀ (w : StatWindow) (data : Frame) (recv : Int),
      (on_message count_mod be w data recv).missed_events = w.missed_events ∨
      (on_message count_mod be w data recv).missed_events = (w.missed_events + 1) % 2 ^ 32) ∧
    (received_ids be msgs = [0, 1, 2, 5, 6] →
      (receive_all count_mod be StatWindow.init msgs).missed_events = 1 ∧
      uint32_sub (receive_all count_mod be StatWindow.init msgs).last_msg_id
        (receive_all count_mod be StatWindow.init msgs).first_msg_id = 6) := by
  have hlt := receive_all_missed_lt count_mod be msgs StatWindow.init (by decide)
  have hun := receive_all_untracked count_mod be msgs StatWindow.init rfl
  have hmod : (receive_all count_mod be StatWindow.init msgs).missed_events
      = gap_events_u32 (received_ids be msgs) % 2 ^ 32 := by
    by_cases he : received_ids be msgs = []
    · rw [(hun.1 he).2.2.2, he]; rfl
    · have h4 := (hun.2 he).2.2.2
      rw [Nat.mod_eq_of_lt hlt] at h4
      rw [h4]
      simp [StatWindow.init]
  refine ⟨?_, hmod, ?_, ?_⟩
  · intro hlen
    rw [hmod]
    apply Nat.mod_eq_of_lt
    have h2 := received_ids_length_le be msgs
    by_cases he : received_ids be msgs = []
    · rw [he]; decide
    · have h3 := gap_events_u32_lt (received_ids be msgs) he
      omega
  · intro w data recv
    cases h : read_msg_id be data with
    | none => exact Or.inl (on_message_no_id count_mod be w data recv h).2.2.2
    | some a =>
      cases hf : w.first_msg with
      | true => exact Or.inl (on_message_first_id count_mod be w data recv a h hf).2.2.2
      | false =>
        rw [(on_message_next_id count_mod be w data recv a h hf).2.2.2]
        split
        · exact Or.inr rfl
        · exact Or.inl rfl
  · intro hids
    have hne : received_ids be msgs ≠ [] := by rw [hids]; simp
    obtain ⟨_, hfirst, hlast, _⟩ := hun.2 hne
    rw [hids] at hfirst hlast
    simp only [List.head?_cons, Option.some.injEq] at hfirst
    have hlast6 : (receive_all count_mod be StatWindow.init msgs).last_msg_id = 6 := by
      have : ([0, 1, 2, 5, 6] : List Nat).getLast? = some 6 := by decide
      rw [this] at hlast
      exact Option.some.inj hlast
    refine ⟨?_, ?_⟩
    · rw [hmod, hids]; decide
    · rw [hlast6, hfirst]; decide

/-- Instance of C7 (amended): the five 4-byte frames with ids 0, 1, 2, 5, 6. -/
theorem missed_events_counts_gap_events_witness :
    received_ids false (id_frames false [0, 1, 2, 5, 6]) = [0, 1, 2, 5, 6] ∧
    (receive_all (2 ^ 32) false StatWindow.init
      (id_frames false [0, 1, 2, 5, 6])).missed_events = 1 ∧
    uint32_sub
      (receive_all (2 ^ 32) false StatWindow.init (id_frames false [0, 1, 2, 5, 6])).last_msg_id
      (receive_all (2 ^ 32) false StatWindow.init (id_frames false [0, 1, 2, 5, 6])).first_msg_id
      = 6 :=
  ⟨by decide,
   (missed_events_counts_gap_events (2 ^ 32) false (id_frames false [0, 1, 2, 5, 6])).2.2.2
     (by decide)⟩


/-- C8. For every sequence of received frames with at least one id-bearing frame (first
id `a`, most recent id `b`), after processing it from the initial window the first-seen
id is `a` and the last-seen id is `b`; the first-seen id stays `a` whatever frames
follow; and a single id-bearing frame always sets the last-seen id to its own id,
whatever the previous last-seen id was (no reordering correction). -/
theorem first_and_last_seen_id (count_mod : Nat) (be : Bool) (msgs more : List (Frame × Int))
    (a b : Nat) (hfirst : (received_ids be msgs).head? = some a)
    (hlast : (received_ids be msgs).getLast? = some b) :
    (receive_all count_mod be StatWindow.init msgs).first_msg = false ∧
    (receive_all count_mod be StatWindow.init msgs).first_msg_id = a ∧
    (receive_all count_mod be StatWindow.init msgs).last_msg_id = b ∧
    (receive_all count_mod be StatWindow.init (msgs ++ more)).first_msg_id = a ∧
    (∀ (w : StatWindow) (data : Frame) (recv : Int) (msg_id : Nat),
      read_msg_id be data = some msg_id →
      (on_message count_mod be w data recv).last_msg_id = msg_id) := by
  have hne : received_ids be msgs ≠ [] := by
    intro he; rw [he] at hfirst; simp at hfirst
  obtain ⟨h1, h2, h3, _⟩ := (receive_all_untracked count_mod be msgs StatWindow.init rfl).2 hne
  rw [hfirst] at h2
  rw [hlast] at h3
  have h2 := Option.some.inj h2
  refine ⟨h1, h2, Option.some.inj h3, ?_, ?_⟩
  · rw [receive_all_append, (receive_all_tracked count_mod be more _ h1).2.1, h2]
  · intro w data recv msg_id h
    cases hf : w.first_msg with
    | true => exact (on_message_first_id count_mod be w data recv msg_id h hf).2.2.1
    | false => exact (on_message_next_id count_mod be w data recv msg_id h hf).2.2.1

/-- Instance of C8: ids 5, 9, 3 arrive out of order, then id 1. -/
theorem first_and_last_seen_id_witness :
    ((received_ids false (id_frames false [5, 9, 3])).head? = some 5 ∧
      (received_ids false (id_frames false [5, 9, 3])).getLast? = some 3) ∧
    (receive_all (2 ^ 32) false StatWindow.init (id_frames false [5, 9, 3])).first_msg = false ∧
    (receive_all (2 ^ 32) false StatWindow.init (id_frames false [5, 9, 3])).first_msg_id = 5 ∧
    (receive_all (2 ^ 32) false StatWindow.init (id_frames false [5, 9, 3])).last_msg_id = 3 ∧
    (receive_all (2 ^ 32) false StatWindow.init
      (id_frames false [5, 9, 3] ++ id_frames false [1])).first_msg_id = 5 :=
  ⟨by decide,
   (first_and_last_seen_id (2 ^ 32) false (id_frames false [5, 9, 3]) (id_frames false [1])
      5 3 (by decide) (by decide)).1,
   (first_and_last_seen_id (2 ^ 32) false (id_frames false [5, 9, 3]) (id_frames false [1])
      5 3 (by decide) (by decide)).2.1,
   (first_and_last_seen_id (2 ^ 32) false (id_frames false [5, 9, 3]) (id_frames false [1])
      5 3 (by decide) (by decide)).2.2.1,
   (first_and_last_seen_id (2 ^ 32) false (id_frames false [5, 9, 3]) (id_frames false [1])
      5 3 (by decide) (by decide)).2.2.2.1⟩

/-- C9. At a reporting tick, a channel whose cumulative received count equals its
last-snapshot count is reported with loss rate exactly 100, for every value of the
first-seen id, last-seen id, first-frame flag and missed-event count. -/
theorem silent_window_reports_full_loss (w : StatWindow)
    (h : w.count_last_second = w.count) : loss_rate w = 100 := by
  unfold loss_rate
  rw [if_pos h]

/-- Instance of C9: a window with a history of ids and gaps, count equal to its snapshot. -/
theorem silent_window_reports_full_loss_witness :
    (snapshot (receive_all (2 ^ 32) false StatWindow.init
        (id_frames false [0, 1, 2, 5, 6]))).count_last_second
      = (snapshot (receive_all (2 ^ 32) false StatWindow.init
        (id_frames false [0, 1, 2, 5, 6]))).count ∧
    loss_rate (snapshot (receive_all (2 ^ 32) false StatWindow.init
      (id_frames false [0, 1, 2, 5, 6]))) = 100 :=
  ⟨rfl, silent_window_reports_full_loss _ rfl⟩

/-- Counterexample to C10 as worded: after the ids 5, 9, 3 (one gap event, last-seen below first-seen)
the reported loss rate is `1 / (2 ^ 32 - 2) * 100`, the difference `last - first` being
taken in `uint32_t`, while with the integer difference `3 - 5` the formula gives `-50`. -/
theorem loss_rate_uses_wrapping_difference :
    (receive_all (2 ^ 32) false StatWindow.init (id_frames false [5, 9, 3])).count_last_second
      ≠ (receive_all (2 ^ 32) false StatWindow.init (id_frames false [5, 9, 3])).count ∧
    loss_rate (receive_all (2 ^ 32) false StatWindow.init (id_frames false [5, 9, 3]))
      = 1 / 4294967294 * 100 ∧
    ((receive_all (2 ^ 32) false StatWindow.init (id_frames false [5, 9, 3])).missed_events : ℚ)
      / (((receive_all (2 ^ 32) false StatWindow.init (id_frames false [5, 9, 3])).last_msg_id : ℚ)
        - ((receive_all (2 ^ 32) false StatWindow.init
            (id_frames false [5, 9, 3])).first_msg_id : ℚ)) * 100 = -50 := by
  have hc : (receive_all (2 ^ 32) false StatWindow.init (id_frames false [5, 9, 3])).count = 3 := by
    decide
  have hs : (receive_all (2 ^ 32) false StatWindow.init
      (id_frames false [5, 9, 3])).count_last_second = 0 := by decide
  have hf : (receive_all (2 ^ 32) false StatWindow.init
      (id_frames false [5, 9, 3])).first_msg = false := by decide
  have hm : (receive_all (2 ^ 32) false StatWindow.init
      (id_frames false [5, 9, 3])).missed_events = 1 := by decide
  have hl : (receive_all (2 ^ 32) false StatWindow.init
      (id_frames false [5, 9, 3])).last_msg_id = 3 := by decide
  have hi : (receive_all (2 ^ 32) false StatWindow.init
      (id_frames false [5, 9, 3])).first_msg_id = 5 := by decide
  have hsub : uint32_sub 3 5 = 4294967294 := by decide
  refine ⟨by rw [hc, hs]; decide, ?_, ?_⟩
  · unfold loss_rate
    rw [hc, hs, hf, hm, hl, hi, hsub]
    norm_num
  · rw [hm, hl, hi]
    norm_num

/-- C10 (amended). At a reporting tick at which new messages arrived since the last
snapshot, the reported loss rate is `missed_events / total_expected * 100`, where
`total_expected` is 0 while no id-bearing frame has been received and otherwise the
difference `last_msg_id - first_msg_id` taken in `uint32_t` (the integer difference when
`first ≤ last`), and it is 0 when `total_expected = 0`; for the received ids
`0,1,2,5,6` it is `1 / 6 * 100`. -/
theorem loss_rate_formula (w : StatWindow) (hnew : w.count_last_second ≠ w.count) :
    loss_rate w =
      (if (if w.first_msg then 0 else uint32_sub w.last_msg_id w.first_msg_id) = 0 then 0
       else (w.missed_events : ℚ)
         / ((if w.first_msg then 0 else uint32_sub w.last_msg_id w.first_msg_id : Nat) : ℚ)
         * 100) ∧
    (w.first_msg_id ≤ w.last_msg_id → w.last_msg_id < 2 ^ 32 →
      uint32_sub w.last_msg_id w.first_msg_id = w.last_msg_id - w.first_msg_id) ∧
    loss_rate (receive_all (2 ^ 32) false StatWindow.init (id_frames false [0, 1, 2, 5, 6]))
      = 1 / 6 * 100 := by
  refine ⟨?_, uint32_sub_of_le _ _, ?_⟩
  · unfold loss_rate
    rw [if_neg hnew]
  · have hc : (receive_all (2 ^ 32) false StatWindow.init
        (id_frames false [0, 1, 2, 5, 6])).count = 5 := by decide
    have hs : (receive_all (2 ^ 32) false StatWindow.init
        (id_frames false [0, 1, 2, 5, 6])).count_last_second = 0 := by decide
    have hf : (receive_all (2 ^ 32) false StatWindow.init
        (id_frames false [0, 1, 2, 5, 6])).first_msg = false := by decide
    have hm : (receive_all (2 ^ 32) false StatWindow.init
        (id_frames false [0, 1, 2, 5, 6])).missed_events = 1 := by decide
    have hl : (receive_all (2 ^ 32) false StatWindow.init
        (id_frames false [0, 1, 2, 5, 6])).last_msg_id = 6 := by decide
    have hi : (receive_all (2 ^ 32) false StatWindow.init
        (id_frames false [0, 1, 2, 5, 6])).first_msg_id = 0 := by decide
    have hsub : uint32_sub 6 0 = 6 := by decide
    unfold loss_rate
    rw [hc, hs, hf, hm, hl, hi, hsub]
    norm_num

/-- Instance of C10 (amended): the window after the ids 5, 9, 3, where the difference
`3 - 5` is taken in `uint32_t`. -/
theorem loss_rate_formula_witness :
    (receive_all (2 ^ 32) false StatWindow.init (id_frames false [5, 9, 3])).count_last_second
      ≠ (receive_all (2 ^ 32) false StatWindow.init (id_frames false [5, 9, 3])).count ∧
    loss_rate (receive_all (2 ^ 32) false StatWindow.init (id_frames false [5, 9, 3]))
      = (if (if (receive_all (2 ^ 32) false StatWindow.init
                (id_frames false [5, 9, 3])).first_msg then 0
             else uint32_sub
               (receive_all (2 ^ 32) false StatWindow.init
                 (id_frames false [5, 9, 3])).last_msg_id
               (receive_all (2 ^ 32) false StatWindow.init
                 (id_frames false [5, 9, 3])).first_msg_id) = 0 then 0
         else ((receive_all (2 ^ 32) false StatWindow.init
                 (id_frames false [5, 9, 3])).missed_events : ℚ)
           / ((if (receive_all (2 ^ 32) false StatWindow.init
                    (id_frames false [5, 9, 3])).first_msg then 0
               else uint32_sub
                 (receive_all (2 ^ 32) false StatWindow.init
                   (id_frames false [5, 9, 3])).last_msg_id
                 (receive_all (2 ^ 32) false StatWindow.init
                   (id_frames false [5, 9, 3])).first_msg_id : Nat) : ℚ)
           * 100) :=
  ⟨by decide,
   (loss_rate_formula (receive_all (2 ^ 32) false StatWindow.init (id_frames false [5, 9, 3]))
      (by decide)).1⟩

/-! ## Publisher loops: lemmas -/

theorem Rcl.thread_iter_left (be : Bool) (duration rate : ℚ) (payload : Nat) (b : Byte)
    (s : Rcl.ThreadLoop) (t : Rcl.ThreadTick)
    (h : t.should_stop = true ∨ duration_over duration s.start t.now) :
    Rcl.publisher_thread_iter be duration rate payload b s t = none := by
  unfold Rcl.publisher_thread_iter
  rcases h with h | h
  · simp [h]
  · simp [h]

theorem Rcl.thread_iter_due (be : Bool) (duration rate : ℚ) (payload : Nat) (b : Byte)
    (s : Rcl.ThreadLoop) (t : Rcl.ThreadTick) (hstop : t.should_stop = false)
    (hdur : ¬ duration_over duration s.start t.now) (hdue : s.ch.next_pub ≤ t.now) :
    ∃ (s1 : Rcl.ThreadLoop) (status : Option ℚ),
      Rcl.publisher_thread_iter be duration rate payload b s t
        = some (s1, status,
            some { msg_id := s.ch.msg_id,
                   data := (Rcl.create_message be s.statics payload b s.ch.msg_id t.timestamp).1,
                   published := t.send_ok }) ∧
      s1.ch.msg_id = (if t.send_ok then (s.ch.msg_id + 1) % 2 ^ 32 else s.ch.msg_id) ∧
      s1.ch.count = (if t.send_ok then (s.ch.count + 1) % 2 ^ 64 else s.ch.count) ∧
      s1.ch.next_pub = add_ms t.now (trunc_int (interval_ms rate)) ∧
      s1.statics = (Rcl.create_message be s.statics payload b s.ch.msg_id t.timestamp).2 ∧
      s1.start = s.start := by
  unfold Rcl.publisher_thread_iter
  by_cases hst : seconds (t.now - s.last_status) ≥ 1 <;>
    cases hok : t.send_ok <;>
    simp [hstop, hdur, hst, hdue, hok, Rcl.emit]

theorem Rcl.thread_iter_not_due (be : Bool) (duration rate : ℚ) (payload : Nat) (b : Byte)
    (s : Rcl.ThreadLoop) (t : Rcl.ThreadTick) (hstop : t.should_stop = false)
    (hdur : ¬ duration_over duration s.start t.now) (hdue : ¬ s.ch.next_pub ≤ t.now) :
    ∃ (s1 : Rcl.ThreadLoop) (status : Option ℚ),
      Rcl.publisher_thread_iter be duration rate payload b s t = some (s1, status, none) ∧
      s1.ch.msg_id = s.ch.msg_id ∧
      s1.ch.count = s.ch.count ∧
      s1.ch.next_pub = s.ch.next_pub ∧
      s1.statics = s.statics ∧
      s1.start = s.start := by
  unfold Rcl.publisher_thread_iter
  by_cases hst : seconds (t.now - s.last_status) ≥ 1 <;>
    simp [hstop, hdur, hst, hdue]


theorem Rcl.dual_iter_left (be : Bool) (duration rate1 rate2 : ℚ) (payload1 payload2 : Nat)
    (d : Rcl.DualLoop) (u : Rcl.DualTick) (h : duration_over duration d.start u.now) :
    Rcl.run_dual_publisher_iter be duration rate1 rate2 payload1 payload2 d u = none := by
  unfold Rcl.run_dual_publisher_iter
  simp [h]

theorem Rcl.dual_iter_not_left (be : Bool) (duration rate1 rate2 : ℚ) (payload1 payload2 : Nat)
    (d : Rcl.DualLoop) (u : Rcl.DualTick) (hdur : ¬ duration_over duration d.start u.now) :
    ∃ (d1 : Rcl.DualLoop) (status : Option (ℚ × ℚ)),
      Rcl.run_dual_publisher_iter be duration rate1 rate2 payload1 payload2 d u
        = some (d1, status,
            (if d.ch1.next_pub ≤ u.now then
              some { msg_id := d.ch1.msg_id,
                     data := (Rcl.create_message be d.statics payload1 0xA1 d.ch1.msg_id
                       u.timestamp1).1,
                     published := u.send_ok1 }
             else none),
            (if d.ch2.next_pub ≤ u.now then
              some { msg_id := d.ch2.msg_id,
                     data := (Rcl.create_message be
                       (if d.ch1.next_pub ≤ u.now then
                          (Rcl.create_message be d.statics payload1 0xA1 d.ch1.msg_id
                            u.timestamp1).2
                        else d.statics) payload2 0xB2 d.ch2.msg_id u.timestamp2).1,
                     published := u.send_ok2 }
             else none)) ∧
      d1.ch1.msg_id = (if d.ch1.next_pub ≤ u.now ∧ u.send_ok1 = true
                        then (d.ch1.msg_id + 1) % 2 ^ 32 else d.ch1.msg_id) ∧
      d1.ch1.count = (if d.ch1.next_pub ≤ u.now ∧ u.send_ok1 = true
                        then (d.ch1.count + 1) % 2 ^ 64 else d.ch1.count) ∧
      d1.ch1.next_pub = (if d.ch1.next_pub ≤ u.now
                        then add_ms u.now (trunc_int (interval_ms rate1)) else d.ch1.next_pub) ∧
      d1.ch2.msg_id = (if d.ch2.next_pub ≤ u.now ∧ u.send_ok2 = true
                        then (d.ch2.msg_id + 1) % 2 ^ 32 else d.ch2.msg_id) ∧
      d1.ch2.count = (if d.ch2.next_pub ≤ u.now ∧ u.send_ok2 = true
                        then (d.ch2.count + 1) % 2 ^ 64 else d.ch2.count) ∧
      d1.ch2.next_pub = (if d.ch2.next_pub ≤ u.now
                        then add_ms u.now (trunc_int (interval_ms rate2)) else d.ch2.next_pub) ∧
      d1.statics =
        (if d.ch2.next_pub ≤ u.now then
          (Rcl.create_message be
            (if d.ch1.next_pub ≤ u.now then
               (Rcl.create_message be d.statics payload1 0xA1 d.ch1.msg_id u.timestamp1).2
             else d.statics) payload2 0xB2 d.ch2.msg_id u.timestamp2).2
         else if d.ch1.next_pub ≤ u.now then
           (Rcl.create_message be d.statics payload1 0xA1 d.ch1.msg_id u.timestamp1).2
         else d.statics) ∧
      d1.start = d.start := by
  unfold Rcl.run_dual_publisher_iter
  by_cases hst : seconds (u.now - d.last_status) ≥ 1 <;>
    by_cases h1 : d.ch1.next_pub ≤ u.now <;>
    by_cases h2 : d.ch2.next_pub ≤ u.now <;>
    cases hok1 : u.send_ok1 <;>
    cases hok2 : u.send_ok2 <;>
    simp [hdur, hst, h1, h2, hok1, hok2, Rcl.emit]


theorem mod_succ_mod (k m : Nat) : (k % m + 1) % m = (k + 1) % m := by
  rw [Nat.add_mod, Nat.mod_mod, ← Nat.add_mod]

/-- Counterexample to C5 as worded, in the timer strategy: `publish_topic1` evaluates `msg_id1_++`
before the send and does not look at its outcome, so after an emission whose send
failed (dropped silently, or `publish` threw) the sequence counter has moved from 0 to 1;
when the send was dropped silently the sent count has moved as well. -/
theorem timer_failed_send_consumes_id :
    (DualPubSubNode.Node.init 2 20 40 0).msg_id1 = 0 ∧
    (DualPubSubNode.Node.init 2 20 40 0).w1.count = 0 ∧
    (DualPubSubNode.publish_topic1 false (DualPubSubNode.Node.init 2 20 40 0) 5 6
      DualPubSubNode.PublishOutcome.dropped).2.map (fun e => e.published) = some false ∧
    (DualPubSubNode.publish_topic1 false (DualPubSubNode.Node.init 2 20 40 0) 5 6
      DualPubSubNode.PublishOutcome.dropped).1.msg_id1 = 1 ∧
    (DualPubSubNode.publish_topic1 false (DualPubSubNode.Node.init 2 20 40 0) 5 6
      DualPubSubNode.PublishOutcome.dropped).1.w1.count = 1 ∧
    (DualPubSubNode.publish_topic1 false (DualPubSubNode.Node.init 2 20 40 0) 5 6
      DualPubSubNode.PublishOutcome.threw).2.map (fun e => e.published) = some false ∧
    (DualPubSubNode.publish_topic1 false (DualPubSubNode.Node.init 2 20 40 0) 5 6
      DualPubSubNode.PublishOutcome.threw).1.msg_id1 = 1 := by
  decide!

theorem DualPubSubNode.publish_topic1_counters (be : Bool) (n : DualPubSubNode.Node)
    (now ts : Int) (o : DualPubSubNode.PublishOutcome) (hfin : n.finished = false)
    (hdur : ¬ duration_over n.duration n.start_time now) :
    (DualPubSubNode.publish_topic1 be n now ts o).1.msg_id1 = (n.msg_id1 + 1) % 2 ^ 32 ∧
    (DualPubSubNode.publish_topic1 be n now ts o).1.w1.count
      = (if o = DualPubSubNode.PublishOutcome.threw then n.w1.count
         else (n.w1.count + 1) % 2 ^ 64) := by
  cases o <;> simp [DualPubSubNode.publish_topic1, hfin, hdur]

theorem DualPubSubNode.publish_topic2_counters (be : Bool) (n : DualPubSubNode.Node)
    (now ts : Int) (o : DualPubSubNode.PublishOutcome) (hfin : n.finished = false)
    (hdur : ¬ duration_over n.duration n.start_time now) :
    (DualPubSubNode.publish_topic2 be n now ts o).1.msg_id2 = (n.msg_id2 + 1) % 2 ^ 32 ∧
    (DualPubSubNode.publish_topic2 be n now ts o).1.w2.count
      = (if o = DualPubSubNode.PublishOutcome.threw then n.w2.count
         else (n.w2.count + 1) % 2 ^ 64) := by
  cases o <;> simp [DualPubSubNode.publish_topic2, hfin, hdur]

/-- C5 (amended). In the polling strategy (`run_dual_publisher`, both channels) and the
threaded strategy (`publisher_thread`), an iteration in which the channel is due attempts
one emission with the current sequence counter; when the send fails the sequence counter
and the sent count are unchanged, when it succeeds each is incremented by exactly 1 (in
`uint32_t`, resp. `size_t`). In the timer strategy (`publish_topic1`, `publish_topic2`)
the sequence counter is incremented by 1 at every emission, whatever the outcome of the
send, and the sent count is incremented unless `publish` threw. -/
theorem failed_send_keeps_counters_in_rcl_loops (be : Bool) (duration rate : ℚ)
    (payload : Nat) (fill_byte : Byte) (s : Rcl.ThreadLoop) (t : Rcl.ThreadTick)
    (rate1 rate2 : ℚ) (payload1 payload2 : Nat) (d : Rcl.DualLoop) (u : Rcl.DualTick)
    (n : DualPubSubNode.Node) (now ts : Int) (o : DualPubSubNode.PublishOutcome) :
    (t.should_stop = false → ¬ duration_over duration s.start t.now → s.ch.next_pub ≤ t.now →
      ∃ (s1 : Rcl.ThreadLoop) (status : Option ℚ) (e : Emission),
        Rcl.publisher_thread_iter be duration rate payload fill_byte s t
          = some (s1, status, some e) ∧
        e.msg_id = s.ch.msg_id ∧ e.published = t.send_ok ∧
        s1.ch.msg_id = (if t.send_ok then (s.ch.msg_id + 1) % 2 ^ 32 else s.ch.msg_id) ∧
        s1.ch.count = (if t.send_ok then (s.ch.count + 1) % 2 ^ 64 else s.ch.count)) ∧
    (¬ duration_over duration d.start u.now → d.ch1.next_pub ≤ u.now →
      ∃ (d1 : Rcl.DualLoop) (status : Option (ℚ × ℚ)) (e1 : Emission) (e2 : Option Emission),
        Rcl.run_dual_publisher_iter be duration rate1 rate2 payload1 payload2 d u
          = some (d1, status, some e1, e2) ∧
        e1.msg_id = d.ch1.msg_id ∧ e1.published = u.send_ok1 ∧
        d1.ch1.msg_id = (if u.send_ok1 then (d.ch1.msg_id + 1) % 2 ^ 32 else d.ch1.msg_id) ∧
        d1.ch1.count = (if u.send_ok1 then (d.ch1.count + 1) % 2 ^ 64 else d.ch1.count)) ∧
    (¬ duration_over duration d.start u.now → d.ch2.next_pub ≤ u.now →
      ∃ (d1 : Rcl.DualLoop) (status : Option (ℚ × ℚ)) (e1 : Option Emission) (e2 : Emission),
        Rcl.run_dual_publisher_iter be duration rate1 rate2 payload1 payload2 d u
          = some (d1, status, e1, some e2) ∧
        e2.msg_id = d.ch2.msg_id ∧ e2.published = u.send_ok2 ∧
        d1.ch2.msg_id = (if u.send_ok2 then (d.ch2.msg_id + 1) % 2 ^ 32 else d.ch2.msg_id) ∧
        d1.ch2.count = (if u.send_ok2 then (d.ch2.count + 1) % 2 ^ 64 else d.ch2.count)) ∧
    (n.finished = false → ¬ duration_over n.duration n.start_time now →
      (DualPubSubNode.publish_topic1 be n now ts o).1.msg_id1 = (n.msg_id1 + 1) % 2 ^ 32 ∧
      (DualPubSubNode.publish_topic1 be n now ts o).1.w1.count
        = (if o = DualPubSubNode.PublishOutcome.threw then n.w1.count
           else (n.w1.count + 1) % 2 ^ 64) ∧
      (DualPubSubNode.publish_topic2 be n now ts o).1.msg_id2 = (n.msg_id2 + 1) % 2 ^ 32 ∧
      (DualPubSubNode.publish_topic2 be n now ts o).1.w2.count
        = (if o = DualPubSubNode.PublishOutcome.threw then n.w2.count
           else (n.w2.count + 1) % 2 ^ 64)) := by
  refine ⟨?_, ?_, ?_, ?_⟩
  · intro hstop hdur hdue
    obtain ⟨s1, status, hiter, h1, h2, _⟩ :=
      Rcl.thread_iter_due be duration rate payload fill_byte s t hstop hdur hdue
    exact ⟨s1, status, _, hiter, rfl, rfl, h1, h2⟩
  · intro hdur hdue
    obtain ⟨d1, status, hiter, a1, a2, _⟩ :=
      Rcl.dual_iter_not_left be duration rate1 rate2 payload1 payload2 d u hdur
    rw [if_pos hdue] at hiter
    refine ⟨d1, status, _, _, hiter, rfl, rfl, ?_, ?_⟩
    · rw [a1]; simp [hdue]
    · rw [a2]; simp [hdue]
  · intro hdur hdue
    obtain ⟨d1, status, hiter, _, _, _, b1, b2, _⟩ :=
      Rcl.dual_iter_not_left be duration rate1 rate2 payload1 payload2 d u hdur
    rw [if_pos hdue] at hiter
    refine ⟨d1, status, _, _, hiter, rfl, rfl, ?_, ?_⟩
    · rw [b1]; simp [hdue]
    · rw [b2]; simp [hdue]
  · intro hfin hdur
    exact ⟨(DualPubSubNode.publish_topic1_counters be n now ts o hfin hdur).1,
      (DualPubSubNode.publish_topic1_counters be n now ts o hfin hdur).2,
      (DualPubSubNode.publish_topic2_counters be n now ts o hfin hdur).1,
      (DualPubSubNode.publish_topic2_counters be n now ts o hfin hdur).2⟩


/-- Instance of C5 (amended): first iteration of each loop with a failing send on the
due channel, and a timer callback whose message is dropped. -/
theorem failed_send_keeps_counters_in_rcl_loops_witness :
    (∃ (s1 : Rcl.ThreadLoop) (status : Option ℚ) (e : Emission),
        Rcl.publisher_thread_iter false 2 10 20 0xA1 (Rcl.ThreadLoop.init 0)
          { should_stop := false, now := 0, timestamp := 1, send_ok := false }
          = some (s1, status, some e) ∧
        e.msg_id = 0 ∧ e.published = false ∧ s1.ch.msg_id = 0 ∧ s1.ch.count = 0) ∧
    (∃ (d1 : Rcl.DualLoop) (status : Option (ℚ × ℚ)) (e1 : Emission) (e2 : Option Emission),
        Rcl.run_dual_publisher_iter false 2 10 5 20 40 (Rcl.DualLoop.init 0)
          { now := 0, timestamp1 := 1, send_ok1 := false, timestamp2 := 2, send_ok2 := true }
          = some (d1, status, some e1, e2) ∧
        e1.msg_id = 0 ∧ e1.published = false ∧ d1.ch1.msg_id = 0 ∧ d1.ch1.count = 0) ∧
    (∃ (d1 : Rcl.DualLoop) (status : Option (ℚ × ℚ)) (e1 : Option Emission) (e2 : Emission),
        Rcl.run_dual_publisher_iter false 2 10 5 20 40 (Rcl.DualLoop.init 0)
          { now := 0, timestamp1 := 1, send_ok1 := false, timestamp2 := 2, send_ok2 := true }
          = some (d1, status, e1, some e2) ∧
        e2.msg_id = 0 ∧ e2.published = true ∧ d1.ch2.msg_id = 1 ∧ d1.ch2.count = 1) ∧
    (DualPubSubNode.publish_topic1 false (DualPubSubNode.Node.init 2 20 40 0) 5 6
      DualPubSubNode.PublishOutcome.dropped).1.msg_id1 = 1 :=
  ⟨(failed_send_keeps_counters_in_rcl_loops false 2 10 20 0xA1 (Rcl.ThreadLoop.init 0)
      { should_stop := false, now := 0, timestamp := 1, send_ok := false }
      10 5 20 40 (Rcl.DualLoop.init 0)
      { now := 0, timestamp1 := 1, send_ok1 := false, timestamp2 := 2, send_ok2 := true }
      (DualPubSubNode.Node.init 2 20 40 0) 5 6 DualPubSubNode.PublishOutcome.dropped).1
      (by decide) (by decide!) (by decide),
   (failed_send_keeps_counters_in_rcl_loops false 2 10 20 0xA1 (Rcl.ThreadLoop.init 0)
      { should_stop := false, now := 0, timestamp := 1, send_ok := false }
      10 5 20 40 (Rcl.DualLoop.init 0)
      { now := 0, timestamp1 := 1, send_ok1 := false, timestamp2 := 2, send_ok2 := true }
      (DualPubSubNode.Node.init 2 20 40 0) 5 6 DualPubSubNode.PublishOutcome.dropped).2.1
      (by decide!) (by decide),
   (failed_send_keeps_counters_in_rcl_loops false 2 10 20 0xA1 (Rcl.ThreadLoop.init 0)
      { should_stop := false, now := 0, timestamp := 1, send_ok := false }
      10 5 20 40 (Rcl.DualLoop.init 0)
      { now := 0, timestamp1 := 1, send_ok1 := false, timestamp2 := 2, send_ok2 := true }
      (DualPubSubNode.Node.init 2 20 40 0) 5 6 DualPubSubNode.PublishOutcome.dropped).2.2.1
      (by decide!) (by decide),
   ((failed_send_keeps_counters_in_rcl_loops false 2 10 20 0xA1 (Rcl.ThreadLoop.init 0)
      { should_stop := false, now := 0, timestamp := 1, send_ok := false }
      10 5 20 40 (Rcl.DualLoop.init 0)
      { now := 0, timestamp1 := 1, send_ok1 := false, timestamp2 := 2, send_ok2 := true }
      (DualPubSubNode.Node.init 2 20 40 0) 5 6 DualPubSubNode.PublishOutcome.dropped).2.2.2
      (by decide) (by decide!)).1⟩

theorem uint32_sub_self (a : Nat) : uint32_sub a a = 0 := by
  simp [uint32_sub]

theorem uint32_sub_eq_zero_iff (a b : Nat) (ha : a < 2 ^ 32) (hb : b < 2 ^ 32) :
    uint32_sub a b = 0 ↔ a = b := by
  unfold uint32_sub
  norm_num at ha hb ⊢
  omega

theorem avg_latency_snapshot (w : StatWindow) : avg_latency (snapshot w) = none := by
  simp [avg_latency, snapshot, uint32_sub_self]

theorem loss_rate_snapshot (w : StatWindow) : loss_rate (snapshot w) = 100 := by
  simp [loss_rate, snapshot]

/-- C11. At a reporting tick the windowed latency average of a channel is the not-a-number
value (`none`) if and only if the cumulative latency count equals the snapshot latency
count; otherwise it is the difference of the latency sums divided by the difference of the
latency counts (a `uint32_t` difference, which is the integer difference whenever the
snapshot count is not above the cumulative count), and that divisor is not zero. Both
programs print this value. -/
theorem avg_latency_nan_iff_no_sample (w : StatWindow) (t : ℚ)
    (hc : w.latency_count < 2 ^ 32) (hs : w.latency_count_last_second < 2 ^ 32) :
    (avg_latency w = none ↔ w.latency_count = w.latency_count_last_second) ∧
    (w.latency_count ≠ w.latency_count_last_second →
      uint32_sub w.latency_count w.latency_count_last_second ≠ 0 ∧
      avg_latency w = some ((w.latency_sum - w.latency_sum_last_second)
        / (uint32_sub w.latency_count w.latency_count_last_second : ℚ))) ∧
    (w.latency_count_last_second ≤ w.latency_count →
      uint32_sub w.latency_count w.latency_count_last_second
        = w.latency_count - w.latency_count_last_second) ∧
    (Rcl.channel_report w t).avg_latency = avg_latency w ∧
    (DualPubSubNode.channel_report w t).avg_latency = avg_latency w := by
  have hz := uint32_sub_eq_zero_iff w.latency_count w.latency_count_last_second hc hs
  refine ⟨?_, ?_, fun hle => uint32_sub_of_le _ _ hle hc, rfl, rfl⟩
  · unfold avg_latency
    constructor
    · intro h
      by_contra hne
      have : uint32_sub w.latency_count w.latency_count_last_second > 0 :=
        Nat.pos_of_ne_zero (fun h0 => hne (hz.1 h0))
      simp [this] at h
    · intro h
      simp [h, uint32_sub_self]
  · intro hne
    have hnz : uint32_sub w.latency_count w.latency_count_last_second ≠ 0 :=
      fun h0 => hne (hz.1 h0)
    refine ⟨hnz, ?_⟩
    unfold avg_latency
    simp [Nat.pos_of_ne_zero hnz]

/-- Instance of C11: a window with latency sum 9 over 3 samples, 1 sample at the snapshot. -/
theorem avg_latency_nan_iff_no_sample_witness :
    ((3 : Nat) < 2 ^ 32 ∧ (1 : Nat) < 2 ^ 32 ∧ (3 : Nat) ≠ 1) ∧
    uint32_sub 3 1 ≠ 0 ∧
    avg_latency { StatWindow.init with latency_sum := 9, latency_count := 3,
                                       latency_sum_last_second := 4,
                                       latency_count_last_second := 1 }
      = some (((9 : ℚ) - 4) / (uint32_sub 3 1 : ℚ)) :=
  ⟨by decide,
   ((avg_latency_nan_iff_no_sample
      { StatWindow.init with latency_sum := 9, latency_count := 3,
                             latency_sum_last_second := 4, latency_count_last_second := 1 }
      1 (by decide) (by decide)).2.1 (by decide))⟩

/-- C12. A reporting tick changes only the snapshot fields of each channel: afterwards
snapshot count, snapshot latency sum and snapshot latency count equal the cumulative
values, and the cumulative count, latency sum, latency count, first-seen id, last-seen
id, first-frame flag, missed-event count and payload size are unchanged. This is what an
iteration of `run_dual_subscriber` that reports and takes no message does to both
windows, and what `print_subscriber_status` does; a second report with no message
received in between shows loss rate 100 and the not-a-number latency on both channels. -/
theorem status_report_changes_only_snapshots (be : Bool) (duration : ℚ) (s : Rcl.SubLoop)
    (t t2 : Rcl.SubTick) (n : DualPubSubNode.Node) (now now2 : Int) :
    (∀ w : StatWindow,
      (snapshot w).count_last_second = w.count ∧
      (snapshot w).latency_sum_last_second = w.latency_sum ∧
      (snapshot w).latency_count_last_second = w.latency_count ∧
      (snapshot w).count = w.count ∧
      (snapshot w).latency_sum = w.latency_sum ∧
      (snapshot w).latency_count = w.latency_count ∧
      (snapshot w).first_msg_id = w.first_msg_id ∧
      (snapshot w).last_msg_id = w.last_msg_id ∧
      (snapshot w).first_msg = w.first_msg ∧
      (snapshot w).missed_events = w.missed_events ∧
      (snapshot w).payload_size = w.payload_size) ∧
    (¬ duration_over duration s.start t.now → seconds (t.now - s.last_rate_display) ≥ 1 →
      t.add_ok1 = true → t.add_ok2 = true → t.take1 = none → t.take2 = none →
      (Rcl.run_dual_subscriber_iter be duration s t).left = false ∧
      (Rcl.run_dual_subscriber_iter be duration s t).state.w1 = snapshot s.w1 ∧
      (Rcl.run_dual_subscriber_iter be duration s t).state.w2 = snapshot s.w2 ∧
      (Rcl.run_dual_subscriber_iter be duration s t).log
        = [SubEvent.report s.w1 s.w2
            (Rcl.channel_report s.w1 (seconds (t.now - s.last_rate_display)))
            (Rcl.channel_report s.w2 (seconds (t.now - s.last_rate_display)))] ∧
      (¬ duration_over duration s.start t2.now → seconds (t2.now - t.now) ≥ 1 →
        ∃ r1 r2 : ChannelReport,
          (Rcl.run_dual_subscriber_iter be duration
            (Rcl.run_dual_subscriber_iter be duration s t).state t2).log.head?
            = some (SubEvent.report (snapshot s.w1) (snapshot s.w2) r1 r2) ∧
          r1.loss_rate = 100 ∧ r1.avg_latency = none ∧
          r2.loss_rate = 100 ∧ r2.avg_latency = none)) ∧
    (n.finished = false →
      (DualPubSubNode.print_subscriber_status n now).1.w1 = snapshot n.w1 ∧
      (DualPubSubNode.print_subscriber_status n now).1.w2 = snapshot n.w2 ∧
      (DualPubSubNode.print_subscriber_status n now).2
        = [SubEvent.report n.w1 n.w2
            (DualPubSubNode.channel_report n.w1 (seconds (now - n.last_status_time)))
            (DualPubSubNode.channel_report n.w2 (seconds (now - n.last_status_time)))] ∧
      ∃ r1 r2 : ChannelReport,
        (DualPubSubNode.print_subscriber_status
          (DualPubSubNode.print_subscriber_status n now).1 now2).2
          = [SubEvent.report (snapshot n.w1) (snapshot n.w2) r1 r2] ∧
        r1.loss_rate = 100 ∧ r1.avg_latency = none ∧
        r2.loss_rate = 100 ∧ r2.avg_latency = none) := by
  refine ⟨fun w => ⟨rfl, rfl, rfl, rfl, rfl, rfl, rfl, rfl, rfl, rfl, rfl⟩, ?_, ?_⟩
  · intro hdur hsince h1 h2 hk1 hk2
    have hstep : Rcl.run_dual_subscriber_iter be duration s t
        = { log := [SubEvent.report s.w1 s.w2
                (Rcl.channel_report s.w1 (seconds (t.now - s.last_rate_display)))
                (Rcl.channel_report s.w2 (seconds (t.now - s.last_rate_display)))],
            state := { s with w1 := snapshot s.w1, w2 := snapshot s.w2,
                              last_rate_display := t.now },
            left := false } := by
      unfold Rcl.run_dual_subscriber_iter Rcl.wait_and_take Rcl.status_block
      cases hto : t.timed_out <;> simp [hdur, hsince, h1, h2, hk1, hk2, hto]
    rw [hstep]
    refine ⟨rfl, rfl, rfl, rfl, ?_⟩
    intro hdur2 hsince2
    refine ⟨Rcl.channel_report (snapshot s.w1) (seconds (t2.now - t.now)),
      Rcl.channel_report (snapshot s.w2) (seconds (t2.now - t.now)), ?_,
      loss_rate_snapshot s.w1, avg_latency_snapshot s.w1,
      loss_rate_snapshot s.w2, avg_latency_snapshot s.w2⟩
    unfold Rcl.run_dual_subscriber_iter Rcl.status_block
    simp [hdur2, hsince2]
  · intro hfin
    have hstep : DualPubSubNode.print_subscriber_status n now
        = ({ n with w1 := snapshot n.w1, w2 := snapshot n.w2, last_status_time := now },
           [SubEvent.report n.w1 n.w2
              (DualPubSubNode.channel_report n.w1 (seconds (now - n.last_status_time)))
              (DualPubSubNode.channel_report n.w2 (seconds (now - n.last_status_time)))]) := by
      simp [DualPubSubNode.print_subscriber_status, hfin]
    rw [hstep]
    refine ⟨rfl, rfl, rfl,
      DualPubSubNode.channel_report (snapshot n.w1) (seconds (now2 - now)),
      DualPubSubNode.channel_report (snapshot n.w2) (seconds (now2 - now)), ?_,
      loss_rate_snapshot n.w1, avg_latency_snapshot n.w1,
      loss_rate_snapshot n.w2, avg_latency_snapshot n.w2⟩
    simp [DualPubSubNode.print_subscriber_status, hfin]


/-- Instance of C12: a subscriber that has received the ids 0, 1, 2, 5, 6 on channel 1
reports at 1 s and again at 2 s with no message in between. -/
theorem status_report_changes_only_snapshots_witness :
    (Rcl.run_dual_subscriber_iter false 3
        { start := 0, last_rate_display := 0,
          w1 := receive_all (2 ^ 32) false StatWindow.init (id_frames false [0, 1, 2, 5, 6]),
          w2 := StatWindow.init }
        { now := 1000000000, add_ok1 := true, add_ok2 := true, timed_out := true,
          take1 := none, take2 := none }).state.w1
      = snapshot (receive_all (2 ^ 32) false StatWindow.init (id_frames false [0, 1, 2, 5, 6])) ∧
    (∃ r1 r2 : ChannelReport,
      (Rcl.run_dual_subscriber_iter false 3
        (Rcl.run_dual_subscriber_iter false 3
          { start := 0, last_rate_display := 0,
            w1 := receive_all (2 ^ 32) false StatWindow.init (id_frames false [0, 1, 2, 5, 6]),
            w2 := StatWindow.init }
          { now := 1000000000, add_ok1 := true, add_ok2 := true, timed_out := true,
            take1 := none, take2 := none }).state
        { now := 2000000000, add_ok1 := true, add_ok2 := true, timed_out := true,
          take1 := none, take2 := none }).log.head?
        = some (SubEvent.report
            (snapshot (receive_all (2 ^ 32) false StatWindow.init
              (id_frames false [0, 1, 2, 5, 6])))
            (snapshot StatWindow.init) r1 r2) ∧
      r1.loss_rate = 100 ∧ r1.avg_latency = none ∧
      r2.loss_rate = 100 ∧ r2.avg_latency = none) ∧
    (DualPubSubNode.print_subscriber_status (DualPubSubNode.Node.init 3 20 40 0)
        1000000000).1.w1 = snapshot StatWindow.init :=
  ⟨((status_report_changes_only_snapshots false 3
      { start := 0, last_rate_display := 0,
        w1 := receive_all (2 ^ 32) false StatWindow.init (id_frames false [0, 1, 2, 5, 6]),
        w2 := StatWindow.init }
      { now := 1000000000, add_ok1 := true, add_ok2 := true, timed_out := true,
        take1 := none, take2 := none }
      { now := 2000000000, add_ok1 := true, add_ok2 := true, timed_out := true,
        take1 := none, take2 := none }
      (DualPubSubNode.Node.init 3 20 40 0) 1000000000 2000000000).2.1
      (by decide!) (by decide!) rfl rfl rfl rfl).2.1,
   ((status_report_changes_only_snapshots false 3
      { start := 0, last_rate_display := 0,
        w1 := receive_all (2 ^ 32) false StatWindow.init (id_frames false [0, 1, 2, 5, 6]),
        w2 := StatWindow.init }
      { now := 1000000000, add_ok1 := true, add_ok2 := true, timed_out := true,
        take1 := none, take2 := none }
      { now := 2000000000, add_ok1 := true, add_ok2 := true, timed_out := true,
        take1 := none, take2 := none }
      (DualPubSubNode.Node.init 3 20 40 0) 1000000000 2000000000).2.1
      (by decide!) (by decide!) rfl rfl rfl rfl).2.2.2.2 (by decide!) (by decide!),
   ((status_report_changes_only_snapshots false 3
      { start := 0, last_rate_display := 0,
        w1 := receive_all (2 ^ 32) false StatWindow.init (id_frames false [0, 1, 2, 5, 6]),
        w2 := StatWindow.init }
      { now := 1000000000, add_ok1 := true, add_ok2 := true, timed_out := true,
        take1 := none, take2 := none }
      { now := 2000000000, add_ok1 := true, add_ok2 := true, timed_out := true,
        take1 := none, take2 := none }
      (DualPubSubNode.Node.init 3 20 40 0) 1000000000 2000000000).2.2 rfl).1⟩

/-- C14. The function `format_bytes` uses binary prefixes with truncating integer division
and no fractional digits: it returns the decimal numeral of `n` followed by ` B` when
`n < 1024`, of `n / 1024` followed by ` KB` when `1024 ≤ n < 2 ^ 20`, of `n / 2 ^ 20`
followed by ` MB` when `2 ^ 20 ≤ n < 2 ^ 30`, and of `n / 2 ^ 30` followed by ` GB` when
`n ≥ 2 ^ 30`; the copies in the two source files return the same string for every `n`. -/
theorem format_bytes_binary_prefixes (n : Nat) :
    (n < 1024 → Rcl.format_bytes n = toString n ++ " B") ∧
    (1024 ≤ n → n < 2 ^ 20 → Rcl.format_bytes n = toString (n / 1024) ++ " KB") ∧
    (2 ^ 20 ≤ n → n < 2 ^ 30 → Rcl.format_bytes n = toString (n / 2 ^ 20) ++ " MB") ∧
    (2 ^ 30 ≤ n → Rcl.format_bytes n = toString (n / 2 ^ 30) ++ " GB") ∧
    DualPubSubNode.format_bytes n = Rcl.format_bytes n := by
  refine ⟨?_, ?_, ?_, ?_, rfl⟩
  · intro h
    have hg : ¬ n ≥ 1024 * 1024 * 1024 := by omega
    have hm : ¬ n ≥ 1024 * 1024 := by omega
    have hk : ¬ n ≥ 1024 := by omega
    unfold Rcl.format_bytes
    rw [if_neg hg, if_neg hm, if_neg hk]
  · intro h1 h2
    norm_num at h2
    have hg : ¬ n ≥ 1024 * 1024 * 1024 := by omega
    have hm : ¬ n ≥ 1024 * 1024 := by omega
    unfold Rcl.format_bytes
    rw [if_neg hg, if_neg hm, if_pos h1]
  · intro h1 h2
    unfold Rcl.format_bytes
    norm_num at h1 h2
    rw [if_neg (by omega), if_pos (by omega)]
    rfl
  · intro h1
    unfold Rcl.format_bytes
    norm_num at h1
    rw [if_pos (by omega)]
    rfl

/-- Instance of C14: 1536 bytes are shown as `1 KB`, 5 GiB + 1 as `5 GB`. -/
theorem format_bytes_binary_prefixes_witness :
    ((1024 ≤ 1536 ∧ 1536 < 2 ^ 20) ∧ Rcl.format_bytes 1536 = "1 KB") ∧
    (2 ^ 30 ≤ 5368709121 ∧ Rcl.format_bytes 5368709121 = "5 GB") ∧
    ((1023 : Nat) < 1024 ∧ DualPubSubNode.format_bytes 1023 = "1023 B") :=
  ⟨⟨by decide, ((format_bytes_binary_prefixes 1536).2.1 (by decide) (by decide)).trans
      (by decide)⟩,
   ⟨by decide, ((format_bytes_binary_prefixes 5368709121).2.2.2.1 (by decide)).trans
      (by decide)⟩,
   ⟨by decide, ((format_bytes_binary_prefixes 1023).2.2.2.2).trans
      (((format_bytes_binary_prefixes 1023).1 (by decide)).trans (by decide))⟩⟩

/-! ## Subscriber runs on short frames: claim C13 -/

theorem untracked_init : StatWindow.init.untracked := ⟨rfl, rfl⟩

theorem untracked_on_message (count_mod : Nat) (be : Bool) (w : StatWindow) (data : Frame)
    (recv : Int) (hlen : data.length < 4) (h : w.untracked) :
    (on_message count_mod be w data recv).untracked ∧
    (on_message count_mod be w data recv).count = (w.count + 1) % count_mod := by
  have h1 := read_msg_id_short be data hlen
  have h2 := read_send_timestamp_short be data (by omega)
  obtain ⟨hf, hl⟩ := h
  simp [on_message, h1, h2, StatWindow.untracked, hf, hl]

theorem untracked_report (w : StatWindow) (h : w.untracked) :
    avg_latency w = none ∧ (w.count ≠ w.count_last_second → loss_rate w = 0) := by
  obtain ⟨hf, hl⟩ := h
  constructor
  · simp [avg_latency, hl, uint32_sub_self]
  · intro hne
    simp [loss_rate, hf, Ne.symm hne]

theorem Rcl.status_block_short (s : Rcl.SubLoop) (now : Int)
    (hu1 : s.w1.untracked) (hu2 : s.w2.untracked) :
    (Rcl.status_block s now).2.w1.untracked ∧ (Rcl.status_block s now).2.w2.untracked ∧
    (Rcl.status_block s now).2.w1.count = s.w1.count ∧
    (Rcl.status_block s now).2.w2.count = s.w2.count ∧
    List.countP SubEvent.is_frame1 (Rcl.status_block s now).1 = 0 ∧
    List.countP SubEvent.is_frame2 (Rcl.status_block s now).1 = 0 ∧
    (∀ e ∈ (Rcl.status_block s now).1, e.short_frame_report) := by
  have r1 := untracked_report s.w1 hu1
  have r2 := untracked_report s.w2 hu2
  by_cases hst : seconds (now - s.last_rate_display) ≥ 1
  · have hb : Rcl.status_block s now
        = ([SubEvent.report s.w1 s.w2
              (Rcl.channel_report s.w1 (seconds (now - s.last_rate_display)))
              (Rcl.channel_report s.w2 (seconds (now - s.last_rate_display)))],
           { s with w1 := snapshot s.w1, w2 := snapshot s.w2, last_rate_display := now }) := by
      simp [Rcl.status_block, hst]
    rw [hb]
    refine ⟨⟨hu1.1, rfl⟩, ⟨hu2.1, rfl⟩, rfl, rfl, rfl, rfl, ?_⟩
    intro e he
    simp only [List.mem_singleton] at he
    subst he
    exact ⟨⟨hu1.1, r1.1, r1.2⟩, ⟨hu2.1, r2.1, r2.2⟩⟩
  · have hb : Rcl.status_block s now = ([], s) := by
      simp [Rcl.status_block, hst]
    rw [hb]
    exact ⟨hu1, hu2, rfl, rfl, rfl, rfl, fun e he => absurd he (List.not_mem_nil e)⟩

theorem Rcl.wait_and_take_short (be : Bool) (s : Rcl.SubLoop) (t : Rcl.SubTick) (k1 k2 : Nat)
    (h1 : ∀ m ∈ t.take1, m.1.length < 4) (h2 : ∀ m ∈ t.take2, m.1.length < 4)
    (hu1 : s.w1.untracked) (hu2 : s.w2.untracked)
    (hk1 : s.w1.count = k1 % 2 ^ 32) (hk2 : s.w2.count = k2 % 2 ^ 32) :
    (Rcl.wait_and_take be s t).state.w1.untracked ∧
    (Rcl.wait_and_take be s t).state.w2.untracked ∧
    (Rcl.wait_and_take be s t).state.w1.count
      = (k1 + List.countP SubEvent.is_frame1 (Rcl.wait_and_take be s t).log) % 2 ^ 32 ∧
    (Rcl.wait_and_take be s t).state.w2.count
      = (k2 + List.countP SubEvent.is_frame2 (Rcl.wait_and_take be s t).log) % 2 ^ 32 ∧
    (∀ e ∈ (Rcl.wait_and_take be s t).log, e.short_frame_report) := by
  have hk1' : s.w1.count = (k1 + 0) % 2 ^ 32 := hk1
  have hk2' : s.w2.count = (k2 + 0) % 2 ^ 32 := hk2
  unfold Rcl.wait_and_take
  by_cases hadd : t.add_ok1 = false ∨ t.add_ok2 = false
  · simp only [hadd, if_true]
    exact ⟨hu1, hu2, hk1', hk2', fun e he => absurd he (List.not_mem_nil e)⟩
  · cases hto : t.timed_out
    · cases e1 : t.take1 with
      | none =>
        cases e2 : t.take2 with
        | none =>
          simp only [hadd, if_false, Bool.false_eq_true, Option.map_none', Option.toList_none,
            List.append_nil]
          exact ⟨hu1, hu2, hk1', hk2', fun e he => absurd he (List.not_mem_nil e)⟩
        | some m2 =>
          obtain ⟨u2, c2⟩ := untracked_on_message (2 ^ 32) be s.w2 m2.1 m2.2 (h2 m2 e2) hu2
          simp only [hadd, if_false, Bool.false_eq_true, Option.map_none', Option.toList_none,
            List.nil_append, Option.map_some', Option.toList_some, Rcl.take_message]
          refine ⟨hu1, u2, hk1', ?_, ?_⟩
          · rw [c2, hk2]; exact mod_succ_mod k2 _
          · intro e he
            simp only [List.mem_singleton] at he
            subst he; trivial
      | some m1 =>
        obtain ⟨u1, c1⟩ := untracked_on_message (2 ^ 32) be s.w1 m1.1 m1.2 (h1 m1 e1) hu1
        cases e2 : t.take2 with
        | none =>
          simp only [hadd, if_false, Bool.false_eq_true, Option.map_none', Option.toList_none,
            List.append_nil, Option.map_some', Option.toList_some, Rcl.take_message]
          refine ⟨u1, hu2, ?_, hk2', ?_⟩
          · rw [c1, hk1]; exact mod_succ_mod k1 _
          · intro e he
            simp only [List.mem_singleton] at he
            subst he; trivial
        | some m2 =>
          obtain ⟨u2, c2⟩ := untracked_on_message (2 ^ 32) be s.w2 m2.1 m2.2 (h2 m2 e2) hu2
          simp only [hadd, if_false, Bool.false_eq_true, Option.map_some', Option.toList_some,
            Rcl.take_message]
          refine ⟨u1, u2, ?_, ?_, ?_⟩
          · rw [c1, hk1]; exact mod_succ_mod k1 _
          · rw [c2, hk2]; exact mod_succ_mod k2 _
          · intro e he
            simp only [List.singleton_append, List.mem_cons, List.mem_singleton,
              List.not_mem_nil, or_false] at he
            rcases he with rfl | rfl <;> trivial
    · simp only [hadd, if_false, if_true]
      exact ⟨hu1, hu2, hk1', hk2', fun e he => absurd he (List.not_mem_nil e)⟩

/-- One iteration of the subscriber loop on messages shorter than 4 bytes. -/
theorem Rcl.sub_iter_short (be : Bool) (duration : ℚ) (s : Rcl.SubLoop) (t : Rcl.SubTick)
    (k1 k2 : Nat)
    (h1 : ∀ m ∈ t.take1, m.1.length < 4) (h2 : ∀ m ∈ t.take2, m.1.length < 4)
    (hu1 : s.w1.untracked) (hu2 : s.w2.untracked)
    (hk1 : s.w1.count = k1 % 2 ^ 32) (hk2 : s.w2.count = k2 % 2 ^ 32) :
    (Rcl.run_dual_subscriber_iter be duration s t).state.w1.untracked ∧
    (Rcl.run_dual_subscriber_iter be duration s t).state.w2.untracked ∧
    (Rcl.run_dual_subscriber_iter be duration s t).state.w1.count
      = (k1 + List.countP SubEvent.is_frame1
          (Rcl.run_dual_subscriber_iter be duration s t).log) % 2 ^ 32 ∧
    (Rcl.run_dual_subscriber_iter be duration s t).state.w2.count
      = (k2 + List.countP SubEvent.is_frame2
          (Rcl.run_dual_subscriber_iter be duration s t).log) % 2 ^ 32 ∧
    (∀ e ∈ (Rcl.run_dual_subscriber_iter be duration s t).log, e.short_frame_report) := by
  unfold Rcl.run_dual_subscriber_iter
  by_cases hdur : duration_over duration s.start t.now
  · simp only [hdur, if_true]
    exact ⟨hu1, hu2, hk1, hk2, fun e he => absurd he (List.not_mem_nil e)⟩
  · obtain ⟨b1, b2, b3, b4, b5, b6, b7⟩ := Rcl.status_block_short s t.now hu1 hu2
    obtain ⟨c1, c2, c3, c4, c5⟩ := Rcl.wait_and_take_short be (Rcl.status_block s t.now).2 t
      k1 k2 h1 h2 b1 b2 (b3.trans hk1) (b4.trans hk2)
    simp only [hdur, if_false]
    refine ⟨c1, c2, ?_, ?_, ?_⟩
    · rw [c3, List.countP_append, b5, Nat.zero_add]
    · rw [c4, List.countP_append, b6, Nat.zero_add]
    · intro e he
      rcases List.mem_append.1 he with h | h
      · exact b7 e h
      · exact c5 e h

/-- Run of the subscriber loop on messages shorter than 4 bytes. -/
theorem Rcl.sub_run_short (be : Bool) (duration : ℚ) (ticks : List Rcl.SubTick)
    (s : Rcl.SubLoop) (k1 k2 : Nat)
    (hshort : ∀ t ∈ ticks, (∀ m ∈ t.take1, m.1.length < 4) ∧ (∀ m ∈ t.take2, m.1.length < 4))
    (hu1 : s.w1.untracked) (hu2 : s.w2.untracked)
    (hk1 : s.w1.count = k1 % 2 ^ 32) (hk2 : s.w2.count = k2 % 2 ^ 32) :
    (Rcl.run_dual_subscriber_run be duration s ticks).1.w1.untracked ∧
    (Rcl.run_dual_subscriber_run be duration s ticks).1.w2.untracked ∧
    (Rcl.run_dual_subscriber_run be duration s ticks).1.w1.count
      = (k1 + List.countP SubEvent.is_frame1
          (Rcl.run_dual_subscriber_run be duration s ticks).2) % 2 ^ 32 ∧
    (Rcl.run_dual_subscriber_run be duration s ticks).1.w2.count
      = (k2 + List.countP SubEvent.is_frame2
          (Rcl.run_dual_subscriber_run be duration s ticks).2) % 2 ^ 32 ∧
    (∀ e ∈ (Rcl.run_dual_subscriber_run be duration s ticks).2, e.short_frame_report) := by
  induction ticks generalizing s k1 k2 with
  | nil =>
    exact ⟨hu1, hu2, hk1, hk2, fun e he => absurd he (List.not_mem_nil e)⟩
  | cons t ts ih =>
    obtain ⟨a1, a2, a3, a4, a5⟩ := Rcl.sub_iter_short be duration s t k1 k2
      (hshort t (List.mem_cons_self t ts)).1 (hshort t (List.mem_cons_self t ts)).2
      hu1 hu2 hk1 hk2
    unfold Rcl.run_dual_subscriber_run
    by_cases hleft : (Rcl.run_dual_subscriber_iter be duration s t).left = true
    · simp only [hleft, if_true]
      exact ⟨a1, a2, a3, a4, a5⟩
    · obtain ⟨i1, i2, i3, i4, i5⟩ := ih (Rcl.run_dual_subscriber_iter be duration s t).state _ _
        (fun u hu => hshort u (List.mem_cons_of_mem t hu)) a1 a2 a3 a4
      simp only [Bool.not_eq_true] at hleft
      simp only [hleft, Bool.false_eq_true, if_false]
      refine ⟨i1, i2, ?_, ?_, ?_⟩
      · rw [i3, List.countP_append, Nat.add_assoc]
      · rw [i4, List.countP_append, Nat.add_assoc]
      · intro e he
        rcases List.mem_append.1 he with h | h
        · exact a5 e h
        · exact i5 e h


theorem DualPubSubNode.callback_short (be : Bool) (n : DualPubSubNode.Node)
    (c : DualPubSubNode.Callback) (k1 k2 : Nat) (hc : c.short)
    (hu1 : n.w1.untracked) (hu2 : n.w2.untracked)
    (hk1 : n.w1.count = k1 % 2 ^ 64) (hk2 : n.w2.count = k2 % 2 ^ 64) :
    (DualPubSubNode.run_callback be n c).1.w1.untracked ∧
    (DualPubSubNode.run_callback be n c).1.w2.untracked ∧
    (DualPubSubNode.run_callback be n c).1.w1.count
      = (k1 + List.countP SubEvent.is_frame1 (DualPubSubNode.run_callback be n c).2) % 2 ^ 64 ∧
    (DualPubSubNode.run_callback be n c).1.w2.count
      = (k2 + List.countP SubEvent.is_frame2 (DualPubSubNode.run_callback be n c).2) % 2 ^ 64 ∧
    (∀ e ∈ (DualPubSubNode.run_callback be n c).2, e.short_frame_report) := by
  have hk1' : n.w1.count = (k1 + 0) % 2 ^ 64 := hk1
  have hk2' : n.w2.count = (k2 + 0) % 2 ^ 64 := hk2
  cases c with
  | subscription1 data recv =>
    obtain ⟨u1, c1⟩ := untracked_on_message (2 ^ 64) be n.w1 data recv hc hu1
    refine ⟨u1, hu2, ?_, hk2', ?_⟩
    · show (on_message (2 ^ 64) be n.w1 data recv).count = (k1 + 1) % 2 ^ 64
      rw [c1, hk1]; exact mod_succ_mod k1 _
    · intro e he
      simp only [DualPubSubNode.run_callback, List.mem_singleton] at he
      subst he; trivial
  | subscription2 data recv =>
    obtain ⟨u2, c2⟩ := untracked_on_message (2 ^ 64) be n.w2 data recv hc hu2
    refine ⟨hu1, u2, hk1', ?_, ?_⟩
    · show (on_message (2 ^ 64) be n.w2 data recv).count = (k2 + 1) % 2 ^ 64
      rw [c2, hk2]; exact mod_succ_mod k2 _
    · intro e he
      simp only [DualPubSubNode.run_callback, List.mem_singleton] at he
      subst he; trivial
  | status now =>
    have r1 := untracked_report n.w1 hu1
    have r2 := untracked_report n.w2 hu2
    cases hfin : n.finished with
    | true =>
      have hb : DualPubSubNode.run_callback be n (DualPubSubNode.Callback.status now)
          = (n, []) := by
        simp [DualPubSubNode.run_callback, DualPubSubNode.print_subscriber_status, hfin]
      rw [hb]
      exact ⟨hu1, hu2, hk1', hk2', fun e he => absurd he (List.not_mem_nil e)⟩
    | false =>
      have hb : DualPubSubNode.run_callback be n (DualPubSubNode.Callback.status now)
          = ({ n with w1 := snapshot n.w1, w2 := snapshot n.w2, last_status_time := now },
             [SubEvent.report n.w1 n.w2
                (DualPubSubNode.channel_report n.w1 (seconds (now - n.last_status_time)))
                (DualPubSubNode.channel_report n.w2 (seconds (now - n.last_status_time)))]) := by
        simp [DualPubSubNode.run_callback, DualPubSubNode.print_subscriber_status, hfin]
      rw [hb]
      refine ⟨⟨hu1.1, rfl⟩, ⟨hu2.1, rfl⟩, hk1', hk2', ?_⟩
      intro e he
      simp only [List.mem_singleton] at he
      subst he
      exact ⟨⟨hu1.1, r1.1, r1.2⟩, ⟨hu2.1, r2.1, r2.2⟩⟩

theorem DualPubSubNode.callbacks_short (be : Bool) (cbs : List DualPubSubNode.Callback)
    (n : DualPubSubNode.Node) (k1 k2 : Nat) (hshort : ∀ c ∈ cbs, c.short)
    (hu1 : n.w1.untracked) (hu2 : n.w2.untracked)
    (hk1 : n.w1.count = k1 % 2 ^ 64) (hk2 : n.w2.count = k2 % 2 ^ 64) :
    (DualPubSubNode.run_callbacks be n cbs).1.w1.untracked ∧
    (DualPubSubNode.run_callbacks be n cbs).1.w2.untracked ∧
    (DualPubSubNode.run_callbacks be n cbs).1.w1.count
      = (k1 + List.countP SubEvent.is_frame1 (DualPubSubNode.run_callbacks be n cbs).2)
          % 2 ^ 64 ∧
    (DualPubSubNode.run_callbacks be n cbs).1.w2.count
      = (k2 + List.countP SubEvent.is_frame2 (DualPubSubNode.run_callbacks be n cbs).2)
          % 2 ^ 64 ∧
    (∀ e ∈ (DualPubSubNode.run_callbacks be n cbs).2, e.short_frame_report) := by
  induction cbs generalizing n k1 k2 with
  | nil => exact ⟨hu1, hu2, hk1, hk2, fun e he => absurd he (List.not_mem_nil e)⟩
  | cons c cs ih =>
    obtain ⟨a1, a2, a3, a4, a5⟩ := DualPubSubNode.callback_short be n c k1 k2
      (hshort c (List.mem_cons_self c cs)) hu1 hu2 hk1 hk2
    obtain ⟨i1, i2, i3, i4, i5⟩ := ih (DualPubSubNode.run_callback be n c).1 _ _
      (fun u hu => hshort u (List.mem_cons_of_mem c hu)) a1 a2 a3 a4
    unfold DualPubSubNode.run_callbacks
    refine ⟨i1, i2, ?_, ?_, ?_⟩
    · rw [i3, List.countP_append, Nat.add_assoc]
    · rw [i4, List.countP_append, Nat.add_assoc]
    · intro e he
      rcases List.mem_append.1 he with h | h
      · exact a5 e h
      · exact i5 e h

/-- Leaving the reports out of a log does not change its messages. -/
theorem countP_frames_without_reports (l : List SubEvent) :
    List.countP SubEvent.is_frame1 (l.filter (fun e => !e.is_report))
      = List.countP SubEvent.is_frame1 l ∧
    List.countP SubEvent.is_frame2 (l.filter (fun e => !e.is_report))
      = List.countP SubEvent.is_frame2 l := by
  constructor
  · rw [List.countP_filter]
    apply List.countP_congr
    intro e _
    cases e <;> simp [SubEvent.is_report, SubEvent.is_frame1]
  · rw [List.countP_filter]
    apply List.countP_congr
    intro e _
    cases e <;> simp [SubEvent.is_report, SubEvent.is_frame2]

/-- The status block logs a report exactly when a second has passed, and nothing else. -/
theorem Rcl.status_block_log (s : Rcl.SubLoop) (now : Int) :
    (Rcl.status_block s now).1.filter (fun e => !e.is_report) = [] ∧
    (Rcl.status_block s now).2.start = s.start ∧
    (1 ≤ seconds (now - s.last_rate_display) →
      ∃ e ∈ (Rcl.status_block s now).1, e.is_report = true) ∧
    (¬ 1 ≤ seconds (now - s.last_rate_display) →
      (Rcl.status_block s now).2.last_rate_display = s.last_rate_display) := by
  by_cases hst : seconds (now - s.last_rate_display) ≥ 1
  · have hb : Rcl.status_block s now
        = ([SubEvent.report s.w1 s.w2
              (Rcl.channel_report s.w1 (seconds (now - s.last_rate_display)))
              (Rcl.channel_report s.w2 (seconds (now - s.last_rate_display)))],
           { s with w1 := snapshot s.w1, w2 := snapshot s.w2, last_rate_display := now }) := by
      simp [Rcl.status_block, hst]
    rw [hb]
    exact ⟨rfl, rfl, fun _ => ⟨_, List.mem_singleton.2 rfl, rfl⟩, fun h => absurd hst h⟩
  · have hb : Rcl.status_block s now = ([], s) := by
      simp [Rcl.status_block, hst]
    rw [hb]
    exact ⟨rfl, rfl, fun h => absurd h hst, fun _ => rfl⟩

/-- The wait-and-take part of an iteration whose subscriptions are added logs the
messages the iteration is given, and keeps the start and report times. -/
theorem Rcl.wait_and_take_log (be : Bool) (s : Rcl.SubLoop) (t : Rcl.SubTick)
    (h1 : t.add_ok1 = true) (h2 : t.add_ok2 = true) :
    (Rcl.wait_and_take be s t).left = false ∧
    (Rcl.wait_and_take be s t).log = t.frames ∧
    (Rcl.wait_and_take be s t).log.filter (fun e => !e.is_report) = t.frames ∧
    (Rcl.wait_and_take be s t).state.start = s.start ∧
    (Rcl.wait_and_take be s t).state.last_rate_display = s.last_rate_display := by
  have hlog : (Rcl.wait_and_take be s t).log = t.frames := by
    unfold Rcl.wait_and_take Rcl.SubTick.frames
    cases hto : t.timed_out <;> simp [h1, h2, hto]
  have hfil : t.frames.filter (fun e => !e.is_report) = t.frames := by
    unfold Rcl.SubTick.frames
    cases t.timed_out <;> cases t.take1 <;> cases t.take2 <;> rfl
  refine ⟨?_, hlog, by rw [hlog, hfil], ?_, ?_⟩
  · unfold Rcl.wait_and_take
    cases hto : t.timed_out <;> simp [h1, h2, hto]
  · unfold Rcl.wait_and_take
    cases hto : t.timed_out <;> simp [h1, h2, hto]
  · unfold Rcl.wait_and_take
    cases hto : t.timed_out <;> simp [h1, h2, hto]

/-- An iteration of the subscriber loop that passes the duration test and adds both
subscriptions: it stays in the loop, its log without the report is the messages it is
given, and it logs a report when a second has passed since the last one. -/
theorem Rcl.sub_iter_stays (be : Bool) (duration : ℚ) (s : Rcl.SubLoop) (t : Rcl.SubTick)
    (h : t.stays duration s.start) :
    (Rcl.run_dual_subscriber_iter be duration s t).left = false ∧
    (Rcl.run_dual_subscriber_iter be duration s t).log.filter (fun e => !e.is_report)
      = t.frames ∧
    (Rcl.run_dual_subscriber_iter be duration s t).state.start = s.start ∧
    (1 ≤ seconds (t.now - s.last_rate_display) →
      ∃ e ∈ (Rcl.run_dual_subscriber_iter be duration s t).log, e.is_report = true) ∧
    (¬ 1 ≤ seconds (t.now - s.last_rate_display) →
      (Rcl.run_dual_subscriber_iter be duration s t).state.last_rate_display
        = s.last_rate_display) := by
  obtain ⟨hdur, h1, h2⟩ := h
  obtain ⟨b1, b2, b3, b4⟩ := Rcl.status_block_log s t.now
  obtain ⟨c1, _, c3, c4, c5⟩ := Rcl.wait_and_take_log be (Rcl.status_block s t.now).2 t h1 h2
  unfold Rcl.run_dual_subscriber_iter
  simp only [hdur, if_false]
  refine ⟨c1, ?_, c4.trans b2, ?_, ?_⟩
  · rw [List.filter_append, b1, c3, List.nil_append]
  · intro hsec
    obtain ⟨e, he, hr⟩ := b3 hsec
    exact ⟨e, List.mem_append_left _ he, hr⟩
  · intro hsec
    exact c5.trans (b4 hsec)

/-- A run of the subscriber loop whose iterations all stay in the loop: its log without
the reports is the messages it is given, and it holds a report when an iteration came a
second or more after the last report. -/
theorem Rcl.sub_run_stays (be : Bool) (duration : ℚ) (ticks : List Rcl.SubTick) :
    ∀ s : Rcl.SubLoop, (∀ t ∈ ticks, t.stays duration s.start) →
      (Rcl.run_dual_subscriber_run be duration s ticks).2.filter (fun e => !e.is_report)
        = (ticks.map Rcl.SubTick.frames).flatten ∧
      ((∃ t ∈ ticks, 1 ≤ seconds (t.now - s.last_rate_display)) →
        ∃ e ∈ (Rcl.run_dual_subscriber_run be duration s ticks).2, e.is_report = true) := by
  induction ticks with
  | nil =>
    intro s _
    exact ⟨rfl, fun ⟨t, ht, _⟩ => absurd ht (List.not_mem_nil t)⟩
  | cons t ts ih =>
    intro s h
    obtain ⟨a1, a2, a3, a4, a5⟩ :=
      Rcl.sub_iter_stays be duration s t (h t (List.mem_cons_self t ts))
    obtain ⟨i1, i2⟩ := ih (Rcl.run_dual_subscriber_iter be duration s t).state
      (fun u hu => by rw [a3]; exact h u (List.mem_cons_of_mem t hu))
    unfold Rcl.run_dual_subscriber_run
    simp only [a1, Bool.false_eq_true, if_false]
    constructor
    · rw [List.filter_append, a2, i1, List.map_cons, List.flatten_cons]
    · rintro ⟨u, hu, hsec⟩
      by_cases hnow : 1 ≤ seconds (t.now - s.last_rate_display)
      · obtain ⟨e, he, hr⟩ := a4 hnow
        exact ⟨e, List.mem_append_left _ he, hr⟩
      · rcases List.mem_cons.1 hu with rfl | hu'
        · exact absurd hsec hnow
        · obtain ⟨e, he, hr⟩ := i2 ⟨u, hu', by rw [a5 hnow]; exact hsec⟩
          exact ⟨e, List.mem_append_right _ he, hr⟩

/-- A callback of the subscriber node whose flag is not set: its log without the report
is the message it delivers, and it logs a report exactly when it is the status timer. -/
theorem DualPubSubNode.callback_log (be : Bool) (n : DualPubSubNode.Node)
    (c : DualPubSubNode.Callback) (hfin : n.finished = false) :
    (DualPubSubNode.run_callback be n c).2.filter (fun e => !e.is_report) = c.frames ∧
    List.countP SubEvent.is_report (DualPubSubNode.run_callback be n c).2
      = (if c.is_status then 1 else 0) ∧
    (DualPubSubNode.run_callback be n c).1.finished = false := by
  cases c with
  | subscription1 data recv => exact ⟨rfl, rfl, hfin⟩
  | subscription2 data recv => exact ⟨rfl, rfl, hfin⟩
  | status now =>
    have hb : DualPubSubNode.run_callback be n (DualPubSubNode.Callback.status now)
        = ({ n with w1 := snapshot n.w1, w2 := snapshot n.w2, last_status_time := now },
           [SubEvent.report n.w1 n.w2
              (DualPubSubNode.channel_report n.w1 (seconds (now - n.last_status_time)))
              (DualPubSubNode.channel_report n.w2 (seconds (now - n.last_status_time)))]) := by
      simp [DualPubSubNode.run_callback, DualPubSubNode.print_subscriber_status, hfin]
    rw [hb]
    exact ⟨rfl, rfl, hfin⟩

theorem DualPubSubNode.callbacks_log (be : Bool) (cbs : List DualPubSubNode.Callback) :
    ∀ n : DualPubSubNode.Node, n.finished = false →
      (DualPubSubNode.run_callbacks be n cbs).2.filter (fun e => !e.is_report)
        = (cbs.map DualPubSubNode.Callback.frames).flatten ∧
      List.countP SubEvent.is_report (DualPubSubNode.run_callbacks be n cbs).2
        = List.countP DualPubSubNode.Callback.is_status cbs := by
  induction cbs with
  | nil => intro n _; exact ⟨rfl, rfl⟩
  | cons c cs ih =>
    intro n hfin
    obtain ⟨a1, a2, a3⟩ := DualPubSubNode.callback_log be n c hfin
    obtain ⟨i1, i2⟩ := ih _ a3
    unfold DualPubSubNode.run_callbacks
    constructor
    · rw [List.filter_append, a1, i1, List.map_cons, List.flatten_cons]
    · rw [List.countP_append, a2, i2, List.countP_cons]
      cases c.is_status <;> simp
      omega


/-- C13. For every run of the subscriber in which all received frames are shorter than
4 bytes (iterations of `run_dual_subscriber` from its initial locals, resp. callbacks of
the rclcpp node from its initial members), on both channels: the cumulative count is the
number of frames taken (in the counter type), the first-frame flag is still set, so
`total_expected` is 0, and every report made from a window whose count differs from its
snapshot shows loss rate 0, every report the not-a-number latency. The frames taken are
the frames given: in the rcl loop, when every iteration passes the duration test and
adds both subscriptions, the log without its reports is the sequence of frames of the
iterations, the counts are their numbers per channel, and a report is logged as soon as
an iteration comes a second or more after the start; in the rclcpp node the log without
its reports is the sequence of frames of the callbacks, the counts are their numbers per
channel, and there is one report per status callback. -/
theorem short_frames_show_zero_loss (be : Bool) (duration : ℚ) (start : Int)
    (ticks : List Rcl.SubTick) (payload1 payload2 : Nat)
    (cbs : List DualPubSubNode.Callback)
    (hticks : ∀ t ∈ ticks, (∀ m ∈ t.take1, m.1.length < 4) ∧ (∀ m ∈ t.take2, m.1.length < 4))
    (hcbs : ∀ c ∈ cbs, c.short) :
    ((Rcl.run_dual_subscriber_run be duration (Rcl.SubLoop.init start) ticks).1.w1.count
        = List.countP SubEvent.is_frame1
            (Rcl.run_dual_subscriber_run be duration (Rcl.SubLoop.init start) ticks).2 % 2 ^ 32 ∧
      (Rcl.run_dual_subscriber_run be duration (Rcl.SubLoop.init start) ticks).1.w2.count
        = List.countP SubEvent.is_frame2
            (Rcl.run_dual_subscriber_run be duration (Rcl.SubLoop.init start) ticks).2 % 2 ^ 32 ∧
      (Rcl.run_dual_subscriber_run be duration (Rcl.SubLoop.init start) ticks).1.w1.first_msg
        = true ∧
      (Rcl.run_dual_subscriber_run be duration (Rcl.SubLoop.init start) ticks).1.w2.first_msg
        = true ∧
      ∀ (w1 w2 : StatWindow) (r1 r2 : ChannelReport),
        SubEvent.report w1 w2 r1 r2
          ∈ (Rcl.run_dual_subscriber_run be duration (Rcl.SubLoop.init start) ticks).2 →
        (w1.first_msg = true ∧ r1.avg_latency = none ∧
          (w1.count ≠ w1.count_last_second → r1.loss_rate = 0)) ∧
        (w2.first_msg = true ∧ r2.avg_latency = none ∧
          (w2.count ≠ w2.count_last_second → r2.loss_rate = 0))) ∧
    ((DualPubSubNode.run_callbacks be
        (DualPubSubNode.Node.init duration payload1 payload2 start) cbs).1.w1.count
        = List.countP SubEvent.is_frame1
            (DualPubSubNode.run_callbacks be
              (DualPubSubNode.Node.init duration payload1 payload2 start) cbs).2 % 2 ^ 64 ∧
      (DualPubSubNode.run_callbacks be
        (DualPubSubNode.Node.init duration payload1 payload2 start) cbs).1.w2.count
        = List.countP SubEvent.is_frame2
            (DualPubSubNode.run_callbacks be
              (DualPubSubNode.Node.init duration payload1 payload2 start) cbs).2 % 2 ^ 64 ∧
      (DualPubSubNode.run_callbacks be
        (DualPubSubNode.Node.init duration payload1 payload2 start) cbs).1.w1.first_msg = true ∧
      (DualPubSubNode.run_callbacks be
        (DualPubSubNode.Node.init duration payload1 payload2 start) cbs).1.w2.first_msg = true ∧
      ∀ (w1 w2 : StatWindow) (r1 r2 : ChannelReport),
        SubEvent.report w1 w2 r1 r2
          ∈ (DualPubSubNode.run_callbacks be
              (DualPubSubNode.Node.init duration payload1 payload2 start) cbs).2 →
        (w1.first_msg = true ∧ r1.avg_latency = none ∧
          (w1.count ≠ w1.count_last_second → r1.loss_rate = 0)) ∧
        (w2.first_msg = true ∧ r2.avg_latency = none ∧
          (w2.count ≠ w2.count_last_second → r2.loss_rate = 0))) ∧
    ((∀ t ∈ ticks, t.stays duration start) →
      (Rcl.run_dual_subscriber_run be duration (Rcl.SubLoop.init start) ticks).2.filter
          (fun e => !e.is_report)
        = (ticks.map Rcl.SubTick.frames).flatten ∧
      (Rcl.run_dual_subscriber_run be duration (Rcl.SubLoop.init start) ticks).1.w1.count
        = List.countP SubEvent.is_frame1 (ticks.map Rcl.SubTick.frames).flatten % 2 ^ 32 ∧
      (Rcl.run_dual_subscriber_run be duration (Rcl.SubLoop.init start) ticks).1.w2.count
        = List.countP SubEvent.is_frame2 (ticks.map Rcl.SubTick.frames).flatten % 2 ^ 32 ∧
      ((∃ t ∈ ticks, 1 ≤ seconds (t.now - start)) →
        ∃ e ∈ (Rcl.run_dual_subscriber_run be duration (Rcl.SubLoop.init start) ticks).2,
          e.is_report = true)) ∧
    ((DualPubSubNode.run_callbacks be
          (DualPubSubNode.Node.init duration payload1 payload2 start) cbs).2.filter
          (fun e => !e.is_report)
        = (cbs.map DualPubSubNode.Callback.frames).flatten ∧
      (DualPubSubNode.run_callbacks be
          (DualPubSubNode.Node.init duration payload1 payload2 start) cbs).1.w1.count
        = List.countP SubEvent.is_frame1 (cbs.map DualPubSubNode.Callback.frames).flatten
            % 2 ^ 64 ∧
      (DualPubSubNode.run_callbacks be
          (DualPubSubNode.Node.init duration payload1 payload2 start) cbs).1.w2.count
        = List.countP SubEvent.is_frame2 (cbs.map DualPubSubNode.Callback.frames).flatten
            % 2 ^ 64 ∧
      List.countP SubEvent.is_report
          (DualPubSubNode.run_callbacks be
            (DualPubSubNode.Node.init duration payload1 payload2 start) cbs).2
        = List.countP DualPubSubNode.Callback.is_status cbs) := by
  obtain ⟨a1, a2, a3, a4, a5⟩ := Rcl.sub_run_short be duration ticks (Rcl.SubLoop.init start)
    0 0 hticks untracked_init untracked_init rfl rfl
  obtain ⟨b1, b2, b3, b4, b5⟩ := DualPubSubNode.callbacks_short be cbs
    (DualPubSubNode.Node.init duration payload1 payload2 start) 0 0 hcbs
    untracked_init untracked_init rfl rfl
  simp only [Nat.zero_add] at a3 a4 b3 b4
  obtain ⟨d1, d2⟩ := DualPubSubNode.callbacks_log be cbs
    (DualPubSubNode.Node.init duration payload1 payload2 start) rfl
  obtain ⟨f1, f2⟩ := countP_frames_without_reports
    (Rcl.run_dual_subscriber_run be duration (Rcl.SubLoop.init start) ticks).2
  obtain ⟨g1, g2⟩ := countP_frames_without_reports
    (DualPubSubNode.run_callbacks be
      (DualPubSubNode.Node.init duration payload1 payload2 start) cbs).2
  refine ⟨⟨a3, a4, a1.1, a2.1, fun w1 w2 r1 r2 h => a5 _ h⟩,
    ⟨b3, b4, b1.1, b2.1, fun w1 w2 r1 r2 h => b5 _ h⟩, ?_, ?_⟩
  · intro hstay
    obtain ⟨c1, c2⟩ := Rcl.sub_run_stays be duration ticks (Rcl.SubLoop.init start) hstay
    refine ⟨c1, ?_, ?_, c2⟩
    · rw [a3, ← f1, c1]
    · rw [a4, ← f2, c1]
  · refine ⟨d1, ?_, ?_, d2⟩
    · rw [b3, ← g1, d1]
    · rw [b4, ← g2, d1]

/-- Instance of C13: in the rcl loop two 2-byte frames on channel 1, a report and a third
frame one second after the start, a report after a wait that timed out; the count of
channel 1 is 3, both reports show loss rate 0 and no latency on channel 1 and 100 on the
silent channel 2. In the rclcpp node two frames on channel 1, a report, a frame on
channel 2. -/
theorem short_frames_show_zero_loss_witness :
    (List.map Rcl.SubTick.frames
      [{ now := 5, add_ok1 := true, add_ok2 := true, timed_out := false,
         take1 := some ([0xA1, 0xA1], 6), take2 := none },
       { now := 7, add_ok1 := true, add_ok2 := true, timed_out := false,
         take1 := some ([0xA1, 0xA1], 8), take2 := none },
       { now := 1000000007, add_ok1 := true, add_ok2 := true, timed_out := false,
         take1 := some ([0xA1, 0xA1], 1000000008), take2 := none },
       { now := 2000000007, add_ok1 := true, add_ok2 := true, timed_out := true,
         take1 := none, take2 := none }]).flatten
      = [SubEvent.frame1 [0xA1, 0xA1], SubEvent.frame1 [0xA1, 0xA1],
         SubEvent.frame1 [0xA1, 0xA1]] ∧
    (Rcl.run_dual_subscriber_run false 5 (Rcl.SubLoop.init 0)
      [{ now := 5, add_ok1 := true, add_ok2 := true, timed_out := false,
         take1 := some ([0xA1, 0xA1], 6), take2 := none },
       { now := 7, add_ok1 := true, add_ok2 := true, timed_out := false,
         take1 := some ([0xA1, 0xA1], 8), take2 := none },
       { now := 1000000007, add_ok1 := true, add_ok2 := true, timed_out := false,
         take1 := some ([0xA1, 0xA1], 1000000008), take2 := none },
       { now := 2000000007, add_ok1 := true, add_ok2 := true, timed_out := true,
         take1 := none, take2 := none }]).1.w1.count
      = List.countP SubEvent.is_frame1 (List.map Rcl.SubTick.frames
      [{ now := 5, add_ok1 := true, add_ok2 := true, timed_out := false,
         take1 := some ([0xA1, 0xA1], 6), take2 := none },
       { now := 7, add_ok1 := true, add_ok2 := true, timed_out := false,
         take1 := some ([0xA1, 0xA1], 8), take2 := none },
       { now := 1000000007, add_ok1 := true, add_ok2 := true, timed_out := false,
         take1 := some ([0xA1, 0xA1], 1000000008), take2 := none },
       { now := 2000000007, add_ok1 := true, add_ok2 := true, timed_out := true,
         take1 := none, take2 := none }]).flatten % 2 ^ 32 ∧
    (∃ e ∈ (Rcl.run_dual_subscriber_run false 5 (Rcl.SubLoop.init 0)
      [{ now := 5, add_ok1 := true, add_ok2 := true, timed_out := false,
         take1 := some ([0xA1, 0xA1], 6), take2 := none },
       { now := 7, add_ok1 := true, add_ok2 := true, timed_out := false,
         take1 := some ([0xA1, 0xA1], 8), take2 := none },
       { now := 1000000007, add_ok1 := true, add_ok2 := true, timed_out := false,
         take1 := some ([0xA1, 0xA1], 1000000008), take2 := none },
       { now := 2000000007, add_ok1 := true, add_ok2 := true, timed_out := true,
         take1 := none, take2 := none }]).2,
      e.is_report = true) ∧
    ((Rcl.run_dual_subscriber_run false 5 (Rcl.SubLoop.init 0)
      [{ now := 5, add_ok1 := true, add_ok2 := true, timed_out := false,
         take1 := some ([0xA1, 0xA1], 6), take2 := none },
       { now := 7, add_ok1 := true, add_ok2 := true, timed_out := false,
         take1 := some ([0xA1, 0xA1], 8), take2 := none },
       { now := 1000000007, add_ok1 := true, add_ok2 := true, timed_out := false,
         take1 := some ([0xA1, 0xA1], 1000000008), take2 := none },
       { now := 2000000007, add_ok1 := true, add_ok2 := true, timed_out := true,
         take1 := none, take2 := none }]).1.w1.count = 3 ∧
      (Rcl.run_dual_subscriber_run false 5 (Rcl.SubLoop.init 0)
      [{ now := 5, add_ok1 := true, add_ok2 := true, timed_out := false,
         take1 := some ([0xA1, 0xA1], 6), take2 := none },
       { now := 7, add_ok1 := true, add_ok2 := true, timed_out := false,
         take1 := some ([0xA1, 0xA1], 8), take2 := none },
       { now := 1000000007, add_ok1 := true, add_ok2 := true, timed_out := false,
         take1 := some ([0xA1, 0xA1], 1000000008), take2 := none },
       { now := 2000000007, add_ok1 := true, add_ok2 := true, timed_out := true,
         take1 := none, take2 := none }]).2.map
          (fun e => e.is_report) = [false, false, true, false, true] ∧
      (Rcl.run_dual_subscriber_run false 5 (Rcl.SubLoop.init 0)
      [{ now := 5, add_ok1 := true, add_ok2 := true, timed_out := false,
         take1 := some ([0xA1, 0xA1], 6), take2 := none },
       { now := 7, add_ok1 := true, add_ok2 := true, timed_out := false,
         take1 := some ([0xA1, 0xA1], 8), take2 := none },
       { now := 1000000007, add_ok1 := true, add_ok2 := true, timed_out := false,
         take1 := some ([0xA1, 0xA1], 1000000008), take2 := none },
       { now := 2000000007, add_ok1 := true, add_ok2 := true, timed_out := true,
         take1 := none, take2 := none }]).2.filterMap
          (fun e => match e with
            | SubEvent.report _ _ r1 r2 => some (r1.loss_rate, r1.avg_latency, r2.loss_rate)
            | _ => none)
        = [(0, none, 100), (0, none, 100)]) ∧
    List.countP SubEvent.is_report
        (DualPubSubNode.run_callbacks false (DualPubSubNode.Node.init 5 20 40 0)
      [DualPubSubNode.Callback.subscription1 [0xA1, 0xA1] 6,
       DualPubSubNode.Callback.subscription1 [0xA1, 0xA1] 8,
       DualPubSubNode.Callback.status 1000000000,
       DualPubSubNode.Callback.subscription2 [0xB2, 0xB2] 1000000008]).2
      = List.countP DualPubSubNode.Callback.is_status
      [DualPubSubNode.Callback.subscription1 [0xA1, 0xA1] 6,
       DualPubSubNode.Callback.subscription1 [0xA1, 0xA1] 8,
       DualPubSubNode.Callback.status 1000000000,
       DualPubSubNode.Callback.subscription2 [0xB2, 0xB2] 1000000008] ∧
    ((DualPubSubNode.run_callbacks false (DualPubSubNode.Node.init 5 20 40 0)
      [DualPubSubNode.Callback.subscription1 [0xA1, 0xA1] 6,
       DualPubSubNode.Callback.subscription1 [0xA1, 0xA1] 8,
       DualPubSubNode.Callback.status 1000000000,
       DualPubSubNode.Callback.subscription2 [0xB2, 0xB2] 1000000008]).1.w1.count = 2 ∧
      (DualPubSubNode.run_callbacks false (DualPubSubNode.Node.init 5 20 40 0)
      [DualPubSubNode.Callback.subscription1 [0xA1, 0xA1] 6,
       DualPubSubNode.Callback.subscription1 [0xA1, 0xA1] 8,
       DualPubSubNode.Callback.status 1000000000,
       DualPubSubNode.Callback.subscription2 [0xB2, 0xB2] 1000000008]).2.map
        (fun e => e.is_report) = [false, false, true, false]) :=
  ⟨by decide,
   ((short_frames_show_zero_loss false 5 0
      [{ now := 5, add_ok1 := true, add_ok2 := true, timed_out := false,
         take1 := some ([0xA1, 0xA1], 6), take2 := none },
       { now := 7, add_ok1 := true, add_ok2 := true, timed_out := false,
         take1 := some ([0xA1, 0xA1], 8), take2 := none },
       { now := 1000000007, add_ok1 := true, add_ok2 := true, timed_out := false,
         take1 := some ([0xA1, 0xA1], 1000000008), take2 := none },
       { now := 2000000007, add_ok1 := true, add_ok2 := true, timed_out := true,
         take1 := none, take2 := none }]
      20 40
      [DualPubSubNode.Callback.subscription1 [0xA1, 0xA1] 6,
       DualPubSubNode.Callback.subscription1 [0xA1, 0xA1] 8,
       DualPubSubNode.Callback.status 1000000000,
       DualPubSubNode.Callback.subscription2 [0xB2, 0xB2] 1000000008]
      (by simp) (by simp [DualPubSubNode.Callback.short])).2.2.1 (by decide!)).2.1,
   ((short_frames_show_zero_loss false 5 0
      [{ now := 5, add_ok1 := true, add_ok2 := true, timed_out := false,
         take1 := some ([0xA1, 0xA1], 6), take2 := none },
       { now := 7, add_ok1 := true, add_ok2 := true, timed_out := false,
         take1 := some ([0xA1, 0xA1], 8), take2 := none },
       { now := 1000000007, add_ok1 := true, add_ok2 := true, timed_out := false,
         take1 := some ([0xA1, 0xA1], 1000000008), take2 := none },
       { now := 2000000007, add_ok1 := true, add_ok2 := true, timed_out := true,
         take1 := none, take2 := none }]
      20 40
      [DualPubSubNode.Callback.subscription1 [0xA1, 0xA1] 6,
       DualPubSubNode.Callback.subscription1 [0xA1, 0xA1] 8,
       DualPubSubNode.Callback.status 1000000000,
       DualPubSubNode.Callback.subscription2 [0xB2, 0xB2] 1000000008]
      (by simp) (by simp [DualPubSubNode.Callback.short])).2.2.1 (by decide!)).2.2.2
      (by decide!),
   ⟨by decide!, by decide!, by decide!⟩,
   (short_frames_show_zero_loss false 5 0
      [{ now := 5, add_ok1 := true, add_ok2 := true, timed_out := false,
         take1 := some ([0xA1, 0xA1], 6), take2 := none },
       { now := 7, add_ok1 := true, add_ok2 := true, timed_out := false,
         take1 := some ([0xA1, 0xA1], 8), take2 := none },
       { now := 1000000007, add_ok1 := true, add_ok2 := true, timed_out := false,
         take1 := some ([0xA1, 0xA1], 1000000008), take2 := none },
       { now := 2000000007, add_ok1 := true, add_ok2 := true, timed_out := true,
         take1 := none, take2 := none }]
      20 40
      [DualPubSubNode.Callback.subscription1 [0xA1, 0xA1] 6,
       DualPubSubNode.Callback.subscription1 [0xA1, 0xA1] 8,
       DualPubSubNode.Callback.status 1000000000,
       DualPubSubNode.Callback.subscription2 [0xB2, 0xB2] 1000000008]
      (by simp) (by simp [DualPubSubNode.Callback.short])).2.2.2.2.2.2,
   ⟨by decide!, by decide!⟩⟩

/-! ## Due test and termination test: claims C16, C17 -/

/-- C16. In the threaded loop and in both channels of the polling loop, at every iteration
that does not leave the loop a channel attempts a frame if and only if the clock reading
is at or after its next-due time; when it does, exactly one frame is attempted and the
next-due time becomes the clock reading plus the period, whatever the outcome of the
send; when it does not, no frame is attempted and the next-due time is unchanged. The
next-due time starts at the start time, so a first iteration whose clock reading is not
before the start attempts a frame on every channel. The period is the one the code
computes, `(int)interval_ms` milliseconds for the `double` quotient
`interval_ms = 1000.0 / rate`; when that quotient is `2 ^ 31` or more the conversion
gives `INT_MIN`, the new next-due time lies before the clock reading, and the channel is
due again at the next iteration. -/
theorem channel_due_iff_now_reached_next_pub (be : Bool) (duration rate : ℚ) (payload : Nat)
    (fill_byte : Byte) (s : Rcl.ThreadLoop) (t : Rcl.ThreadTick)
    (rate1 rate2 : ℚ) (payload1 payload2 : Nat) (d : Rcl.DualLoop) (u : Rcl.DualTick)
    (start : Int) :
    (t.should_stop = false → ¬ duration_over duration s.start t.now →
      ∃ (s1 : Rcl.ThreadLoop) (status : Option ℚ) (e : Option Emission),
        Rcl.publisher_thread_iter be duration rate payload fill_byte s t
          = some (s1, status, e) ∧
        (e.isSome = true ↔ s.ch.next_pub ≤ t.now) ∧
        (s.ch.next_pub ≤ t.now → s1.ch.next_pub = add_ms t.now (trunc_int (interval_ms rate))) ∧
        (¬ s.ch.next_pub ≤ t.now → s1.ch.next_pub = s.ch.next_pub)) ∧
    (¬ duration_over duration d.start u.now →
      ∃ (d1 : Rcl.DualLoop) (status : Option (ℚ × ℚ)) (e1 e2 : Option Emission),
        Rcl.run_dual_publisher_iter be duration rate1 rate2 payload1 payload2 d u
          = some (d1, status, e1, e2) ∧
        (e1.isSome = true ↔ d.ch1.next_pub ≤ u.now) ∧
        (d.ch1.next_pub ≤ u.now →
          d1.ch1.next_pub = add_ms u.now (trunc_int (interval_ms rate1))) ∧
        (¬ d.ch1.next_pub ≤ u.now → d1.ch1.next_pub = d.ch1.next_pub) ∧
        (e2.isSome = true ↔ d.ch2.next_pub ≤ u.now) ∧
        (d.ch2.next_pub ≤ u.now →
          d1.ch2.next_pub = add_ms u.now (trunc_int (interval_ms rate2))) ∧
        (¬ d.ch2.next_pub ≤ u.now → d1.ch2.next_pub = d.ch2.next_pub)) ∧
    ((Rcl.ThreadLoop.init start).ch.next_pub = start ∧
      (Rcl.DualLoop.init start).ch1.next_pub = start ∧
      (Rcl.DualLoop.init start).ch2.next_pub = start) ∧
    (∀ x : ℚ, interval_ms rate = some x → 2147483648 ≤ x →
      trunc_int (interval_ms rate) = -2147483648 ∧
      add_ms t.now (trunc_int (interval_ms rate)) < t.now) := by
  refine ⟨?_, ?_, ⟨rfl, rfl, rfl⟩, ?_⟩
  · intro hstop hdur
    by_cases hdue : s.ch.next_pub ≤ t.now
    · obtain ⟨s1, status, hiter, _, _, h3, _⟩ :=
        Rcl.thread_iter_due be duration rate payload fill_byte s t hstop hdur hdue
      exact ⟨s1, status, _, hiter, by simp [hdue], fun _ => h3, fun h => absurd hdue h⟩
    · obtain ⟨s1, status, hiter, _, _, h3, _⟩ :=
        Rcl.thread_iter_not_due be duration rate payload fill_byte s t hstop hdur hdue
      exact ⟨s1, status, _, hiter, by simp [hdue], fun h => absurd h hdue, fun _ => h3⟩
  · intro hdur
    obtain ⟨d1, status, hiter, _, _, a3, _, _, b3, _⟩ :=
      Rcl.dual_iter_not_left be duration rate1 rate2 payload1 payload2 d u hdur
    refine ⟨d1, status, _, _, hiter, ?_, ?_, ?_, ?_, ?_, ?_⟩
    · by_cases h : d.ch1.next_pub ≤ u.now <;> simp [h]
    · intro h; rw [a3, if_pos h]
    · intro h; rw [a3, if_neg h]
    · by_cases h : d.ch2.next_pub ≤ u.now <;> simp [h]
    · intro h; rw [b3, if_pos h]
    · intro h; rw [b3, if_neg h]
  · intro x hx hbig
    have hcast : trunc_int (interval_ms rate) = -2147483648 := by
      rw [hx]
      show (if -2147483649 < x ∧ x < 2147483648 then Int.tdiv x.num (x.den : Int)
        else -2147483648) = -2147483648
      exact if_neg (fun h => absurd h.2 (not_lt.2 hbig))
    rw [hcast]
    exact ⟨rfl, by unfold add_ms; omega⟩

/-- Instance of C16: first iteration of `publisher_thread` at 10 Hz, 5 ns after the start,
where the period is 100 ms; and at the rate that `--rate1 1e-7` gives, where the quotient
is `1e10`, the period is `INT_MIN` and the next-due time is before the clock reading. -/
theorem channel_due_iff_now_reached_next_pub_witness :
    (∃ (s1 : Rcl.ThreadLoop) (status : Option ℚ) (e : Option Emission),
      Rcl.publisher_thread_iter false 2 10 20 0xA1 (Rcl.ThreadLoop.init 0)
        { should_stop := false, now := 5, timestamp := 6, send_ok := false }
        = some (s1, status, e) ∧
      (e.isSome = true ↔ (0 : Int) ≤ 5) ∧
      ((0 : Int) ≤ 5 → s1.ch.next_pub = add_ms 5 (trunc_int (interval_ms 10))) ∧
      (¬ (0 : Int) ≤ 5 → s1.ch.next_pub = 0)) ∧
    trunc_int (interval_ms 10) = 100 ∧
    (interval_ms (944473296573929 / 9444732965739290427392) = some 10000000000 ∧
      (2147483648 : ℚ) ≤ 10000000000) ∧
    (trunc_int (interval_ms (944473296573929 / 9444732965739290427392)) = -2147483648 ∧
      add_ms 5 (trunc_int (interval_ms (944473296573929 / 9444732965739290427392))) < 5) :=
  ⟨(channel_due_iff_now_reached_next_pub false 2 10 20 0xA1 (Rcl.ThreadLoop.init 0)
      { should_stop := false, now := 5, timestamp := 6, send_ok := false }
      10 5 20 40 (Rcl.DualLoop.init 0)
      { now := 5, timestamp1 := 6, send_ok1 := false, timestamp2 := 7, send_ok2 := true } 0).1
      (by decide) (by decide!),
   by decide!,
   ⟨by decide!, by norm_num⟩,
   (channel_due_iff_now_reached_next_pub false 2 (944473296573929 / 9444732965739290427392)
      20 0xA1 (Rcl.ThreadLoop.init 0)
      { should_stop := false, now := 5, timestamp := 6, send_ok := false }
      10 5 20 40 (Rcl.DualLoop.init 0)
      { now := 5, timestamp1 := 6, send_ok1 := false, timestamp2 := 7, send_ok2 := true }
      0).2.2.2 10000000000 (by decide!) (by norm_num)⟩

/-- A timer callback that passes both tests keeps the flag, the duration and the start
time. -/
theorem DualPubSubNode.publish_topic1_goes_on (be : Bool) (n : DualPubSubNode.Node)
    (now ts : Int) (o : DualPubSubNode.PublishOutcome) (hfin : n.finished = false)
    (hdur : ¬ duration_over n.duration n.start_time now) :
    (DualPubSubNode.publish_topic1 be n now ts o).2.isSome = true ∧
    (DualPubSubNode.publish_topic1 be n now ts o).1.finished = false ∧
    (DualPubSubNode.publish_topic1 be n now ts o).1.duration = n.duration ∧
    (DualPubSubNode.publish_topic1 be n now ts o).1.start_time = n.start_time := by
  cases o <;> simp [DualPubSubNode.publish_topic1, hfin, hdur]

theorem DualPubSubNode.publish_topic2_goes_on (be : Bool) (n : DualPubSubNode.Node)
    (now ts : Int) (o : DualPubSubNode.PublishOutcome) (hfin : n.finished = false)
    (hdur : ¬ duration_over n.duration n.start_time now) :
    (DualPubSubNode.publish_topic2 be n now ts o).2.isSome = true ∧
    (DualPubSubNode.publish_topic2 be n now ts o).1.finished = false ∧
    (DualPubSubNode.publish_topic2 be n now ts o).1.duration = n.duration ∧
    (DualPubSubNode.publish_topic2 be n now ts o).1.start_time = n.start_time := by
  cases o <;> simp [DualPubSubNode.publish_topic2, hfin, hdur]

theorem DualPubSubNode.publish_topic1_over (be : Bool) (n : DualPubSubNode.Node)
    (now ts : Int) (o : DualPubSubNode.PublishOutcome) (hfin : n.finished = false)
    (hdur : duration_over n.duration n.start_time now) :
    DualPubSubNode.publish_topic1 be n now ts o = (DualPubSubNode.stop_publishing n, none) := by
  simp [DualPubSubNode.publish_topic1, hfin, hdur]

theorem DualPubSubNode.publish_topic2_over (be : Bool) (n : DualPubSubNode.Node)
    (now ts : Int) (o : DualPubSubNode.PublishOutcome) (hfin : n.finished = false)
    (hdur : duration_over n.duration n.start_time now) :
    DualPubSubNode.publish_topic2 be n now ts o = (DualPubSubNode.stop_publishing n, none) := by
  simp [DualPubSubNode.publish_topic2, hfin, hdur]

/-- Firings of `timer1_` that pass the duration test and whose `publish` does not throw
make one emission each. -/
theorem DualPubSubNode.topic1_run_goes_on (be : Bool) (ticks : List DualPubSubNode.TimerTick) :
    ∀ n : DualPubSubNode.Node, n.finished = false →
      (∀ t ∈ ticks, ¬ duration_over n.duration n.start_time t.now ∧
        t.outcome ≠ DualPubSubNode.PublishOutcome.threw) →
      (DualPubSubNode.publish_topic1_run be n ticks).2.length = ticks.length ∧
      (DualPubSubNode.publish_topic1_run be n ticks).1.finished = false := by
  induction ticks with
  | nil => intro n hfin _; exact ⟨rfl, hfin⟩
  | cons t ts ih =>
    intro n hfin h
    obtain ⟨hdur, hthrow⟩ := h t (List.mem_cons_self t ts)
    obtain ⟨g1, g2, g3, g4⟩ :=
      DualPubSubNode.publish_topic1_goes_on be n t.now t.timestamp t.outcome hfin hdur
    obtain ⟨i1, i2⟩ := ih _ g2 (fun u hu => by
      rw [g3, g4]; exact h u (List.mem_cons_of_mem t hu))
    obtain ⟨e, he⟩ := Option.isSome_iff_exists.1 g1
    simp only [DualPubSubNode.publish_topic1_run, if_neg hthrow, List.length_append, i1, he,
      Option.toList_some, List.length_singleton, List.length_cons]
    exact ⟨by simp only [List.length_nil]; omega, i2⟩

theorem DualPubSubNode.topic2_run_goes_on (be : Bool) (ticks : List DualPubSubNode.TimerTick) :
    ∀ n : DualPubSubNode.Node, n.finished = false →
      (∀ t ∈ ticks, ¬ duration_over n.duration n.start_time t.now ∧
        t.outcome ≠ DualPubSubNode.PublishOutcome.threw) →
      (DualPubSubNode.publish_topic2_run be n ticks).2.length = ticks.length ∧
      (DualPubSubNode.publish_topic2_run be n ticks).1.finished = false := by
  induction ticks with
  | nil => intro n hfin _; exact ⟨rfl, hfin⟩
  | cons t ts ih =>
    intro n hfin h
    obtain ⟨hdur, hthrow⟩ := h t (List.mem_cons_self t ts)
    obtain ⟨g1, g2, g3, g4⟩ :=
      DualPubSubNode.publish_topic2_goes_on be n t.now t.timestamp t.outcome hfin hdur
    obtain ⟨i1, i2⟩ := ih _ g2 (fun u hu => by
      rw [g3, g4]; exact h u (List.mem_cons_of_mem t hu))
    obtain ⟨e, he⟩ := Option.isSome_iff_exists.1 g1
    simp only [DualPubSubNode.publish_topic2_run, if_neg hthrow, List.length_append, i1, he,
      Option.toList_some, List.length_singleton, List.length_cons]
    exact ⟨by simp only [List.length_nil]; omega, i2⟩

/-- The callbacks of the subscriber node and the status callback of the publisher node
leave the flag `finished_` as it is. -/
theorem DualPubSubNode.callbacks_keep_flag (be : Bool) (n : DualPubSubNode.Node)
    (c : DualPubSubNode.Callback) (now : Int) :
    (DualPubSubNode.run_callback be n c).1.finished = n.finished ∧
    (DualPubSubNode.print_publisher_status n now).1.finished = n.finished := by
  constructor
  · cases c with
    | subscription1 data recv => rfl
    | subscription2 data recv => rfl
    | status t =>
      cases hfin : n.finished <;>
        simp [DualPubSubNode.run_callback, DualPubSubNode.print_subscriber_status, hfin]
  · cases hfin : n.finished <;> simp [DualPubSubNode.print_publisher_status, hfin]


/-- Counterexample to C17 as worded. Below the duration: an iteration of
`publisher_thread` whose elapsed time (1.9999 s) is below the duration (2 s) ends the run
when the stop flag is raised, as `run_parallel_publisher` does after its own sleep; an
iteration of `run_dual_subscriber` at 5 ns ends the run when a subscription cannot be
added to the wait set; and a run of `timer1_` ends at 0.1 s when `publish` throws. At or
above the duration: the callbacks of the rclcpp subscriber and the status callback of the
rclcpp publisher make no duration test, so 5 s after the start, with duration 2 s, the
subscriber still prints a report and takes a frame, the publisher still logs its rates,
and none of them raises `finished_`. -/
theorem stop_flag_ends_run_before_duration :
    (seconds (1999900000 - 0) < 2 ∧
      Rcl.publisher_thread_iter false 2 10 20 0xA1 (Rcl.ThreadLoop.init 0)
        { should_stop := true, now := 1999900000, timestamp := 1999900001, send_ok := true }
        = none) ∧
    (seconds (5 - 0) < 2 ∧
      (Rcl.run_dual_subscriber_iter false 2 (Rcl.SubLoop.init 0)
        { now := 5, add_ok1 := false, add_ok2 := true, timed_out := false,
          take1 := none, take2 := none }).left = true) ∧
    (seconds (200000000 - 0) < 2 ∧
      (DualPubSubNode.publish_topic1_run false (DualPubSubNode.Node.init 2 20 40 0)
        [{ now := 100000000, timestamp := 100000001,
           outcome := DualPubSubNode.PublishOutcome.threw },
         { now := 200000000, timestamp := 200000001,
           outcome := DualPubSubNode.PublishOutcome.delivered }]).2.length = 1) ∧
    ((2 : ℚ) ≤ seconds (5000000000 - 0) ∧
      (DualPubSubNode.print_subscriber_status (DualPubSubNode.Node.init 2 20 40 0)
        5000000000).2.length = 1 ∧
      (DualPubSubNode.print_subscriber_status (DualPubSubNode.Node.init 2 20 40 0)
        5000000000).1.finished = false ∧
      DualPubSubNode.run_callback false (DualPubSubNode.Node.init 2 20 40 0)
          (DualPubSubNode.Callback.subscription1 [0xA1, 0xA1] 5000000000)
        = ({ DualPubSubNode.Node.init 2 20 40 0 with
              w1 := { StatWindow.init with count := 1, payload_size := 2 } },
           [SubEvent.frame1 [0xA1, 0xA1]]) ∧
      (DualPubSubNode.print_publisher_status (DualPubSubNode.Node.init 2 20 40 0)
        5000000000).2 = some (0, 0) ∧
      (DualPubSubNode.print_publisher_status (DualPubSubNode.Node.init 2 20 40 0)
        5000000000).1.finished = false) := by
  refine ⟨⟨by decide!, by decide!⟩, ⟨by decide!, by decide!⟩, ⟨by decide!, by decide!⟩,
    by decide!, by decide!, by decide!, by decide!, by decide!, by decide!⟩

/-- C17 (amended). Termination test of the polling loop, the threaded loop, the rcl
subscriber loop and the publish timers of the rclcpp node, where the elapsed time is the
`double` number of seconds that the code computes from the nanosecond clock difference.
With `duration > 0`, an iteration or timer callback whose elapsed time since the start is
at least the duration ends the run without emitting a frame or a report (the timer
callback calls `stop_publishing`, after which every publisher callback returns at once);
one with a smaller elapsed time does not end the run, provided the stop flag is not
raised (`publisher_thread`), both subscriptions are added to the wait set
(`run_dual_subscriber`) and `publish` does not throw (timers). With `duration ≤ 0` the
duration test is false for every elapsed time, and the run goes on under the same
provisos. The status callback of the rclcpp publisher and the callbacks of the rclcpp
subscriber make no duration test: they never change `finished_`, and while it is not
set the status callbacks report at any elapsed time. -/
theorem duration_test_ends_the_run (be : Bool) (duration rate : ℚ) (payload : Nat)
    (fill_byte : Byte) (s : Rcl.ThreadLoop) (t : Rcl.ThreadTick)
    (rate1 rate2 : ℚ) (payload1 payload2 : Nat) (d : Rcl.DualLoop) (u : Rcl.DualTick)
    (b : Rcl.SubLoop) (v : Rcl.SubTick)
    (n : DualPubSubNode.Node) (now ts : Int) (o : DualPubSubNode.PublishOutcome)
    (ticks : List DualPubSubNode.TimerTick) (c : DualPubSubNode.Callback) :
    (0 < duration →
      (duration ≤ seconds (t.now - s.start) →
        Rcl.publisher_thread_iter be duration rate payload fill_byte s t = none) ∧
      (duration ≤ seconds (u.now - d.start) →
        Rcl.run_dual_publisher_iter be duration rate1 rate2 payload1 payload2 d u = none) ∧
      (duration ≤ seconds (v.now - b.start) →
        (Rcl.run_dual_subscriber_iter be duration b v).left = true ∧
        (Rcl.run_dual_subscriber_iter be duration b v).log = [] ∧
        (Rcl.run_dual_subscriber_iter be duration b v).state = b) ∧
      (seconds (t.now - s.start) < duration → t.should_stop = false →
        (Rcl.publisher_thread_iter be duration rate payload fill_byte s t).isSome = true) ∧
      (seconds (u.now - d.start) < duration →
        (Rcl.run_dual_publisher_iter be duration rate1 rate2 payload1 payload2 d u).isSome
          = true) ∧
      (seconds (v.now - b.start) < duration → v.add_ok1 = true → v.add_ok2 = true →
        (Rcl.run_dual_subscriber_iter be duration b v).left = false)) ∧
    (duration ≤ 0 →
      (∀ start now : Int, ¬ duration_over duration start now) ∧
      (t.should_stop = false →
        (Rcl.publisher_thread_iter be duration rate payload fill_byte s t).isSome = true) ∧
      (Rcl.run_dual_publisher_iter be duration rate1 rate2 payload1 payload2 d u).isSome
        = true ∧
      (v.add_ok1 = true → v.add_ok2 = true →
        (Rcl.run_dual_subscriber_iter be duration b v).left = false)) ∧
    (n.finished = false →
      (0 < n.duration → n.duration ≤ seconds (now - n.start_time) →
        DualPubSubNode.publish_topic1 be n now ts o = (DualPubSubNode.stop_publishing n, none) ∧
        DualPubSubNode.publish_topic2 be n now ts o = (DualPubSubNode.stop_publishing n, none) ∧
        (DualPubSubNode.stop_publishing n).finished = true) ∧
      ((0 < n.duration → seconds (now - n.start_time) < n.duration) →
        ((DualPubSubNode.publish_topic1 be n now ts o).2.isSome = true ∧
          (DualPubSubNode.publish_topic1 be n now ts o).1.finished = false) ∧
        ((DualPubSubNode.publish_topic2 be n now ts o).2.isSome = true ∧
          (DualPubSubNode.publish_topic2 be n now ts o).1.finished = false)) ∧
      ((∀ k ∈ ticks, (0 < n.duration → seconds (k.now - n.start_time) < n.duration) ∧
          k.outcome ≠ DualPubSubNode.PublishOutcome.threw) →
        ((DualPubSubNode.publish_topic1_run be n ticks).2.length = ticks.length ∧
          (DualPubSubNode.publish_topic1_run be n ticks).1.finished = false) ∧
        ((DualPubSubNode.publish_topic2_run be n ticks).2.length = ticks.length ∧
          (DualPubSubNode.publish_topic2_run be n ticks).1.finished = false))) ∧
    (n.finished = true →
      DualPubSubNode.publish_topic1 be n now ts o = (n, none) ∧
      DualPubSubNode.publish_topic2 be n now ts o = (n, none) ∧
      DualPubSubNode.print_publisher_status n now = (n, none) ∧
      DualPubSubNode.print_subscriber_status n now = (n, [])) ∧
    ((DualPubSubNode.print_publisher_status n now).1.finished = n.finished ∧
      (DualPubSubNode.run_callback be n c).1.finished = n.finished ∧
      (n.finished = false →
        (DualPubSubNode.print_publisher_status n now).2.isSome = true ∧
        (DualPubSubNode.print_subscriber_status n now).2.length = 1)) := by
  have hthread : t.should_stop = false → ¬ duration_over duration s.start t.now →
      (Rcl.publisher_thread_iter be duration rate payload fill_byte s t).isSome = true := by
    intro hstop hdur
    by_cases hdue : s.ch.next_pub ≤ t.now
    · obtain ⟨s1, status, hiter, _⟩ :=
        Rcl.thread_iter_due be duration rate payload fill_byte s t hstop hdur hdue
      rw [hiter]; rfl
    · obtain ⟨s1, status, hiter, _⟩ :=
        Rcl.thread_iter_not_due be duration rate payload fill_byte s t hstop hdur hdue
      rw [hiter]; rfl
  have hdual : ¬ duration_over duration d.start u.now →
      (Rcl.run_dual_publisher_iter be duration rate1 rate2 payload1 payload2 d u).isSome
        = true := by
    intro hdur
    obtain ⟨d1, status, hiter, _⟩ :=
      Rcl.dual_iter_not_left be duration rate1 rate2 payload1 payload2 d u hdur
    rw [hiter]; rfl
  have hsub : ¬ duration_over duration b.start v.now → v.add_ok1 = true → v.add_ok2 = true →
      (Rcl.run_dual_subscriber_iter be duration b v).left = false := by
    intro hdur h1 h2
    unfold Rcl.run_dual_subscriber_iter Rcl.wait_and_take
    cases hto : v.timed_out <;> simp [hdur, h1, h2, hto]
  have hnot : ∀ x : Int, (0 < n.duration → seconds (x - n.start_time) < n.duration) →
      ¬ duration_over n.duration n.start_time x :=
    fun x h hov => absurd hov.2 (not_le.2 (h hov.1))
  refine ⟨?_, ?_, ?_, ?_, ?_⟩
  · intro hpos
    refine ⟨?_, ?_, ?_, ?_, ?_, ?_⟩
    · intro h
      exact Rcl.thread_iter_left be duration rate payload fill_byte s t (Or.inr ⟨hpos, h⟩)
    · intro h
      exact Rcl.dual_iter_left be duration rate1 rate2 payload1 payload2 d u ⟨hpos, h⟩
    · intro h
      have hov : duration_over duration b.start v.now := ⟨hpos, h⟩
      simp [Rcl.run_dual_subscriber_iter, hov]
    · intro h hstop
      exact hthread hstop (fun hov => absurd hov.2 (not_le.2 h))
    · intro h
      exact hdual (fun hov => absurd hov.2 (not_le.2 h))
    · intro h
      exact hsub (fun hov => absurd hov.2 (not_le.2 h))
  · intro hle
    have hno : ∀ start now : Int, ¬ duration_over duration start now :=
      fun start now hov => absurd hov.1 (not_lt.2 hle)
    exact ⟨hno, fun hstop => hthread hstop (hno _ _), hdual (hno _ _), hsub (hno _ _)⟩
  · intro hfin
    refine ⟨?_, ?_, ?_⟩
    · intro hpos h
      refine ⟨DualPubSubNode.publish_topic1_over be n now ts o hfin ⟨hpos, h⟩,
        DualPubSubNode.publish_topic2_over be n now ts o hfin ⟨hpos, h⟩, ?_⟩
      simp [DualPubSubNode.stop_publishing, hfin]
    · intro h
      obtain ⟨a1, a2, _⟩ :=
        DualPubSubNode.publish_topic1_goes_on be n now ts o hfin (hnot now h)
      obtain ⟨b1, b2, _⟩ :=
        DualPubSubNode.publish_topic2_goes_on be n now ts o hfin (hnot now h)
      exact ⟨⟨a1, a2⟩, ⟨b1, b2⟩⟩
    · intro h
      exact ⟨DualPubSubNode.topic1_run_goes_on be ticks n hfin
          (fun k hk => ⟨hnot k.now (h k hk).1, (h k hk).2⟩),
        DualPubSubNode.topic2_run_goes_on be ticks n hfin
          (fun k hk => ⟨hnot k.now (h k hk).1, (h k hk).2⟩)⟩
  · intro hfin
    simp [DualPubSubNode.publish_topic1, DualPubSubNode.publish_topic2,
      DualPubSubNode.print_publisher_status, DualPubSubNode.print_subscriber_status, hfin]
  · obtain ⟨k1, k2⟩ := DualPubSubNode.callbacks_keep_flag be n c now
    refine ⟨k2, k1, ?_⟩
    intro hfin
    simp [DualPubSubNode.print_publisher_status, DualPubSubNode.print_subscriber_status, hfin]

/-- Instance of C17 (amended): with duration 2 s, iterations at 2 s end the three loops and
a timer callback at 2 s stops the publisher node; with the duration that `--duration 0.1`
gives, an iteration at exactly 100 ms ends the threaded loop; a timer run of two
callbacks below the duration makes two emissions. -/
theorem duration_test_ends_the_run_witness :
    Rcl.publisher_thread_iter false 2 10 20 0xA1 (Rcl.ThreadLoop.init 0)
      { should_stop := false, now := 2000000000, timestamp := 6, send_ok := true } = none ∧
    Rcl.run_dual_publisher_iter false 2 10 5 20 40 (Rcl.DualLoop.init 0)
      { now := 2000000000, timestamp1 := 6, send_ok1 := true, timestamp2 := 7,
        send_ok2 := true } = none ∧
    (Rcl.run_dual_subscriber_iter false 2 (Rcl.SubLoop.init 0)
      { now := 2000000000, add_ok1 := true, add_ok2 := true, timed_out := false,
        take1 := none, take2 := none }).left = true ∧
    (round_double (1 / 10) = 3602879701896397 / 36028797018963968 ∧
      Rcl.publisher_thread_iter false (3602879701896397 / 36028797018963968) 10 20 0xA1
        (Rcl.ThreadLoop.init 0)
        { should_stop := false, now := 100000000, timestamp := 6, send_ok := true } = none) ∧
    DualPubSubNode.publish_topic1 false (DualPubSubNode.Node.init 2 20 40 0) 2000000000
        2000000001 DualPubSubNode.PublishOutcome.delivered
      = ({ DualPubSubNode.Node.init 2 20 40 0 with finished := true }, none) ∧
    (DualPubSubNode.publish_topic1_run false (DualPubSubNode.Node.init 2 20 40 0)
      [{ now := 100000000, timestamp := 100000001,
         outcome := DualPubSubNode.PublishOutcome.delivered },
       { now := 200000000, timestamp := 200000001,
         outcome := DualPubSubNode.PublishOutcome.dropped }]).2.length = 2 :=
  ⟨((duration_test_ends_the_run false 2 10 20 0xA1 (Rcl.ThreadLoop.init 0)
      { should_stop := false, now := 2000000000, timestamp := 6, send_ok := true }
      10 5 20 40 (Rcl.DualLoop.init 0)
      { now := 2000000000, timestamp1 := 6, send_ok1 := true, timestamp2 := 7,
        send_ok2 := true }
      (Rcl.SubLoop.init 0)
      { now := 2000000000, add_ok1 := true, add_ok2 := true, timed_out := false,
        take1 := none, take2 := none }
      (DualPubSubNode.Node.init 2 20 40 0) 2000000000 2000000001
      DualPubSubNode.PublishOutcome.delivered [] (DualPubSubNode.Callback.status 5)).1
      (by norm_num)).1 (by decide!),
   ((duration_test_ends_the_run false 2 10 20 0xA1 (Rcl.ThreadLoop.init 0)
      { should_stop := false, now := 2000000000, timestamp := 6, send_ok := true }
      10 5 20 40 (Rcl.DualLoop.init 0)
      { now := 2000000000, timestamp1 := 6, send_ok1 := true, timestamp2 := 7,
        send_ok2 := true }
      (Rcl.SubLoop.init 0)
      { now := 2000000000, add_ok1 := true, add_ok2 := true, timed_out := false,
        take1 := none, take2 := none }
      (DualPubSubNode.Node.init 2 20 40 0) 2000000000 2000000001
      DualPubSubNode.PublishOutcome.delivered [] (DualPubSubNode.Callback.status 5)).1
      (by norm_num)).2.1 (by decide!),
   (((duration_test_ends_the_run false 2 10 20 0xA1 (Rcl.ThreadLoop.init 0)
      { should_stop := false, now := 2000000000, timestamp := 6, send_ok := true }
      10 5 20 40 (Rcl.DualLoop.init 0)
      { now := 2000000000, timestamp1 := 6, send_ok1 := true, timestamp2 := 7,
        send_ok2 := true }
      (Rcl.SubLoop.init 0)
      { now := 2000000000, add_ok1 := true, add_ok2 := true, timed_out := false,
        take1 := none, take2 := none }
      (DualPubSubNode.Node.init 2 20 40 0) 2000000000 2000000001
      DualPubSubNode.PublishOutcome.delivered [] (DualPubSubNode.Callback.status 5)).1
      (by norm_num)).2.2.1 (by decide!)).1,
   ⟨by decide!,
    ((duration_test_ends_the_run false (3602879701896397 / 36028797018963968) 10 20 0xA1
      (Rcl.ThreadLoop.init 0)
      { should_stop := false, now := 100000000, timestamp := 6, send_ok := true }
      10 5 20 40 (Rcl.DualLoop.init 0)
      { now := 100000000, timestamp1 := 6, send_ok1 := true, timestamp2 := 7,
        send_ok2 := true }
      (Rcl.SubLoop.init 0)
      { now := 100000000, add_ok1 := true, add_ok2 := true, timed_out := false,
        take1 := none, take2 := none }
      (DualPubSubNode.Node.init 2 20 40 0) 2000000000 2000000001
      DualPubSubNode.PublishOutcome.delivered [] (DualPubSubNode.Callback.status 5)).1
      (by norm_num)).1 (by decide!)⟩,
   (((duration_test_ends_the_run false 2 10 20 0xA1 (Rcl.ThreadLoop.init 0)
      { should_stop := false, now := 2000000000, timestamp := 6, send_ok := true }
      10 5 20 40 (Rcl.DualLoop.init 0)
      { now := 2000000000, timestamp1 := 6, send_ok1 := true, timestamp2 := 7,
        send_ok2 := true }
      (Rcl.SubLoop.init 0)
      { now := 2000000000, add_ok1 := true, add_ok2 := true, timed_out := false,
        take1 := none, take2 := none }
      (DualPubSubNode.Node.init 2 20 40 0) 2000000000 2000000001
      DualPubSubNode.PublishOutcome.delivered [] (DualPubSubNode.Callback.status 5)).2.2.1
      rfl).1 (by decide!) (by decide!)).1,
   (((duration_test_ends_the_run false 2 10 20 0xA1 (Rcl.ThreadLoop.init 0)
      { should_stop := false, now := 2000000000, timestamp := 6, send_ok := true }
      10 5 20 40 (Rcl.DualLoop.init 0)
      { now := 2000000000, timestamp1 := 6, send_ok1 := true, timestamp2 := 7,
        send_ok2 := true }
      (Rcl.SubLoop.init 0)
      { now := 2000000000, add_ok1 := true, add_ok2 := true, timed_out := false,
        take1 := none, take2 := none }
      (DualPubSubNode.Node.init 2 20 40 0) 2000000000 2000000001
      DualPubSubNode.PublishOutcome.delivered
      [{ now := 100000000, timestamp := 100000001,
         outcome := DualPubSubNode.PublishOutcome.delivered },
       { now := 200000000, timestamp := 200000001,
         outcome := DualPubSubNode.PublishOutcome.dropped }]
      (DualPubSubNode.Callback.status 5)).2.2.1 rfl).2.2
      (by decide!)).1.1⟩

/-! ## Polling loop against threaded loop, cached padding: claims C18, C20 -/

/-- For valid statics the cached `create_message` returns what the uncached one returns. -/
theorem Rcl.create_message_eq_uncached (be : Bool) (st : Rcl.Statics) (hst : st.Valid)
    (payload : Nat) (b : Byte) (msg_id : Nat) (ts : Int) :
    (Rcl.create_message be st payload b msg_id ts).1
      = DualPubSubNode.create_message be payload b msg_id ts := by
  by_cases hp : 4 ≤ payload
  · rw [Rcl.create_message_data be st hst payload b msg_id ts hp,
      DualPubSubNode.cpp_create_message_data be payload b msg_id ts hp]
  · rw [Rcl.create_message_overrun be st payload b msg_id ts (by omega),
      DualPubSubNode.cpp_create_message_overrun be payload b msg_id ts (by omega)]

/-- Normal form of an iteration of `publisher_thread` with the stop flag down. -/
theorem Rcl.thread_iter_normal (be : Bool) (duration rate : ℚ) (payload : Nat) (b : Byte)
    (s : Rcl.ThreadLoop) (now ts : Int) (ok : Bool) (hv : s.statics.Valid)
    (hov : ¬ duration_over duration s.start now) :
    ∃ (s1 : Rcl.ThreadLoop) (status : Option ℚ),
      Rcl.publisher_thread_iter be duration rate payload b s
          { should_stop := false, now := now, timestamp := ts, send_ok := ok }
        = some (s1, status,
            if s.ch.next_pub ≤ now then
              some { msg_id := s.ch.msg_id,
                     data := DualPubSubNode.create_message be payload b s.ch.msg_id ts,
                     published := ok }
            else none) ∧
      s1.start = s.start ∧
      s1.ch.next_pub
        = (if s.ch.next_pub ≤ now then add_ms now (trunc_int (interval_ms rate))
           else s.ch.next_pub) ∧
      s1.ch.msg_id
        = (if s.ch.next_pub ≤ now ∧ ok = true then (s.ch.msg_id + 1) % 2 ^ 32
           else s.ch.msg_id) ∧
      s1.ch.count
        = (if s.ch.next_pub ≤ now ∧ ok = true then (s.ch.count + 1) % 2 ^ 64
           else s.ch.count) ∧
      s1.statics.Valid := by
  by_cases hdue : s.ch.next_pub ≤ now
  · obtain ⟨s1, status, hiter, h1, h2, h3, h4, h5⟩ :=
      Rcl.thread_iter_due be duration rate payload b s
        { should_stop := false, now := now, timestamp := ts, send_ok := ok } rfl hov hdue
    refine ⟨s1, status, ?_, h5, ?_, ?_, ?_, ?_⟩
    · rw [hiter, if_pos hdue, Rcl.create_message_eq_uncached be s.statics hv]
    · rw [h3, if_pos hdue]
    · rw [h1]; simp [hdue]
    · rw [h2]; simp [hdue]
    · rw [h4]; exact Rcl.create_message_valid be s.statics hv _ _ _ _
  · obtain ⟨s1, status, hiter, h1, h2, h3, h4, h5⟩ :=
      Rcl.thread_iter_not_due be duration rate payload b s
        { should_stop := false, now := now, timestamp := ts, send_ok := ok } rfl hov hdue
    refine ⟨s1, status, ?_, h5, ?_, ?_, ?_, ?_⟩
    · rw [hiter, if_neg hdue]
    · rw [h3, if_neg hdue]
    · rw [h1]; simp [hdue]
    · rw [h2]; simp [hdue]
    · rw [h4]; exact hv

/-- Normal form of an iteration of `run_dual_publisher`. -/
theorem Rcl.dual_iter_normal (be : Bool) (duration rate1 rate2 : ℚ) (payload1 payload2 : Nat)
    (d : Rcl.DualLoop) (u : Rcl.DualTick) (hv : d.statics.Valid)
    (hov : ¬ duration_over duration d.start u.now) :
    ∃ (d1 : Rcl.DualLoop) (status : Option (ℚ × ℚ)),
      Rcl.run_dual_publisher_iter be duration rate1 rate2 payload1 payload2 d u
        = some (d1, status,
            (if d.ch1.next_pub ≤ u.now then
              some { msg_id := d.ch1.msg_id,
                     data := DualPubSubNode.create_message be payload1 0xA1 d.ch1.msg_id
                       u.timestamp1,
                     published := u.send_ok1 }
             else none),
            (if d.ch2.next_pub ≤ u.now then
              some { msg_id := d.ch2.msg_id,
                     data := DualPubSubNode.create_message be payload2 0xB2 d.ch2.msg_id
                       u.timestamp2,
                     published := u.send_ok2 }
             else none)) ∧
      d1.start = d.start ∧
      (d1.ch1.next_pub
          = (if d.ch1.next_pub ≤ u.now then add_ms u.now (trunc_int (interval_ms rate1))
             else d.ch1.next_pub) ∧
        d1.ch1.msg_id
          = (if d.ch1.next_pub ≤ u.now ∧ u.send_ok1 = true then (d.ch1.msg_id + 1) % 2 ^ 32
             else d.ch1.msg_id) ∧
        d1.ch1.count
          = (if d.ch1.next_pub ≤ u.now ∧ u.send_ok1 = true then (d.ch1.count + 1) % 2 ^ 64
             else d.ch1.count)) ∧
      (d1.ch2.next_pub
          = (if d.ch2.next_pub ≤ u.now then add_ms u.now (trunc_int (interval_ms rate2))
             else d.ch2.next_pub) ∧
        d1.ch2.msg_id
          = (if d.ch2.next_pub ≤ u.now ∧ u.send_ok2 = true then (d.ch2.msg_id + 1) % 2 ^ 32
             else d.ch2.msg_id) ∧
        d1.ch2.count
          = (if d.ch2.next_pub ≤ u.now ∧ u.send_ok2 = true then (d.ch2.count + 1) % 2 ^ 64
             else d.ch2.count)) ∧
      d1.statics.Valid := by
  obtain ⟨d1, status, hiter, a1, a2, a3, b1, b2, b3, hst, hstart⟩ :=
    Rcl.dual_iter_not_left be duration rate1 rate2 payload1 payload2 d u hov
  have hvmid : (if d.ch1.next_pub ≤ u.now then
      (Rcl.create_message be d.statics payload1 0xA1 d.ch1.msg_id u.timestamp1).2
      else d.statics).Valid := by
    split
    · exact Rcl.create_message_valid be d.statics hv _ _ _ _
    · exact hv
  refine ⟨d1, status, ?_, hstart, ⟨a3, a1, a2⟩, ⟨b3, b1, b2⟩, ?_⟩
  · rw [hiter, Rcl.create_message_eq_uncached be d.statics hv,
      Rcl.create_message_eq_uncached be _ hvmid]
  · rw [hst]
    split
    · exact Rcl.create_message_valid be _ hvmid _ _ _ _
    · exact hvmid

/-- The polling loop and two threaded loops, run from matching states on the same clock
readings and send outcomes, attempt the same emissions and end with the same counters. -/
theorem Rcl.dual_run_matches_threads (be : Bool) (duration rate1 rate2 : ℚ)
    (payload1 payload2 : Nat) (ticks : List Rcl.DualTick)
    (d : Rcl.DualLoop) (s1 s2 : Rcl.ThreadLoop)
    (hs1 : s1.start = d.start) (hs2 : s2.start = d.start)
    (hn1 : s1.ch.next_pub = d.ch1.next_pub) (hm1 : s1.ch.msg_id = d.ch1.msg_id)
    (hc1 : s1.ch.count = d.ch1.count)
    (hn2 : s2.ch.next_pub = d.ch2.next_pub) (hm2 : s2.ch.msg_id = d.ch2.msg_id)
    (hc2 : s2.ch.count = d.ch2.count)
    (hv : d.statics.Valid) (hv1 : s1.statics.Valid) (hv2 : s2.statics.Valid) :
    ((Rcl.run_dual_publisher_run be duration rate1 rate2 payload1 payload2 d ticks).2.1
        = (Rcl.publisher_thread_run be duration rate1 payload1 0xA1 s1
            (ticks.map Rcl.DualTick.thread1)).2 ∧
      (Rcl.run_dual_publisher_run be duration rate1 rate2 payload1 payload2 d ticks).1.ch1.count
        = (Rcl.publisher_thread_run be duration rate1 payload1 0xA1 s1
            (ticks.map Rcl.DualTick.thread1)).1.ch.count ∧
      (Rcl.run_dual_publisher_run be duration rate1 rate2 payload1 payload2 d ticks).1.ch1.msg_id
        = (Rcl.publisher_thread_run be duration rate1 payload1 0xA1 s1
            (ticks.map Rcl.DualTick.thread1)).1.ch.msg_id) ∧
    ((Rcl.run_dual_publisher_run be duration rate1 rate2 payload1 payload2 d ticks).2.2
        = (Rcl.publisher_thread_run be duration rate2 payload2 0xB2 s2
            (ticks.map Rcl.DualTick.thread2)).2 ∧
      (Rcl.run_dual_publisher_run be duration rate1 rate2 payload1 payload2 d ticks).1.ch2.count
        = (Rcl.publisher_thread_run be duration rate2 payload2 0xB2 s2
            (ticks.map Rcl.DualTick.thread2)).1.ch.count ∧
      (Rcl.run_dual_publisher_run be duration rate1 rate2 payload1 payload2 d ticks).1.ch2.msg_id
        = (Rcl.publisher_thread_run be duration rate2 payload2 0xB2 s2
            (ticks.map Rcl.DualTick.thread2)).1.ch.msg_id) := by
  induction ticks generalizing d s1 s2 with
  | nil =>
    simp only [Rcl.run_dual_publisher_run, List.map_nil, Rcl.publisher_thread_run]
    exact ⟨⟨trivial, hc1.symm, hm1.symm⟩, ⟨trivial, hc2.symm, hm2.symm⟩⟩
  | cons u us ih =>
    by_cases hov : duration_over duration d.start u.now
    · have hd := Rcl.dual_iter_left be duration rate1 rate2 payload1 payload2 d u hov
      have ht1 := Rcl.thread_iter_left be duration rate1 payload1 0xA1 s1 u.thread1
        (Or.inr (by rw [hs1]; exact hov))
      have ht2 := Rcl.thread_iter_left be duration rate2 payload2 0xB2 s2 u.thread2
        (Or.inr (by rw [hs2]; exact hov))
      simp only [Rcl.run_dual_publisher_run, List.map_cons, Rcl.publisher_thread_run, hd, ht1,
        ht2]
      exact ⟨⟨trivial, hc1.symm, hm1.symm⟩, ⟨trivial, hc2.symm, hm2.symm⟩⟩
    · obtain ⟨d1, status, hiter, hstart, ⟨a3, a1, a2⟩, ⟨b3, b1, b2⟩, hvd⟩ :=
        Rcl.dual_iter_normal be duration rate1 rate2 payload1 payload2 d u hv hov
      obtain ⟨t1, st1, hiter1, ts1, tn1, tm1, tc1, tv1⟩ :=
        Rcl.thread_iter_normal be duration rate1 payload1 0xA1 s1 u.now u.timestamp1 u.send_ok1
          hv1 (by rw [hs1]; exact hov)
      obtain ⟨t2, st2, hiter2, ts2, tn2, tm2, tc2, tv2⟩ :=
        Rcl.thread_iter_normal be duration rate2 payload2 0xB2 s2 u.now u.timestamp2 u.send_ok2
          hv2 (by rw [hs2]; exact hov)
      rw [hn1, hm1] at hiter1
      rw [hn2, hm2] at hiter2
      rw [hn1, hm1] at tm1
      rw [hn1, hc1] at tc1
      rw [hn1] at tn1
      rw [hn2, hm2] at tm2
      rw [hn2, hc2] at tc2
      rw [hn2] at tn2
      obtain ⟨⟨i1, i2, i3⟩, ⟨j1, j2, j3⟩⟩ := ih d1 t1 t2 (by rw [ts1, hs1, hstart])
        (by rw [ts2, hs2, hstart]) (tn1.trans a3.symm) (tm1.trans a1.symm) (tc1.trans a2.symm)
        (tn2.trans b3.symm) (tm2.trans b1.symm) (tc2.trans b2.symm) hvd tv1 tv2
      have e1 : (Rcl.DualTick.thread1 u)
          = { should_stop := false, now := u.now, timestamp := u.timestamp1,
              send_ok := u.send_ok1 } := rfl
      have e2 : (Rcl.DualTick.thread2 u)
          = { should_stop := false, now := u.now, timestamp := u.timestamp2,
              send_ok := u.send_ok2 } := rfl
      simp only [Rcl.run_dual_publisher_run, List.map_cons, Rcl.publisher_thread_run, hiter,
        e1, e2, hiter1, hiter2]
      exact ⟨⟨by rw [i1], i2, i3⟩, ⟨by rw [j1], j2, j3⟩⟩


/-- C18. The polling loop and the threaded loop are the same per-channel state machine:
run from their initial locals with the same duration, rate, payload and fill byte, on the
same clock readings and send outcomes and with the stop flag down, channel 1 of
`run_dual_publisher` and `publisher_thread` with fill byte 0xA1 (resp. channel 2 and fill
byte 0xB2) attempt the same emissions (same ids, same data, same outcomes, for every
prefix of the run) and end with the same sent count and sequence counter. In
`run_dual_publisher` the emissions and counters of one channel do not depend on the
state, the configuration, the timestamps or the send outcomes of the other channel. -/
theorem polling_and_threaded_loops_agree (be : Bool) (duration rate1 rate2 : ℚ)
    (payload1 payload2 : Nat) (start : Int) (ticks : List Rcl.DualTick)
    (d c : Rcl.DualLoop) (other_rate : ℚ) (other_payload : Nat)
    (other_ticks : List Rcl.DualTick) :
    ((Rcl.run_dual_publisher_run be duration rate1 rate2 payload1 payload2
          (Rcl.DualLoop.init start) ticks).2.1
        = (Rcl.publisher_thread_run be duration rate1 payload1 0xA1
            (Rcl.ThreadLoop.init start) (ticks.map Rcl.DualTick.thread1)).2 ∧
      (Rcl.run_dual_publisher_run be duration rate1 rate2 payload1 payload2
          (Rcl.DualLoop.init start) ticks).1.ch1.count
        = (Rcl.publisher_thread_run be duration rate1 payload1 0xA1
            (Rcl.ThreadLoop.init start) (ticks.map Rcl.DualTick.thread1)).1.ch.count ∧
      (Rcl.run_dual_publisher_run be duration rate1 rate2 payload1 payload2
          (Rcl.DualLoop.init start) ticks).1.ch1.msg_id
        = (Rcl.publisher_thread_run be duration rate1 payload1 0xA1
            (Rcl.ThreadLoop.init start) (ticks.map Rcl.DualTick.thread1)).1.ch.msg_id) ∧
    ((Rcl.run_dual_publisher_run be duration rate1 rate2 payload1 payload2
          (Rcl.DualLoop.init start) ticks).2.2
        = (Rcl.publisher_thread_run be duration rate2 payload2 0xB2
            (Rcl.ThreadLoop.init start) (ticks.map Rcl.DualTick.thread2)).2 ∧
      (Rcl.run_dual_publisher_run be duration rate1 rate2 payload1 payload2
          (Rcl.DualLoop.init start) ticks).1.ch2.count
        = (Rcl.publisher_thread_run be duration rate2 payload2 0xB2
            (Rcl.ThreadLoop.init start) (ticks.map Rcl.DualTick.thread2)).1.ch.count ∧
      (Rcl.run_dual_publisher_run be duration rate1 rate2 payload1 payload2
          (Rcl.DualLoop.init start) ticks).1.ch2.msg_id
        = (Rcl.publisher_thread_run be duration rate2 payload2 0xB2
            (Rcl.ThreadLoop.init start) (ticks.map Rcl.DualTick.thread2)).1.ch.msg_id) ∧
    (d.statics.Valid → c.statics.Valid → c.start = d.start → c.ch1 = d.ch1 →
      other_ticks.map Rcl.DualTick.thread1 = ticks.map Rcl.DualTick.thread1 →
      (Rcl.run_dual_publisher_run be duration rate1 other_rate payload1 other_payload
          c other_ticks).2.1
        = (Rcl.run_dual_publisher_run be duration rate1 rate2 payload1 payload2 d ticks).2.1 ∧
      (Rcl.run_dual_publisher_run be duration rate1 other_rate payload1 other_payload
          c other_ticks).1.ch1.count
        = (Rcl.run_dual_publisher_run be duration rate1 rate2 payload1 payload2
            d ticks).1.ch1.count ∧
      (Rcl.run_dual_publisher_run be duration rate1 other_rate payload1 other_payload
          c other_ticks).1.ch1.msg_id
        = (Rcl.run_dual_publisher_run be duration rate1 rate2 payload1 payload2
            d ticks).1.ch1.msg_id) ∧
    (d.statics.Valid → c.statics.Valid → c.start = d.start → c.ch2 = d.ch2 →
      other_ticks.map Rcl.DualTick.thread2 = ticks.map Rcl.DualTick.thread2 →
      (Rcl.run_dual_publisher_run be duration other_rate rate2 other_payload payload2
          c other_ticks).2.2
        = (Rcl.run_dual_publisher_run be duration rate1 rate2 payload1 payload2 d ticks).2.2 ∧
      (Rcl.run_dual_publisher_run be duration other_rate rate2 other_payload payload2
          c other_ticks).1.ch2.count
        = (Rcl.run_dual_publisher_run be duration rate1 rate2 payload1 payload2
            d ticks).1.ch2.count ∧
      (Rcl.run_dual_publisher_run be duration other_rate rate2 other_payload payload2
          c other_ticks).1.ch2.msg_id
        = (Rcl.run_dual_publisher_run be duration rate1 rate2 payload1 payload2
            d ticks).1.ch2.msg_id) := by
  obtain ⟨h1, h2⟩ := Rcl.dual_run_matches_threads be duration rate1 rate2 payload1 payload2
    ticks (Rcl.DualLoop.init start) (Rcl.ThreadLoop.init start) (Rcl.ThreadLoop.init start)
    rfl rfl rfl rfl rfl rfl rfl rfl Rcl.init_valid Rcl.init_valid Rcl.init_valid
  refine ⟨h1, h2, ?_, ?_⟩
  · intro hvd hvc hstart hch hticks
    obtain ⟨⟨a1, a2, a3⟩, _⟩ := Rcl.dual_run_matches_threads be duration rate1 rate2 payload1
      payload2 ticks d
      { start := d.start, last_status := 0, ch := d.ch1, statics := Rcl.Statics.init }
      { start := d.start, last_status := 0, ch := d.ch2, statics := Rcl.Statics.init }
      rfl rfl rfl rfl rfl rfl rfl rfl hvd Rcl.init_valid Rcl.init_valid
    obtain ⟨⟨b1, b2, b3⟩, _⟩ := Rcl.dual_run_matches_threads be duration rate1 other_rate
      payload1 other_payload other_ticks c
      { start := d.start, last_status := 0, ch := d.ch1, statics := Rcl.Statics.init }
      { start := c.start, last_status := 0, ch := c.ch2, statics := Rcl.Statics.init }
      hstart.symm rfl (by rw [hch]) (by rw [hch]) (by rw [hch]) rfl rfl rfl hvc
      Rcl.init_valid Rcl.init_valid
    rw [hticks] at b1 b2 b3
    exact ⟨b1.trans a1.symm, b2.trans a2.symm, b3.trans a3.symm⟩
  · intro hvd hvc hstart hch hticks
    obtain ⟨_, ⟨a1, a2, a3⟩⟩ := Rcl.dual_run_matches_threads be duration rate1 rate2 payload1
      payload2 ticks d
      { start := d.start, last_status := 0, ch := d.ch1, statics := Rcl.Statics.init }
      { start := d.start, last_status := 0, ch := d.ch2, statics := Rcl.Statics.init }
      rfl rfl rfl rfl rfl rfl rfl rfl hvd Rcl.init_valid Rcl.init_valid
    obtain ⟨_, ⟨b1, b2, b3⟩⟩ := Rcl.dual_run_matches_threads be duration other_rate rate2
      other_payload payload2 other_ticks c
      { start := c.start, last_status := 0, ch := c.ch1, statics := Rcl.Statics.init }
      { start := d.start, last_status := 0, ch := d.ch2, statics := Rcl.Statics.init }
      rfl hstart.symm rfl rfl rfl (by rw [hch]) (by rw [hch]) (by rw [hch]) hvc
      Rcl.init_valid Rcl.init_valid
    rw [hticks] at b1 b2 b3
    exact ⟨b1.trans a1.symm, b2.trans a2.symm, b3.trans a3.symm⟩

/-- Instance of C18: two iterations of the polling loop at 10 Hz and 5 Hz; a loop whose
channel 2 has another rate, payload and send outcome attempts the same frames on
channel 1. -/
theorem polling_and_threaded_loops_agree_witness :
    (Rcl.run_dual_publisher_run false 2 10 50 20 8 (Rcl.DualLoop.init 0)
        [{ now := 5, timestamp1 := 6, send_ok1 := true, timestamp2 := 7, send_ok2 := false },
         { now := 100000005, timestamp1 := 100000006, send_ok1 := false,
           timestamp2 := 100000007, send_ok2 := true }]).2.1
      = (Rcl.run_dual_publisher_run false 2 10 5 20 40 (Rcl.DualLoop.init 0)
        [{ now := 5, timestamp1 := 6, send_ok1 := true, timestamp2 := 9, send_ok2 := true },
         { now := 100000005, timestamp1 := 100000006, send_ok1 := false,
           timestamp2 := 100000009, send_ok2 := true }]).2.1 :=
  ((polling_and_threaded_loops_agree false 2 10 5 20 40 0
      [{ now := 5, timestamp1 := 6, send_ok1 := true, timestamp2 := 9, send_ok2 := true },
       { now := 100000005, timestamp1 := 100000006, send_ok1 := false,
         timestamp2 := 100000009, send_ok2 := true }]
      (Rcl.DualLoop.init 0) (Rcl.DualLoop.init 0) 50 8
      [{ now := 5, timestamp1 := 6, send_ok1 := true, timestamp2 := 7, send_ok2 := false },
       { now := 100000005, timestamp1 := 100000006, send_ok1 := false,
         timestamp2 := 100000007, send_ok2 := true }]).2.2.1
    Rcl.init_valid Rcl.init_valid rfl rfl rfl).1

/-- Data returned by a sequence of calls from valid statics. -/
theorem Rcl.returns_of_eq_uncached (be : Bool) (calls : List Rcl.Call) (st : Rcl.Statics)
    (hst : st.Valid) :
    Rcl.returns_of be st calls
      = calls.map (fun c => DualPubSubNode.create_message be c.1 c.2.1 c.2.2.1 c.2.2.2) := by
  induction calls generalizing st with
  | nil => rfl
  | cons c cs ih =>
    simp only [Rcl.returns_of, List.map_cons]
    rw [Rcl.create_message_eq_uncached be st hst,
      ih _ (Rcl.create_message_valid be st hst _ _ _ _)]

/-- Calls with room for the id return the frame of the format description, whatever the
valid statics. -/
theorem Rcl.returns_of_layout (be : Bool) (calls : List Rcl.Call) (st : Rcl.Statics)
    (hst : st.Valid) (hcalls : ∀ c ∈ calls, 4 ≤ c.1) :
    Rcl.returns_of be st calls
      = calls.map (fun c => some (frame_layout be c.1 c.2.1 c.2.2.1 c.2.2.2)) := by
  induction calls generalizing st with
  | nil => rfl
  | cons c cs ih =>
    simp only [Rcl.returns_of, List.map_cons]
    rw [Rcl.create_message_data be st hst c.1 c.2.1 c.2.2.1 c.2.2.2
        (hcalls c (List.mem_cons_self c cs)),
      ih _ (Rcl.create_message_valid be st hst _ _ _ _)
        (fun u hu => hcalls u (List.mem_cons_of_mem c hu))]

/-- Counterexample to C20 as worded: the claim is for arbitrary payloads, but a call with
payload 2 (or 0) returns no bytes in either program. Both copy the four bytes of the id
into the buffer without a test, the cached one into `malloc(2)`, the uncached one into a
vector of 2 elements, so both write past the end of the buffer; the behaviour is
undefined, and there are no returned bytes to compare. In the sequence below the first
call (payload 20) returns a frame and the second (payload 2) does not. -/
theorem create_message_returns_no_bytes_below_four :
    (Rcl.returns_of false Rcl.Statics.init [(20, 0xA1, 0, 1), (2, 0xA1, 1, 2)]).map
        (fun r => r.isSome) = [true, false] ∧
    ([(20, 0xA1, 0, 1), (2, 0xA1, 1, 2)] : List Rcl.Call).map
        (fun c => (DualPubSubNode.create_message false c.1 c.2.1 c.2.2.1 c.2.2.2).isSome)
      = [true, false] ∧
    memcpy (malloc 2) 0 (uint32_bytes false 1) 4 = none ∧
    memcpy (resize [] 2 0xA1) 0 (uint32_bytes false 1) 4 = none ∧
    (Rcl.create_message false Rcl.Statics.init 0 0xA1 0 1).1 = none ∧
    DualPubSubNode.create_message false 0 0xA1 0 1 = none := by
  refine ⟨by decide!, by decide!, by decide!, by decide!, by decide!, by decide!⟩

/-- C20 (amended). The cached padding template of the rcl `create_message` is a pure
optimisation for payloads of at least 4 bytes: for every sequence of calls with payload
at least 4 and arbitrary fill byte, id and clock reading, made from the initial empty
caches, each call returns the bytes that the uncached rclcpp `create_message` returns on
the same arguments, namely the frame of the format description; after the sequence each
cache holds exactly `last_payload_size` bytes, all equal to `last_fill_byte`, and a
further call with payload at least 4 again returns the bytes of the uncached one. -/
theorem cached_template_is_pure_optimisation (be : Bool) (calls : List Rcl.Call)
    (payload : Nat) (fill_byte : Byte) (msg_id : Nat) (ts : Int)
    (hcalls : ∀ c ∈ calls, 4 ≤ c.1) (hp : 4 ≤ payload) :
    Rcl.returns_of be Rcl.Statics.init calls
      = calls.map (fun c => DualPubSubNode.create_message be c.1 c.2.1 c.2.2.1 c.2.2.2) ∧
    Rcl.returns_of be Rcl.Statics.init calls
      = calls.map (fun c => some (frame_layout be c.1 c.2.1 c.2.2.1 c.2.2.2)) ∧
    ((Rcl.create_message be (Rcl.statics_after be calls) payload fill_byte msg_id ts).1
        = DualPubSubNode.create_message be payload fill_byte msg_id ts ∧
      DualPubSubNode.create_message be payload fill_byte msg_id ts
        = some (frame_layout be payload fill_byte msg_id ts)) ∧
    ((Rcl.statics_after be calls).slot1.base_payload.length
        = (Rcl.statics_after be calls).slot1.last_payload_size ∧
      (∀ x ∈ (Rcl.statics_after be calls).slot1.base_payload,
        x = (Rcl.statics_after be calls).slot1.last_fill_byte)) ∧
    ((Rcl.statics_after be calls).slot2.base_payload.length
        = (Rcl.statics_after be calls).slot2.last_payload_size ∧
      (∀ x ∈ (Rcl.statics_after be calls).slot2.base_payload,
        x = (Rcl.statics_after be calls).slot2.last_fill_byte)) := by
  have hv := Rcl.statics_after_valid be calls
  have hcpp := DualPubSubNode.cpp_create_message_data be payload fill_byte msg_id ts hp
  refine ⟨Rcl.returns_of_eq_uncached be calls _ Rcl.init_valid,
    Rcl.returns_of_layout be calls _ Rcl.init_valid hcalls,
    ⟨by rw [Rcl.create_message_data be _ hv payload fill_byte msg_id ts hp, hcpp], hcpp⟩,
    ?_, ?_⟩
  · have h := hv.1
    unfold Rcl.BasePayload.Valid at h
    constructor
    · rw [h]; simp
    · intro x hx
      rw [h] at hx
      exact (List.mem_replicate.1 hx).2
  · have h := hv.2
    unfold Rcl.BasePayload.Valid at h
    constructor
    · rw [h]; simp
    · intro x hx
      rw [h] at hx
      exact (List.mem_replicate.1 hx).2

/-- Instance of C20 (amended): three calls with payloads 20, 20 and 6, the second one
served from the cached template, then a call with payload 4. -/
theorem cached_template_is_pure_optimisation_witness :
    Rcl.returns_of false Rcl.Statics.init
        [(20, 0xA1, 0, 1), (20, 0xA1, 1, 2), (6, 0xB2, 0, 3)]
      = [some (frame_layout false 20 0xA1 0 1), some (frame_layout false 20 0xA1 1 2),
         some (frame_layout false 6 0xB2 0 3)] ∧
    (Rcl.create_message false
        (Rcl.statics_after false [(20, 0xA1, 0, 1), (20, 0xA1, 1, 2), (6, 0xB2, 0, 3)])
        4 0xA1 2 4).1
      = DualPubSubNode.create_message false 4 0xA1 2 4 ∧
    DualPubSubNode.create_message false 4 0xA1 2 4 = some [2, 0, 0, 0] ∧
    (Rcl.statics_after false [(20, 0xA1, 0, 1), (20, 0xA1, 1, 2), (6, 0xB2, 0, 3)]).slot1
      = { base_payload := List.replicate 20 0xA1, last_payload_size := 20,
          last_fill_byte := 0xA1 } :=
  ⟨(cached_template_is_pure_optimisation false
      [(20, 0xA1, 0, 1), (20, 0xA1, 1, 2), (6, 0xB2, 0, 3)] 4 0xA1 2 4
      (by decide) (by decide)).2.1,
   (cached_template_is_pure_optimisation false
      [(20, 0xA1, 0, 1), (20, 0xA1, 1, 2), (6, 0xB2, 0, 3)] 4 0xA1 2 4
      (by decide) (by decide)).2.2.1.1,
   by decide!, by decide!⟩

/-! ## Command line: claim C19 -/

theorem in_order_init : StatWindow.init.in_order := Or.inl ⟨rfl, rfl⟩

theorem admits_init (ids : List Nat) (hord : List.Chain' (fun a b => a ≤ b) ids)
    (hlt : ∀ i ∈ ids, i < 2 ^ 32 - 1) : StatWindow.init.admits ids :=
  ⟨hord, hlt, fun h => by cases h⟩

/-- Ids that are skipped leave the rest admissible. -/
theorem admits_skip (w : StatWindow) (skipped rest : List Nat)
    (h : w.admits (skipped ++ rest)) : w.admits rest := by
  obtain ⟨h1, h2, h3⟩ := h
  exact ⟨h1.right_of_append, fun i hi => h2 i (List.mem_append_right _ hi),
    fun hf i hi => h3 hf i (List.mem_append_right _ hi)⟩

/-- The head of a non-decreasing list is not above any later element. -/
theorem chain_head_le (a : Nat) (rest : List Nat)
    (h : List.Chain' (fun a b => a ≤ b) (a :: rest)) : ∀ i ∈ rest, a ≤ i := by
  have hp : List.Pairwise (fun a b => a ≤ b) (a :: rest) :=
    (List.chain'_iff_pairwise).1 h
  exact (List.pairwise_cons.1 hp).1

/-- A taken message keeps the bookkeeping of an in-order stream. -/
theorem in_order_on_message (count_mod : Nat) (be : Bool) (w : StatWindow) (data : Frame)
    (recv : Int) (rest : List Nat) (hw : w.in_order)
    (ha : w.admits ((read_msg_id be data).toList ++ rest)) :
    (on_message count_mod be w data recv).in_order ∧
    (on_message count_mod be w data recv).admits rest := by
  cases hid : read_msg_id be data with
  | none =>
    obtain ⟨h1, h2, h3, h4⟩ := on_message_no_id count_mod be w data recv hid
    rw [hid] at ha
    simp only [Option.toList_none, List.nil_append] at ha
    unfold StatWindow.in_order StatWindow.admits
    rw [h1, h2, h3, h4]
    exact ⟨hw, ha⟩
  | some i =>
    rw [hid] at ha
    simp only [Option.toList_some, List.singleton_append] at ha
    obtain ⟨c1, c2, c3⟩ := ha
    have hrest := chain_head_le i rest c1
    have hi : i < 2 ^ 32 - 1 := c2 i (List.mem_cons_self i rest)
    have hadm : ∀ (v : StatWindow), v.last_msg_id = i → v.admits rest := by
      intro v hv
      refine ⟨c1.tail, fun j hj => c2 j (List.mem_cons_of_mem i hj), fun _ j hj => ?_⟩
      rw [hv]; exact hrest j hj
    rcases hw with ⟨hf, hm⟩ | ⟨hf, k1, k2, k3⟩
    · obtain ⟨h1, h2, h3, h4⟩ := on_message_first_id count_mod be w data recv i hid hf
      refine ⟨Or.inr ⟨h1, ?_, ?_, ?_⟩, hadm _ h3⟩
      · rw [h2, h3]
      · rw [h3]; exact hi
      · rw [h4, hm]; exact Nat.zero_le _
    · obtain ⟨h1, h2, h3, h4⟩ := on_message_next_id count_mod be w data recv i hid hf
      have hle : w.last_msg_id ≤ i := c3 hf i (List.mem_cons_self i rest)
      have hmod : (w.last_msg_id + 1) % 2 ^ 32 = w.last_msg_id + 1 :=
        Nat.mod_eq_of_lt (by omega)
      refine ⟨Or.inr ⟨h1, ?_, ?_, ?_⟩, hadm _ h3⟩
      · rw [h2, h3]; omega
      · rw [h3]; exact hi
      · rw [h2, h3, h4, hmod]
        by_cases hgap : i > w.last_msg_id + 1
        · rw [if_pos hgap]
          have : (w.missed_events + 1) % 2 ^ 32 ≤ w.missed_events + 1 := Nat.mod_le _ _
          omega
        · rw [if_neg hgap]
          omega

/-- The loss rate printed from a window of an in-order stream. -/
theorem in_order_loss_rate (w : StatWindow) (hw : w.in_order) :
    (w.count_last_second ≠ w.count → loss_rate w ≤ 50) ∧
    (w.count_last_second = w.count → loss_rate w = 100) := by
  constructor
  · intro hne
    unfold loss_rate
    rw [if_neg hne]
    rcases hw with ⟨hf, _⟩ | ⟨hf, k1, k2, k3⟩
    · simp [hf]
    · have hsub : uint32_sub w.last_msg_id w.first_msg_id = w.last_msg_id - w.first_msg_id :=
        uint32_sub_of_le _ _ k1 (by omega)
      simp only [hf, Bool.false_eq_true, if_false, hsub]
      by_cases hz : w.last_msg_id - w.first_msg_id = 0
      · rw [if_pos hz]; norm_num
      · rw [if_neg hz]
        have hpos : (0 : ℚ) < ((w.last_msg_id - w.first_msg_id : Nat) : ℚ) := by
          exact_mod_cast Nat.pos_of_ne_zero hz
        have h2 : (2 : ℚ) * (w.missed_events : ℚ)
            ≤ ((w.last_msg_id - w.first_msg_id : Nat) : ℚ) := by
          exact_mod_cast k3
        rw [div_mul_eq_mul_div, div_le_iff₀ hpos]
        linarith
  · intro heq
    unfold loss_rate
    rw [if_pos heq]

theorem in_order_report_bound (w : StatWindow) (r : ChannelReport) (hw : w.in_order)
    (hr : r.loss_rate = loss_rate w) : r.at_most_half w := by
  obtain ⟨h1, h2⟩ := in_order_loss_rate w hw
  unfold ChannelReport.at_most_half
  rw [hr]
  by_cases h : w.count_last_second = w.count
  · exact Or.inr ⟨h2 h, h⟩
  · exact Or.inl (h1 h)

/-- Bookkeeping after a sequence of taken messages of an in-order stream. -/
theorem in_order_receive_all (count_mod : Nat) (be : Bool) (msgs : List (Frame × Int))
    (w : StatWindow) (hw : w.in_order) (ha : w.admits (received_ids be msgs)) :
    (receive_all count_mod be w msgs).in_order := by
  induction msgs generalizing w with
  | nil => exact hw
  | cons m ms ih =>
    rw [receive_all_cons]
    have hids : received_ids be (m :: ms)
        = (read_msg_id be m.1).toList ++ received_ids be ms := by
      cases h : read_msg_id be m.1 with
      | none => rw [received_ids_cons_none be m ms h]; rfl
      | some a => rw [received_ids_cons_some be m ms a h]; rfl
    rw [hids] at ha
    obtain ⟨h1, h2⟩ := in_order_on_message count_mod be w m.1 m.2 _ hw ha
    exact ih _ h1 h2

theorem Rcl.status_block_in_order (s : Rcl.SubLoop) (now : Int) (ids1 ids2 : List Nat)
    (hw1 : s.w1.in_order) (hw2 : s.w2.in_order)
    (ha1 : s.w1.admits ids1) (ha2 : s.w2.admits ids2) :
    ((Rcl.status_block s now).2.w1.in_order ∧ (Rcl.status_block s now).2.w1.admits ids1) ∧
    ((Rcl.status_block s now).2.w2.in_order ∧ (Rcl.status_block s now).2.w2.admits ids2) ∧
    (∀ e ∈ (Rcl.status_block s now).1, e.in_order_report) := by
  by_cases hst : seconds (now - s.last_rate_display) ≥ 1
  · have hb : Rcl.status_block s now
        = ([SubEvent.report s.w1 s.w2
              (Rcl.channel_report s.w1 (seconds (now - s.last_rate_display)))
              (Rcl.channel_report s.w2 (seconds (now - s.last_rate_display)))],
           { s with w1 := snapshot s.w1, w2 := snapshot s.w2, last_rate_display := now }) := by
      simp [Rcl.status_block, hst]
    rw [hb]
    refine ⟨⟨hw1, ha1⟩, ⟨hw2, ha2⟩, ?_⟩
    intro e he
    simp only [List.mem_singleton] at he
    subst he
    exact ⟨⟨hw1, in_order_report_bound s.w1 _ hw1 rfl⟩, ⟨hw2, in_order_report_bound s.w2 _ hw2 rfl⟩⟩
  · have hb : Rcl.status_block s now = ([], s) := by
      simp [Rcl.status_block, hst]
    rw [hb]
    exact ⟨⟨hw1, ha1⟩, ⟨hw2, ha2⟩, fun e he => absurd he (List.not_mem_nil e)⟩

/-- One channel of the receive part of an iteration. -/
theorem Rcl.take_in_order (be : Bool) (w : StatWindow) (take : Option (Frame × Int))
    (rest : List Nat) (hw : w.in_order)
    (ha : w.admits ((take.bind (fun m => read_msg_id be m.1)).toList ++ rest)) :
    (match take with
      | some m => Rcl.take_message be w m.1 m.2
      | none => w).in_order ∧
    (match take with
      | some m => Rcl.take_message be w m.1 m.2
      | none => w).admits rest := by
  cases take with
  | none => exact ⟨hw, admits_skip w _ rest ha⟩
  | some m => exact in_order_on_message (2 ^ 32) be w m.1 m.2 rest hw ha

theorem Rcl.wait_and_take_in_order (be : Bool) (s : Rcl.SubLoop) (t : Rcl.SubTick)
    (ids1 ids2 : List Nat) (hw1 : s.w1.in_order) (hw2 : s.w2.in_order)
    (ha1 : s.w1.admits ((t.take1.bind (fun m => read_msg_id be m.1)).toList ++ ids1))
    (ha2 : s.w2.admits ((t.take2.bind (fun m => read_msg_id be m.1)).toList ++ ids2)) :
    ((Rcl.wait_and_take be s t).state.w1.in_order ∧
      (Rcl.wait_and_take be s t).state.w1.admits ids1) ∧
    ((Rcl.wait_and_take be s t).state.w2.in_order ∧
      (Rcl.wait_and_take be s t).state.w2.admits ids2) ∧
    (∀ e ∈ (Rcl.wait_and_take be s t).log, e.in_order_report) := by
  have hframes : ∀ e ∈ (t.take1.map (fun m => SubEvent.frame1 m.1)).toList
      ++ (t.take2.map (fun m => SubEvent.frame2 m.1)).toList, e.in_order_report := by
    intro e he
    rcases List.mem_append.1 he with h | h
    · cases h1 : t.take1 with
      | none => rw [h1] at h; exact absurd h (List.not_mem_nil e)
      | some m =>
        rw [h1] at h
        simp only [Option.map_some', Option.toList_some, List.mem_singleton] at h
        subst h; trivial
    · cases h2 : t.take2 with
      | none => rw [h2] at h; exact absurd h (List.not_mem_nil e)
      | some m =>
        rw [h2] at h
        simp only [Option.map_some', Option.toList_some, List.mem_singleton] at h
        subst h; trivial
  unfold Rcl.wait_and_take
  by_cases hadd : t.add_ok1 = false ∨ t.add_ok2 = false
  · rw [if_pos hadd]
    exact ⟨⟨hw1, admits_skip _ _ _ ha1⟩, ⟨hw2, admits_skip _ _ _ ha2⟩,
      fun e he => absurd he (List.not_mem_nil e)⟩
  · rw [if_neg hadd]
    cases hto : t.timed_out
    · simp only [Bool.false_eq_true, if_false]
      exact ⟨Rcl.take_in_order be s.w1 t.take1 ids1 hw1 ha1,
        Rcl.take_in_order be s.w2 t.take2 ids2 hw2 ha2, hframes⟩
    · simp only [if_true]
      exact ⟨⟨hw1, admits_skip _ _ _ ha1⟩, ⟨hw2, admits_skip _ _ _ ha2⟩,
        fun e he => absurd he (List.not_mem_nil e)⟩

theorem Rcl.tick_ids1_cons (be : Bool) (t : Rcl.SubTick) (ts : List Rcl.SubTick) :
    Rcl.tick_ids1 be (t :: ts)
      = (t.take1.bind (fun m => read_msg_id be m.1)).toList ++ Rcl.tick_ids1 be ts := by
  unfold Rcl.tick_ids1
  cases h : t.take1.bind (fun m => read_msg_id be m.1) <;>
    simp [List.filterMap_cons, h]

theorem Rcl.tick_ids2_cons (be : Bool) (t : Rcl.SubTick) (ts : List Rcl.SubTick) :
    Rcl.tick_ids2 be (t :: ts)
      = (t.take2.bind (fun m => read_msg_id be m.1)).toList ++ Rcl.tick_ids2 be ts := by
  unfold Rcl.tick_ids2
  cases h : t.take2.bind (fun m => read_msg_id be m.1) <;>
    simp [List.filterMap_cons, h]

/-- One iteration of the subscriber loop on in-order streams. -/
theorem Rcl.sub_iter_in_order (be : Bool) (duration : ℚ) (s : Rcl.SubLoop) (t : Rcl.SubTick)
    (ids1 ids2 : List Nat) (hw1 : s.w1.in_order) (hw2 : s.w2.in_order)
    (ha1 : s.w1.admits ((t.take1.bind (fun m => read_msg_id be m.1)).toList ++ ids1))
    (ha2 : s.w2.admits ((t.take2.bind (fun m => read_msg_id be m.1)).toList ++ ids2)) :
    ((Rcl.run_dual_subscriber_iter be duration s t).state.w1.in_order ∧
      (Rcl.run_dual_subscriber_iter be duration s t).state.w1.admits ids1) ∧
    ((Rcl.run_dual_subscriber_iter be duration s t).state.w2.in_order ∧
      (Rcl.run_dual_subscriber_iter be duration s t).state.w2.admits ids2) ∧
    (∀ e ∈ (Rcl.run_dual_subscriber_iter be duration s t).log, e.in_order_report) := by
  unfold Rcl.run_dual_subscriber_iter
  by_cases hdur : duration_over duration s.start t.now
  · simp only [hdur, if_true]
    exact ⟨⟨hw1, admits_skip _ _ _ ha1⟩, ⟨hw2, admits_skip _ _ _ ha2⟩,
      fun e he => absurd he (List.not_mem_nil e)⟩
  · obtain ⟨⟨b1, b2⟩, ⟨b3, b4⟩, b5⟩ :=
      Rcl.status_block_in_order s t.now _ _ hw1 hw2 ha1 ha2
    obtain ⟨c1, c2, c3⟩ :=
      Rcl.wait_and_take_in_order be (Rcl.status_block s t.now).2 t ids1 ids2 b1 b3 b2 b4
    simp only [hdur, if_false]
    refine ⟨c1, c2, ?_⟩
    intro e he
    rcases List.mem_append.1 he with h | h
    · exact b5 e h
    · exact c3 e h

/-- Run of the subscriber loop on in-order streams. -/
theorem Rcl.sub_run_in_order (be : Bool) (duration : ℚ) (ticks : List Rcl.SubTick)
    (s : Rcl.SubLoop) (hw1 : s.w1.in_order) (hw2 : s.w2.in_order)
    (ha1 : s.w1.admits (Rcl.tick_ids1 be ticks))
    (ha2 : s.w2.admits (Rcl.tick_ids2 be ticks)) :
    (Rcl.run_dual_subscriber_run be duration s ticks).1.w1.in_order ∧
    (Rcl.run_dual_subscriber_run be duration s ticks).1.w2.in_order ∧
    (∀ e ∈ (Rcl.run_dual_subscriber_run be duration s ticks).2, e.in_order_report) := by
  induction ticks generalizing s with
  | nil => exact ⟨hw1, hw2, fun e he => absurd he (List.not_mem_nil e)⟩
  | cons t ts ih =>
    rw [Rcl.tick_ids1_cons] at ha1
    rw [Rcl.tick_ids2_cons] at ha2
    obtain ⟨⟨a1, a2⟩, ⟨a3, a4⟩, a5⟩ :=
      Rcl.sub_iter_in_order be duration s t _ _ hw1 hw2 ha1 ha2
    unfold Rcl.run_dual_subscriber_run
    by_cases hleft : (Rcl.run_dual_subscriber_iter be duration s t).left = true
    · simp only [hleft, if_true]
      exact ⟨a1, a3, a5⟩
    · obtain ⟨i1, i2, i3⟩ := ih (Rcl.run_dual_subscriber_iter be duration s t).state a1 a3 a2 a4
      simp only [Bool.not_eq_true] at hleft
      simp only [hleft, Bool.false_eq_true, if_false]
      refine ⟨i1, i2, ?_⟩
      intro e he
      rcases List.mem_append.1 he with h | h
      · exact a5 e h
      · exact i3 e h

theorem DualPubSubNode.callback_in_order (be : Bool) (n : DualPubSubNode.Node)
    (c : DualPubSubNode.Callback) (ids1 ids2 : List Nat)
    (hw1 : n.w1.in_order) (hw2 : n.w2.in_order)
    (ha1 : n.w1.admits ((c.id1 be).toList ++ ids1))
    (ha2 : n.w2.admits ((c.id2 be).toList ++ ids2)) :
    ((DualPubSubNode.run_callback be n c).1.w1.in_order ∧
      (DualPubSubNode.run_callback be n c).1.w1.admits ids1) ∧
    ((DualPubSubNode.run_callback be n c).1.w2.in_order ∧
      (DualPubSubNode.run_callback be n c).1.w2.admits ids2) ∧
    (∀ e ∈ (DualPubSubNode.run_callback be n c).2, e.in_order_report) := by
  cases c with
  | subscription1 data recv =>
    refine ⟨in_order_on_message (2 ^ 64) be n.w1 data recv ids1 hw1 ha1,
      ⟨hw2, admits_skip _ _ _ ha2⟩, ?_⟩
    intro e he
    simp only [DualPubSubNode.run_callback, List.mem_singleton] at he
    subst he; trivial
  | subscription2 data recv =>
    refine ⟨⟨hw1, admits_skip _ _ _ ha1⟩,
      in_order_on_message (2 ^ 64) be n.w2 data recv ids2 hw2 ha2, ?_⟩
    intro e he
    simp only [DualPubSubNode.run_callback, List.mem_singleton] at he
    subst he; trivial
  | status now =>
    have k1 := admits_skip _ _ _ ha1
    have k2 := admits_skip _ _ _ ha2
    cases hfin : n.finished with
    | true =>
      have hb : DualPubSubNode.run_callback be n (DualPubSubNode.Callback.status now)
          = (n, []) := by
        simp [DualPubSubNode.run_callback, DualPubSubNode.print_subscriber_status, hfin]
      rw [hb]
      exact ⟨⟨hw1, k1⟩, ⟨hw2, k2⟩, fun e he => absurd he (List.not_mem_nil e)⟩
    | false =>
      have hb : DualPubSubNode.run_callback be n (DualPubSubNode.Callback.status now)
          = ({ n with w1 := snapshot n.w1, w2 := snapshot n.w2, last_status_time := now },
             [SubEvent.report n.w1 n.w2
                (DualPubSubNode.channel_report n.w1 (seconds (now - n.last_status_time)))
                (DualPubSubNode.channel_report n.w2 (seconds (now - n.last_status_time)))]) := by
        simp [DualPubSubNode.run_callback, DualPubSubNode.print_subscriber_status, hfin]
      rw [hb]
      refine ⟨⟨hw1, k1⟩, ⟨hw2, k2⟩, ?_⟩
      intro e he
      simp only [List.mem_singleton] at he
      subst he
      exact ⟨⟨hw1, in_order_report_bound n.w1 _ hw1 rfl⟩, ⟨hw2, in_order_report_bound n.w2 _ hw2 rfl⟩⟩

theorem DualPubSubNode.callbacks_in_order (be : Bool) (cbs : List DualPubSubNode.Callback)
    (n : DualPubSubNode.Node) (hw1 : n.w1.in_order) (hw2 : n.w2.in_order)
    (ha1 : n.w1.admits (cbs.filterMap (DualPubSubNode.Callback.id1 be)))
    (ha2 : n.w2.admits (cbs.filterMap (DualPubSubNode.Callback.id2 be))) :
    (DualPubSubNode.run_callbacks be n cbs).1.w1.in_order ∧
    (DualPubSubNode.run_callbacks be n cbs).1.w2.in_order ∧
    (∀ e ∈ (DualPubSubNode.run_callbacks be n cbs).2, e.in_order_report) := by
  induction cbs generalizing n with
  | nil => exact ⟨hw1, hw2, fun e he => absurd he (List.not_mem_nil e)⟩
  | cons c cs ih =>
    have e1 : (c :: cs).filterMap (DualPubSubNode.Callback.id1 be)
        = (c.id1 be).toList ++ cs.filterMap (DualPubSubNode.Callback.id1 be) := by
      cases h : c.id1 be <;> simp [List.filterMap_cons, h]
    have e2 : (c :: cs).filterMap (DualPubSubNode.Callback.id2 be)
        = (c.id2 be).toList ++ cs.filterMap (DualPubSubNode.Callback.id2 be) := by
      cases h : c.id2 be <;> simp [List.filterMap_cons, h]
    rw [e1] at ha1
    rw [e2] at ha2
    obtain ⟨⟨a1, a2⟩, ⟨a3, a4⟩, a5⟩ :=
      DualPubSubNode.callback_in_order be n c _ _ hw1 hw2 ha1 ha2
    obtain ⟨i1, i2, i3⟩ := ih (DualPubSubNode.run_callback be n c).1 a1 a3 a2 a4
    unfold DualPubSubNode.run_callbacks
    refine ⟨i1, i2, ?_⟩
    intro e he
    rcases List.mem_append.1 he with h | h
    · exact a5 e h
    · exact i3 e h

/-- The ids of the first `n` frames of an in-order id stream form an in-order id stream. -/
theorem admits_init_take (be : Bool) (msgs : List (Frame × Int)) (n : Nat)
    (hord : List.Chain' (fun a b => a ≤ b) (received_ids be msgs))
    (hlt : ∀ i ∈ received_ids be msgs, i < 2 ^ 32 - 1) :
    StatWindow.init.admits (received_ids be (msgs.take n)) := by
  have hsub : List.Sublist (received_ids be (msgs.take n)) (received_ids be msgs) :=
    List.Sublist.filterMap _ (List.take_sublist n msgs)
  have hp : List.Pairwise (fun a b => a ≤ b) (received_ids be msgs) :=
    (List.chain'_iff_pairwise).1 hord
  exact admits_init _ ((List.chain'_iff_pairwise).2 (hp.sublist hsub))
    (fun i hi => hlt i (hsub.subset hi))

/-- C21. For every sequence of frames received on a channel whose ids are non-decreasing
and all below `2 ^ 32 - 1`, after every frame (every initial part of the sequence, in either
program): once an id has been seen the first-seen id is not above the last-seen id and
`2 * missed_events ≤ last_seen_id - first_seen_id`; before that `missed_events` is 0; and
the loss rate computed by the formula, which is the one printed whenever the count
differs from its snapshot, is at most 50. In a run of either subscriber whose two
channels receive such streams, every report prints for each channel a loss rate of at
most 50, or the 100 of a window in which no message arrived. -/
theorem in_order_stream_loses_at_most_half (be : Bool) (count_mod : Nat)
    (msgs : List (Frame × Int)) (n : Nat) (duration : ℚ) (start : Int)
    (ticks : List Rcl.SubTick) (payload1 payload2 : Nat)
    (cbs : List DualPubSubNode.Callback) :
    (List.Chain' (fun a b => a ≤ b) (received_ids be msgs) →
      (∀ i ∈ received_ids be msgs, i < 2 ^ 32 - 1) →
      ((receive_all count_mod be StatWindow.init (msgs.take n)).first_msg = false →
        (receive_all count_mod be StatWindow.init (msgs.take n)).first_msg_id
          ≤ (receive_all count_mod be StatWindow.init (msgs.take n)).last_msg_id ∧
        2 * (receive_all count_mod be StatWindow.init (msgs.take n)).missed_events
          ≤ (receive_all count_mod be StatWindow.init (msgs.take n)).last_msg_id
            - (receive_all count_mod be StatWindow.init (msgs.take n)).first_msg_id) ∧
      ((receive_all count_mod be StatWindow.init (msgs.take n)).first_msg = true →
        (receive_all count_mod be StatWindow.init (msgs.take n)).missed_events = 0) ∧
      (∀ c : Nat, c ≠ (receive_all count_mod be StatWindow.init (msgs.take n)).count →
        loss_rate { receive_all count_mod be StatWindow.init (msgs.take n) with
                    count_last_second := c } ≤ 50)) ∧
    (List.Chain' (fun a b => a ≤ b) (Rcl.tick_ids1 be ticks) →
      (∀ i ∈ Rcl.tick_ids1 be ticks, i < 2 ^ 32 - 1) →
      List.Chain' (fun a b => a ≤ b) (Rcl.tick_ids2 be ticks) →
      (∀ i ∈ Rcl.tick_ids2 be ticks, i < 2 ^ 32 - 1) →
      ∀ (w1 w2 : StatWindow) (r1 r2 : ChannelReport),
        SubEvent.report w1 w2 r1 r2
          ∈ (Rcl.run_dual_subscriber_run be duration (Rcl.SubLoop.init start) ticks).2 →
        (r1.loss_rate ≤ 50 ∨ (r1.loss_rate = 100 ∧ w1.count_last_second = w1.count)) ∧
        (r2.loss_rate ≤ 50 ∨ (r2.loss_rate = 100 ∧ w2.count_last_second = w2.count))) ∧
    (List.Chain' (fun a b => a ≤ b) (cbs.filterMap (DualPubSubNode.Callback.id1 be)) →
      (∀ i ∈ cbs.filterMap (DualPubSubNode.Callback.id1 be), i < 2 ^ 32 - 1) →
      List.Chain' (fun a b => a ≤ b) (cbs.filterMap (DualPubSubNode.Callback.id2 be)) →
      (∀ i ∈ cbs.filterMap (DualPubSubNode.Callback.id2 be), i < 2 ^ 32 - 1) →
      ∀ (w1 w2 : StatWindow) (r1 r2 : ChannelReport),
        SubEvent.report w1 w2 r1 r2
          ∈ (DualPubSubNode.run_callbacks be
              (DualPubSubNode.Node.init duration payload1 payload2 start) cbs).2 →
        (r1.loss_rate ≤ 50 ∨ (r1.loss_rate = 100 ∧ w1.count_last_second = w1.count)) ∧
        (r2.loss_rate ≤ 50 ∨ (r2.loss_rate = 100 ∧ w2.count_last_second = w2.count))) := by
  refine ⟨?_, ?_, ?_⟩
  · intro hord hlt
    have hw := in_order_receive_all count_mod be (msgs.take n) StatWindow.init in_order_init
      (admits_init_take be msgs n hord hlt)
    refine ⟨?_, ?_, ?_⟩
    · intro hf
      rcases hw with ⟨hf1, _⟩ | ⟨_, k1, _, k3⟩
      · rw [hf1] at hf; cases hf
      · exact ⟨k1, k3⟩
    · intro hf
      rcases hw with ⟨_, hm⟩ | ⟨hf0, _⟩
      · exact hm
      · rw [hf0] at hf; cases hf
    · intro c hc
      have hw2 : StatWindow.in_order
          { receive_all count_mod be StatWindow.init (msgs.take n) with
            count_last_second := c } := hw
      exact (in_order_loss_rate _ hw2).1 hc
  · intro h1 h2 h3 h4 w1 w2 r1 r2 hmem
    obtain ⟨_, _, hall⟩ := Rcl.sub_run_in_order be duration ticks (Rcl.SubLoop.init start)
      in_order_init in_order_init (admits_init _ h1 h2) (admits_init _ h3 h4)
    have h := hall _ hmem
    exact ⟨h.1.2, h.2.2⟩
  · intro h1 h2 h3 h4 w1 w2 r1 r2 hmem
    obtain ⟨_, _, hall⟩ := DualPubSubNode.callbacks_in_order be cbs
      (DualPubSubNode.Node.init duration payload1 payload2 start)
      in_order_init in_order_init (admits_init _ h1 h2) (admits_init _ h3 h4)
    have h := hall _ hmem
    exact ⟨h.1.2, h.2.2⟩

/-- Instance of C21: the 4-byte frames with ids 0, 1, 2, 5, 6 after the fourth frame (one
gap event, distance 5), and a run of each subscriber that takes the ids 0 and 3 on
channel 1 and makes a report. -/
theorem in_order_stream_loses_at_most_half_witness :
    (List.Chain' (fun a b => a ≤ b) (received_ids false (id_frames false [0, 1, 2, 5, 6])) ∧
      (receive_all (2 ^ 32) false StatWindow.init
        ((id_frames false [0, 1, 2, 5, 6]).take 4)).first_msg = false ∧
      2 * (receive_all (2 ^ 32) false StatWindow.init
            ((id_frames false [0, 1, 2, 5, 6]).take 4)).missed_events
        ≤ (receive_all (2 ^ 32) false StatWindow.init
            ((id_frames false [0, 1, 2, 5, 6]).take 4)).last_msg_id
          - (receive_all (2 ^ 32) false StatWindow.init
            ((id_frames false [0, 1, 2, 5, 6]).take 4)).first_msg_id) ∧
    (Rcl.tick_ids1 false
        [{ now := 5, add_ok1 := true, add_ok2 := true, timed_out := false,
           take1 := some (uint32_bytes false 0, 6), take2 := none },
         { now := 1000000005, add_ok1 := true, add_ok2 := true, timed_out := false,
           take1 := some (uint32_bytes false 3, 1000000006), take2 := none }] = [0, 3] ∧
      ((Rcl.channel_report (Rcl.take_message false StatWindow.init (uint32_bytes false 0) 6)
          (seconds (1000000005 - 0))).loss_rate ≤ 50 ∨
        ((Rcl.channel_report (Rcl.take_message false StatWindow.init (uint32_bytes false 0) 6)
            (seconds (1000000005 - 0))).loss_rate = 100 ∧
          (Rcl.take_message false StatWindow.init (uint32_bytes false 0) 6).count_last_second
            = (Rcl.take_message false StatWindow.init (uint32_bytes false 0) 6).count))) ∧
    (List.filterMap (DualPubSubNode.Callback.id1 false)
        [DualPubSubNode.Callback.subscription1 (uint32_bytes false 0) 6,
         DualPubSubNode.Callback.subscription1 (uint32_bytes false 3) 7,
         DualPubSubNode.Callback.status 1000000000] = [0, 3] ∧
      ((DualPubSubNode.channel_report
          (receive_all (2 ^ 64) false StatWindow.init
            [(uint32_bytes false 0, 6), (uint32_bytes false 3, 7)])
          (seconds (1000000000 - 0))).loss_rate ≤ 50 ∨
        ((DualPubSubNode.channel_report
            (receive_all (2 ^ 64) false StatWindow.init
              [(uint32_bytes false 0, 6), (uint32_bytes false 3, 7)])
            (seconds (1000000000 - 0))).loss_rate = 100 ∧
          (receive_all (2 ^ 64) false StatWindow.init
              [(uint32_bytes false 0, 6), (uint32_bytes false 3, 7)]).count_last_second
            = (receive_all (2 ^ 64) false StatWindow.init
              [(uint32_bytes false 0, 6), (uint32_bytes false 3, 7)]).count))) := by
  have hids : received_ids false (id_frames false [0, 1, 2, 5, 6]) = [0, 1, 2, 5, 6] := by
    decide
  have hord : List.Chain' (fun a b => a ≤ b)
      (received_ids false (id_frames false [0, 1, 2, 5, 6])) := by
    rw [hids]; simp
  have hticks : Rcl.tick_ids1 false
      [{ now := 5, add_ok1 := true, add_ok2 := true, timed_out := false,
         take1 := some (uint32_bytes false 0, 6), take2 := none },
       { now := 1000000005, add_ok1 := true, add_ok2 := true, timed_out := false,
         take1 := some (uint32_bytes false 3, 1000000006), take2 := none }] = [0, 3] := by
    decide
  have hcbs : List.filterMap (DualPubSubNode.Callback.id1 false)
      [DualPubSubNode.Callback.subscription1 (uint32_bytes false 0) 6,
       DualPubSubNode.Callback.subscription1 (uint32_bytes false 3) 7,
       DualPubSubNode.Callback.status 1000000000] = [0, 3] := by
    decide
  have h := in_order_stream_loses_at_most_half false (2 ^ 32)
    (id_frames false [0, 1, 2, 5, 6]) 4 2 0
    [{ now := 5, add_ok1 := true, add_ok2 := true, timed_out := false,
       take1 := some (uint32_bytes false 0, 6), take2 := none },
     { now := 1000000005, add_ok1 := true, add_ok2 := true, timed_out := false,
       take1 := some (uint32_bytes false 3, 1000000006), take2 := none }] 20 40
    [DualPubSubNode.Callback.subscription1 (uint32_bytes false 0) 6,
     DualPubSubNode.Callback.subscription1 (uint32_bytes false 3) 7,
     DualPubSubNode.Callback.status 1000000000]
  refine ⟨⟨hord, by decide, ((h.1 hord (by decide)).1 (by decide)).2⟩, ⟨hticks, ?_⟩,
    ⟨hcbs, ?_⟩⟩
  · exact (h.2.1 (by rw [hticks]; simp) (by rw [hticks]; decide) (by decide) (by decide)
      (Rcl.take_message false StatWindow.init (uint32_bytes false 0) 6) StatWindow.init
      _ (Rcl.channel_report StatWindow.init (seconds (1000000005 - 0))) (by decide!)).1
  · exact (h.2.2 (by rw [hcbs]; simp) (by rw [hcbs]; decide) (by decide) (by decide)
      (receive_all (2 ^ 64) false StatWindow.init
        [(uint32_bytes false 0, 6), (uint32_bytes false 3, 7)]) StatWindow.init
      _ (DualPubSubNode.channel_report StatWindow.init (seconds (1000000000 - 0)))
      (by decide!)).1

/-! ## Binary64 arithmetic: lemmas -/

theorem pow2_eq_zpow (k : Int) : pow2 k = (2 : ℚ) ^ k := by
  unfold pow2
  by_cases h : 0 ≤ k
  · rw [if_pos h]
    obtain ⟨n, rfl⟩ := Int.eq_ofNat_of_zero_le h
    simp
  · rw [if_neg h]
    have hk : k = -((-k).toNat : Int) := by
      rw [Int.toNat_of_nonneg (by omega)]; ring
    rw [hk]
    simp only [Int.toNat_neg_nat, neg_neg, Int.toNat_ofNat, zpow_neg, zpow_natCast]
    norm_num

theorem pow2_pos (k : Int) : 0 < pow2 k := by
  rw [pow2_eq_zpow]; positivity

theorem pow2_le_pow2 (a b : Int) (h : a ≤ b) : pow2 a ≤ pow2 b := by
  rw [pow2_eq_zpow, pow2_eq_zpow]
  exact zpow_le_zpow_right₀ (by norm_num) h

theorem pow2_lt_pow2_iff (a b : Int) : pow2 a < pow2 b ↔ a < b := by
  rw [pow2_eq_zpow, pow2_eq_zpow]
  exact zpow_lt_zpow_iff_right₀ (by norm_num)

theorem pow2_add (a b : Int) : pow2 (a + b) = pow2 a * pow2 b := by
  rw [pow2_eq_zpow, pow2_eq_zpow, pow2_eq_zpow]
  exact zpow_add₀ (by norm_num) a b

theorem halvings_spec (fuel : Nat) :
    ∀ n : Nat, n ≤ fuel → n ≠ 0 → 2 ^ halvings fuel n ≤ n ∧ n < 2 ^ (halvings fuel n + 1) := by
  induction fuel with
  | zero => intro n h h0; omega
  | succ fuel ih =>
    intro n h h0
    unfold halvings
    by_cases h2 : n < 2
    · rw [if_pos h2]
      simp only [pow_zero, zero_add, pow_one]
      omega
    · rw [if_neg h2]
      obtain ⟨i1, i2⟩ := ih (n / 2) (by omega) (by omega)
      rw [pow_succ, pow_succ]
      rw [pow_succ] at i2
      constructor <;> omega

theorem leading_bit_spec (n : Nat) (h0 : n ≠ 0) :
    2 ^ leading_bit n ≤ n ∧ n < 2 ^ (leading_bit n + 1) :=
  halvings_spec n n (le_refl n) h0

theorem binade_spec (x : ℚ) (hx : 0 < x) :
    pow2 (binade x) ≤ x ∧ x < pow2 (binade x + 1) := by
  have hnum : 0 < x.num := Rat.num_pos.2 hx
  have hn0 : x.num.toNat ≠ 0 := by omega
  have hd0 : x.den ≠ 0 := x.den_nz
  have hxe : x = ((x.num.toNat : Nat) : ℚ) / ((x.den : Nat) : ℚ) := by
    have h1 : ((x.num.toNat : Nat) : ℚ) = ((x.num : Int) : ℚ) := by
      have : ((x.num.toNat : Nat) : Int) = x.num := Int.toNat_of_nonneg (le_of_lt hnum)
      exact_mod_cast this
    rw [h1]
    exact (Rat.num_div_den x).symm
  have hdpos : (0 : ℚ) < ((x.den : Nat) : ℚ) := by exact_mod_cast Nat.pos_of_ne_zero hd0
  have a1 : ((2 ^ leading_bit x.num.toNat : Nat) : ℚ) ≤ ((x.num.toNat : Nat) : ℚ) := by
    exact_mod_cast (leading_bit_spec _ hn0).1
  have a2 : ((x.num.toNat : Nat) : ℚ) < ((2 ^ (leading_bit x.num.toNat + 1) : Nat) : ℚ) := by
    exact_mod_cast (leading_bit_spec _ hn0).2
  have b1 : ((2 ^ leading_bit x.den : Nat) : ℚ) ≤ ((x.den : Nat) : ℚ) := by
    exact_mod_cast (leading_bit_spec _ hd0).1
  have b2 : ((x.den : Nat) : ℚ) < ((2 ^ (leading_bit x.den + 1) : Nat) : ℚ) := by
    exact_mod_cast (leading_bit_spec _ hd0).2
  simp only [Nat.cast_pow, Nat.cast_ofNat] at a1 a2 b1 b2
  have hlow : pow2 ((leading_bit x.num.toNat : Int) - (leading_bit x.den : Int) - 1) ≤ x := by
    rw [pow2_eq_zpow, sub_sub, zpow_sub₀ (by norm_num), zpow_natCast, zpow_add₀ (by norm_num),
      zpow_natCast, zpow_one, ← pow_succ]
    rw [div_le_iff₀ (by positivity)]
    calc (2 : ℚ) ^ leading_bit x.num.toNat ≤ ((x.num.toNat : Nat) : ℚ) := a1
      _ = x * ((x.den : Nat) : ℚ) := by
          conv_lhs => rw [← div_mul_cancel₀ ((x.num.toNat : Nat) : ℚ) (ne_of_gt hdpos), ← hxe]
      _ ≤ x * 2 ^ (leading_bit x.den + 1) := by
          exact mul_le_mul_of_nonneg_left (le_of_lt b2) (le_of_lt hx)
  have hhigh : x < pow2 ((leading_bit x.num.toNat : Int) - (leading_bit x.den : Int) + 1) := by
    have e1 : (leading_bit x.num.toNat : Int) - (leading_bit x.den : Int) + 1
        = ((leading_bit x.num.toNat + 1 : Nat) : Int) - (leading_bit x.den : Int) := by
      push_cast; ring
    rw [pow2_eq_zpow, e1, zpow_sub₀ (by norm_num), zpow_natCast, zpow_natCast]
    rw [lt_div_iff₀ (by positivity)]
    calc x * (2 : ℚ) ^ leading_bit x.den ≤ x * ((x.den : Nat) : ℚ) :=
          mul_le_mul_of_nonneg_left b1 (le_of_lt hx)
      _ = ((x.num.toNat : Nat) : ℚ) := by
          conv_rhs => rw [← div_mul_cancel₀ ((x.num.toNat : Nat) : ℚ) (ne_of_gt hdpos), ← hxe]
      _ < 2 ^ (leading_bit x.num.toNat + 1) := a2
  unfold binade
  by_cases h : pow2 ((leading_bit x.num.toNat : Int) - (leading_bit x.den : Int)) ≤ x
  · rw [if_pos h]
    exact ⟨h, hhigh⟩
  · rw [if_neg h]
    refine ⟨hlow, ?_⟩
    rw [sub_add_cancel]
    exact not_le.1 h

theorem binade_mono (x y : ℚ) (hx : 0 < x) (hxy : x ≤ y) : binade x ≤ binade y := by
  obtain ⟨h1, _⟩ := binade_spec x hx
  obtain ⟨_, h4⟩ := binade_spec y (lt_of_lt_of_le hx hxy)
  have : pow2 (binade x) < pow2 (binade y + 1) := lt_of_le_of_lt (le_trans h1 hxy) h4
  have := (pow2_lt_pow2_iff _ _).1 this
  omega

theorem round_half_even_cases (m : ℚ) :
    round_half_even m = ⌊m⌋ ∨ (round_half_even m = ⌊m⌋ + 1 ∧ (1 : ℚ) / 2 ≤ m - ⌊m⌋) := by
  unfold round_half_even
  by_cases h1 : m - ⌊m⌋ < 1 / 2
  · rw [if_pos h1]; exact Or.inl rfl
  · rw [if_neg h1]
    by_cases h2 : 1 / 2 < m - ⌊m⌋
    · rw [if_pos h2]; exact Or.inr ⟨rfl, not_lt.1 h1⟩
    · rw [if_neg h2]
      by_cases h3 : ⌊m⌋ % 2 = 0
      · rw [if_pos h3]; exact Or.inl rfl
      · rw [if_neg h3]; exact Or.inr ⟨rfl, not_lt.1 h1⟩

theorem round_half_even_le (m : ℚ) (n : Int) (h : m ≤ (n : ℚ)) : round_half_even m ≤ n := by
  rcases round_half_even_cases m with h1 | ⟨h1, h2⟩
  · rw [h1]
    exact Int.cast_le.1 (le_trans (Int.floor_le m) h)
  · rw [h1]
    have hlt : ((⌊m⌋ : Int) : ℚ) < (n : ℚ) := by linarith
    have := Int.cast_lt.1 hlt
    omega

theorem le_round_half_even (m : ℚ) (n : Int) (h : (n : ℚ) ≤ m) : n ≤ round_half_even m := by
  have hf : n ≤ ⌊m⌋ := Int.le_floor.2 h
  rcases round_half_even_cases m with h1 | ⟨h1, _⟩
  · rw [h1]; exact hf
  · rw [h1]; omega

theorem round_half_even_int (n : Int) : round_half_even (n : ℚ) = n := by
  unfold round_half_even
  simp


theorem pow2_zero : pow2 0 = 1 := by
  rw [pow2_eq_zpow]; norm_num

theorem pow2_nat (n : Nat) : pow2 (n : Int) = ((2 ^ n : Nat) : ℚ) := by
  rw [pow2_eq_zpow]; simp

/-- A value that `round_pos` leaves unchanged is an integer multiple of its quantum. -/
theorem round_pos_fixed_div (D : ℚ) (hfix : round_pos D = D) :
    D / pow2 (max (binade D) (-1022) - 52)
      = (round_half_even (D / pow2 (max (binade D) (-1022) - 52)) : ℚ) := by
  have hq := pow2_pos (max (binade D) (-1022) - 52)
  unfold round_pos at hfix
  rw [div_eq_iff (ne_of_gt hq)]
  exact hfix.symm

/-- Rounding does not go below a double that the value is not below. -/
theorem le_round_pos (D x : ℚ) (hD : 0 < D) (hDx : D ≤ x) (hfix : round_pos D = D) :
    D ≤ round_pos x := by
  have hx : 0 < x := lt_of_lt_of_le hD hDx
  have hmono := binade_mono D x hD hDx
  have hqx := pow2_pos (max (binade x) (-1022) - 52)
  by_cases heq : max (binade D) (-1022) = max (binade x) (-1022)
  · have hdiv := round_pos_fixed_div D hfix
    rw [heq] at hdiv
    have hle : ((round_half_even (D / pow2 (max (binade x) (-1022) - 52)) : Int) : ℚ)
        ≤ x / pow2 (max (binade x) (-1022) - 52) := by
      rw [← hdiv]
      exact div_le_div_of_nonneg_right hDx (le_of_lt hqx)
    have hr := le_round_half_even _ _ hle
    have hr' : ((round_half_even (D / pow2 (max (binade x) (-1022) - 52)) : Int) : ℚ)
        ≤ ((round_half_even (x / pow2 (max (binade x) (-1022) - 52)) : Int) : ℚ) := by
      exact_mod_cast hr
    unfold round_pos
    calc D = D / pow2 (max (binade x) (-1022) - 52) * pow2 (max (binade x) (-1022) - 52) :=
          (div_mul_cancel₀ D (ne_of_gt hqx)).symm
      _ = (round_half_even (D / pow2 (max (binade x) (-1022) - 52)) : ℚ)
            * pow2 (max (binade x) (-1022) - 52) :=
          congrArg (fun t => t * pow2 (max (binade x) (-1022) - 52)) hdiv
      _ ≤ _ := mul_le_mul_of_nonneg_right hr' (le_of_lt hqx)
  · have hlt : max (binade D) (-1022) < max (binade x) (-1022) := by omega
    have hbx : max (binade x) (-1022) = binade x := by omega
    obtain ⟨hx1, _⟩ := binade_spec x hx
    obtain ⟨_, hD2⟩ := binade_spec D hD
    have hDle : D ≤ pow2 (binade x) :=
      le_trans (le_of_lt hD2) (pow2_le_pow2 _ _ (by omega))
    have hsplit : pow2 (binade x) = ((2 ^ 52 : Int) : ℚ) * pow2 (binade x - 52) := by
      have : binade x = ((52 : Nat) : Int) + (binade x - 52) := by push_cast; ring
      conv_lhs => rw [this, pow2_add, pow2_nat]
      norm_num
    rw [hbx] at hqx
    have hle : ((2 ^ 52 : Int) : ℚ) ≤ x / pow2 (binade x - 52) := by
      rw [le_div_iff₀ hqx, ← hsplit]
      exact hx1
    have hr := le_round_half_even _ _ hle
    have hr' : ((2 ^ 52 : Int) : ℚ)
        ≤ ((round_half_even (x / pow2 (binade x - 52)) : Int) : ℚ) := by
      exact_mod_cast hr
    unfold round_pos
    rw [hbx]
    calc D ≤ pow2 (binade x) := hDle
      _ = ((2 ^ 52 : Int) : ℚ) * pow2 (binade x - 52) := hsplit
      _ ≤ _ := mul_le_mul_of_nonneg_right hr' (le_of_lt hqx)

/-- Rounding does not go above a double that the value is not above. -/
theorem round_pos_le (D x : ℚ) (hx : 0 < x) (hxD : x ≤ D) (hfix : round_pos D = D) :
    round_pos x ≤ D := by
  have hD : 0 < D := lt_of_lt_of_le hx hxD
  have hmono := binade_mono x D hx hxD
  have hqx := pow2_pos (max (binade x) (-1022) - 52)
  by_cases heq : max (binade D) (-1022) = max (binade x) (-1022)
  · have hdiv := round_pos_fixed_div D hfix
    rw [heq] at hdiv
    have hle : x / pow2 (max (binade x) (-1022) - 52)
        ≤ ((round_half_even (D / pow2 (max (binade x) (-1022) - 52)) : Int) : ℚ) := by
      rw [← hdiv]
      exact div_le_div_of_nonneg_right hxD (le_of_lt hqx)
    have hr := round_half_even_le _ _ hle
    have hr' : ((round_half_even (x / pow2 (max (binade x) (-1022) - 52)) : Int) : ℚ)
        ≤ ((round_half_even (D / pow2 (max (binade x) (-1022) - 52)) : Int) : ℚ) := by
      exact_mod_cast hr
    unfold round_pos
    calc _ ≤ (round_half_even (D / pow2 (max (binade x) (-1022) - 52)) : ℚ)
            * pow2 (max (binade x) (-1022) - 52) :=
          mul_le_mul_of_nonneg_right hr' (le_of_lt hqx)
      _ = D / pow2 (max (binade x) (-1022) - 52) * pow2 (max (binade x) (-1022) - 52) :=
          (congrArg (fun t => t * pow2 (max (binade x) (-1022) - 52)) hdiv).symm
      _ = D := div_mul_cancel₀ D (ne_of_gt hqx)
  · have hlt : max (binade x) (-1022) < max (binade D) (-1022) := by omega
    have hbD : max (binade D) (-1022) = binade D := by omega
    obtain ⟨_, hx2⟩ := binade_spec x hx
    obtain ⟨hD1, _⟩ := binade_spec D hD
    have hxlt : x ≤ pow2 (max (binade x) (-1022) + 1) :=
      le_trans (le_of_lt hx2) (pow2_le_pow2 _ _ (by omega))
    have hsplit : pow2 (max (binade x) (-1022) + 1)
        = ((2 ^ 53 : Int) : ℚ) * pow2 (max (binade x) (-1022) - 52) := by
      have : max (binade x) (-1022) + 1
          = ((53 : Nat) : Int) + (max (binade x) (-1022) - 52) := by push_cast; ring
      conv_lhs => rw [this, pow2_add, pow2_nat]
      norm_num
    have hle : x / pow2 (max (binade x) (-1022) - 52) ≤ ((2 ^ 53 : Int) : ℚ) := by
      rw [div_le_iff₀ hqx, ← hsplit]
      exact hxlt
    have hr := round_half_even_le _ _ hle
    have hr' : ((round_half_even (x / pow2 (max (binade x) (-1022) - 52)) : Int) : ℚ)
        ≤ ((2 ^ 53 : Int) : ℚ) := by
      exact_mod_cast hr
    unfold round_pos
    calc _ ≤ ((2 ^ 53 : Int) : ℚ) * pow2 (max (binade x) (-1022) - 52) :=
          mul_le_mul_of_nonneg_right hr' (le_of_lt hqx)
      _ = pow2 (max (binade x) (-1022) + 1) := hsplit.symm
      _ ≤ pow2 (binade D) := pow2_le_pow2 _ _ (by omega)
      _ ≤ D := hD1

/-- Positive integers below `2 ^ 53` are binary64 values. -/
theorem round_pos_nat (n : Nat) (h0 : 0 < n) (h : n < 2 ^ 53) : round_pos (n : ℚ) = n := by
  have hn : (0 : ℚ) < (n : ℚ) := by exact_mod_cast h0
  obtain ⟨h1, h2⟩ := binade_spec (n : ℚ) hn
  have hb0 : 0 ≤ binade (n : ℚ) := by
    have : pow2 0 < pow2 (binade (n : ℚ) + 1) := by
      rw [pow2_zero]
      exact lt_of_le_of_lt (by exact_mod_cast h0) h2
    have := (pow2_lt_pow2_iff _ _).1 this
    omega
  have hb52 : binade (n : ℚ) ≤ 52 := by
    have : pow2 (binade (n : ℚ)) < pow2 ((53 : Nat) : Int) := by
      rw [pow2_nat]
      exact lt_of_le_of_lt h1 (by exact_mod_cast h)
    have := (pow2_lt_pow2_iff _ _).1 this
    omega
  have hmax : max (binade (n : ℚ)) (-1022) = binade (n : ℚ) := by omega
  have hq := pow2_pos (binade (n : ℚ) - 52)
  have hinv : pow2 (binade (n : ℚ) - 52) * pow2 (52 - binade (n : ℚ)) = 1 := by
    rw [← pow2_add, ← pow2_zero]; congr 1; ring
  have hnat : pow2 (52 - binade (n : ℚ))
      = ((2 ^ (52 - binade (n : ℚ)).toNat : Nat) : ℚ) := by
    have : 52 - binade (n : ℚ) = (((52 - binade (n : ℚ)).toNat : Nat) : Int) :=
      (Int.toNat_of_nonneg (by omega)).symm
    conv_lhs => rw [this, pow2_nat]
  have hdiv : (n : ℚ) / pow2 (binade (n : ℚ) - 52)
      = (((n * 2 ^ (52 - binade (n : ℚ)).toNat : Nat) : Int) : ℚ) := by
    rw [div_eq_iff (ne_of_gt hq)]
    have e : ((((n * 2 ^ (52 - binade (n : ℚ)).toNat : Nat) : Int) : ℚ))
        = (n : ℚ) * pow2 (52 - binade (n : ℚ)) := by
      rw [hnat]; push_cast; ring
    rw [e, mul_assoc, mul_comm (pow2 (52 - binade (n : ℚ))), hinv, mul_one]
  unfold round_pos
  rw [hmax, hdiv, round_half_even_int, ← hdiv]
  exact div_mul_cancel₀ _ (ne_of_gt hq)


/-- On positive values `round_double` is `round_pos`. -/
theorem round_double_pos (x : ℚ) (hx : 0 < x) : round_double x = round_pos x := by
  unfold round_double
  rw [if_pos hx]

theorem round_pos_nonneg (x : ℚ) (hx : 0 < x) : 0 ≤ round_pos x := by
  have hq := pow2_pos (max (binade x) (-1022) - 52)
  have h0 : ((0 : Int) : ℚ) ≤ x / pow2 (max (binade x) (-1022) - 52) := by
    simp only [Int.cast_zero]
    exact le_of_lt (div_pos hx hq)
  have hr := le_round_half_even _ _ h0
  unfold round_pos
  exact mul_nonneg (by exact_mod_cast hr) (le_of_lt hq)

/-- The cast of a finite value whose integer part fits `int`. -/
theorem trunc_int_in_range (x : ℚ) (h0 : 0 ≤ x) (h1 : x < 2147483648) :
    trunc_int (some x) = ⌊x⌋ := by
  unfold trunc_int
  have hr : (-2147483649 : ℚ) < x ∧ x < 2147483648 := ⟨by linarith, h1⟩
  simp only [hr, and_self, if_true]
  rw [Int.tdiv_eq_ediv (Rat.num_nonneg.2 h0) (Int.natCast_nonneg _)]
  exact (Rat.floor_def' x).symm

/-- The double quotient `1000.0 / rate` for a positive rate, when it is finite. -/
theorem interval_ms_eq (rate x : ℚ) (hrate : 0 < rate) (hx : interval_ms rate = some x) :
    x = round_pos (1000 / rate) := by
  unfold interval_ms double_div at hx
  rw [if_neg (ne_of_gt hrate)] at hx
  by_cases hov : pow2 1024 ≤ |round_double (1000 / rate)|
  · rw [if_pos hov] at hx; cases hx
  · rw [if_neg hov] at hx
    rw [← round_double_pos _ (div_pos (by norm_num) hrate)]
    exact (Option.some.inj hx).symm

/-- A double above 1000 is at least one unit in the last place above it. -/
theorem double_above_1000 (rate : ℚ) (hfix : round_double rate = rate) (h : 1000 < rate) :
    1000 + 1 / 8796093022208 ≤ rate := by
  have hpos : 0 < rate := by linarith
  rw [round_double_pos rate hpos] at hfix
  obtain ⟨h1, h2⟩ := binade_spec rate hpos
  have hb9 : 9 ≤ binade rate := by
    have : pow2 ((9 : Nat) : Int) < pow2 (binade rate + 1) := by
      rw [pow2_nat]
      exact lt_trans (by norm_num) (lt_trans h h2)
    have := (pow2_lt_pow2_iff _ _).1 this
    omega
  by_cases hb : binade rate = 9
  · have hdiv := round_pos_fixed_div rate hfix
    rw [hb] at hdiv
    have hq : pow2 (max 9 (-1022) - 52) = 1 / 8796093022208 := by
      rw [pow2_eq_zpow]; norm_num
    rw [hq] at hdiv
    have hN : ((1000 * 8796093022208 : Int) : ℚ)
        < ((round_half_even (rate / (1 / 8796093022208)) : Int) : ℚ) := by
      rw [← hdiv]
      push_cast
      rw [lt_div_iff₀ (by norm_num)]
      linarith
    have hN' := Int.cast_lt.1 hN
    have hN2 : ((1000 * 8796093022208 + 1 : Int) : ℚ)
        ≤ ((round_half_even (rate / (1 / 8796093022208)) : Int) : ℚ) := by
      exact_mod_cast (by omega : (1000 * 8796093022208 + 1 : Int)
        ≤ round_half_even (rate / (1 / 8796093022208)))
    rw [← hdiv] at hN2
    rw [le_div_iff₀ (by norm_num)] at hN2
    push_cast at hN2
    linarith
  · have h10 : pow2 ((10 : Nat) : Int) ≤ pow2 (binade rate) := pow2_le_pow2 _ _ (by omega)
    rw [pow2_nat] at h10
    have : (1024 : ℚ) ≤ rate := le_trans (by norm_num at h10 ⊢; exact h10) h1
    linarith

/-- The exact quotient is below what the rounded one is below, for a bound that is a
positive integer below `2 ^ 53`. -/
theorem lt_of_round_pos_lt (q : ℚ) (m : Nat) (hm0 : 0 < m) (hm : m < 2 ^ 53)
    (h : round_pos q < (m : ℚ)) : q < (m : ℚ) := by
  by_contra hc
  have := le_round_pos (m : ℚ) q (by exact_mod_cast hm0) (not_lt.1 hc)
    (round_pos_nat m hm0 hm)
  linarith

/-! ## Scheduling period: claim C15 -/

/-- Counterexample to C15 as worded: at the rate that `--rate1 0.1` gives, the `double`
nearest to 0.1, the exact quotient `1000 / rate` lies in the `int` range and strictly
between 9999 and 10000, so the integer `p` with `p ≤ 1000 / rate < p + 1` is 9999; the
program rounds the quotient to the `double` 10000 before the cast and uses the period
10000, in the loops and in `setup_dual_publisher`. -/
theorem period_at_a_tenth_hertz_rounds_up :
    round_double (1 / 10) = 3602879701896397 / 36028797018963968 ∧
    ((0 : ℚ) < 3602879701896397 / 36028797018963968 ∧
      (1000 : ℚ) / (3602879701896397 / 36028797018963968) < 2 ^ 31) ∧
    ((9999 : ℚ) ≤ 1000 / (3602879701896397 / 36028797018963968) ∧
      (1000 : ℚ) / (3602879701896397 / 36028797018963968) < 9999 + 1) ∧
    interval_ms (3602879701896397 / 36028797018963968) = some 10000 ∧
    trunc_int (interval_ms (3602879701896397 / 36028797018963968)) = 10000 ∧
    ¬ ((trunc_int (interval_ms (3602879701896397 / 36028797018963968)) : ℚ)
        ≤ 1000 / (3602879701896397 / 36028797018963968)) ∧
    (Rcl.emit false (3602879701896397 / 36028797018963968) 20 0xA1 (Rcl.Channel.init 0)
        Rcl.Statics.init 0 1 true).1.next_pub = add_ms 0 10000 ∧
    DualPubSubNode.setup_dual_publisher (3602879701896397 / 36028797018963968)
        (3602879701896397 / 36028797018963968) = (10000, 10000) := by
  refine ⟨by decide!, ⟨by norm_num, by norm_num⟩, ⟨by norm_num, by norm_num⟩, by decide!,
    by decide!, by decide!, by decide!, by decide!⟩

/-- C15 (amended). For every rate above 0 whose `double` quotient `1000.0 / rate` is
finite and below `2 ^ 31`, the period in whole milliseconds is that rounded quotient
truncated toward zero: the unique integer `p` with `p ≤ x < p + 1`, where `x` is the
`double` nearest to `1000 / rate`. It lies in the `int` range, and it is the integer part
of the exact quotient or that integer part plus 1 (the latter when the quotient rounds up
to an integer). It is 0 for every `double` rate above 1000. The threaded loop and both
channels of the polling loop add this `p` to the clock reading when a channel fires, and
the timer strategy creates its publish timer with the same `p`. -/
theorem period_is_truncated_double_quotient (be : Bool) (rate x : ℚ) (hrate : 0 < rate)
    (hx : interval_ms rate = some x) (hint : x < 2 ^ 31) :
    x = round_double (1000 / rate) ∧
    ((trunc_int (interval_ms rate) : ℚ) ≤ x ∧ x < (trunc_int (interval_ms rate) : ℚ) + 1) ∧
    (∀ q : Int, (q : ℚ) ≤ x → x < (q : ℚ) + 1 → q = trunc_int (interval_ms rate)) ∧
    (0 ≤ trunc_int (interval_ms rate) ∧ trunc_int (interval_ms rate) < 2 ^ 31) ∧
    (⌊1000 / rate⌋ ≤ trunc_int (interval_ms rate) ∧
      trunc_int (interval_ms rate) ≤ ⌊1000 / rate⌋ + 1) ∧
    (round_double rate = rate → 1000 < rate → trunc_int (interval_ms rate) = 0) ∧
    (∀ (duration : ℚ) (payload : Nat) (fill_byte : Byte) (s : Rcl.ThreadLoop)
        (t : Rcl.ThreadTick),
      t.should_stop = false → ¬ duration_over duration s.start t.now → s.ch.next_pub ≤ t.now →
      ∃ (s1 : Rcl.ThreadLoop) (status : Option ℚ) (e : Option Emission),
        Rcl.publisher_thread_iter be duration rate payload fill_byte s t
          = some (s1, status, e) ∧
        s1.ch.next_pub = add_ms t.now (trunc_int (interval_ms rate))) ∧
    (∀ (duration other : ℚ) (payload1 payload2 : Nat) (d : Rcl.DualLoop) (u : Rcl.DualTick),
      ¬ duration_over duration d.start u.now →
      (d.ch1.next_pub ≤ u.now →
        ∃ (d1 : Rcl.DualLoop) (status : Option (ℚ × ℚ)) (e1 e2 : Option Emission),
          Rcl.run_dual_publisher_iter be duration rate other payload1 payload2 d u
            = some (d1, status, e1, e2) ∧
          d1.ch1.next_pub = add_ms u.now (trunc_int (interval_ms rate))) ∧
      (d.ch2.next_pub ≤ u.now →
        ∃ (d1 : Rcl.DualLoop) (status : Option (ℚ × ℚ)) (e1 e2 : Option Emission),
          Rcl.run_dual_publisher_iter be duration other rate payload1 payload2 d u
            = some (d1, status, e1, e2) ∧
          d1.ch2.next_pub = add_ms u.now (trunc_int (interval_ms rate)))) ∧
    (∀ other : ℚ,
      (DualPubSubNode.setup_dual_publisher rate other).1 = trunc_int (interval_ms rate) ∧
      (DualPubSubNode.setup_dual_publisher other rate).2 = trunc_int (interval_ms rate)) := by
  have hq : (0 : ℚ) < 1000 / rate := div_pos (by norm_num) hrate
  have hxe := interval_ms_eq rate x hrate hx
  have hx0 : 0 ≤ x := by rw [hxe]; exact round_pos_nonneg _ hq
  have hint' : x < 2147483648 := by norm_num at hint; exact hint
  have hfl : trunc_int (interval_ms rate) = ⌊x⌋ := by
    rw [hx]; exact trunc_int_in_range x hx0 hint'
  refine ⟨?_, ?_, ?_, ?_, ?_, ?_, ?_, ?_, fun other => ⟨rfl, rfl⟩⟩
  · rw [hxe, round_double_pos _ hq]
  · rw [hfl]
    exact ⟨Int.floor_le _, Int.lt_floor_add_one _⟩
  · intro q h1 h2
    rw [hfl]
    exact (Int.floor_eq_iff.2 ⟨h1, h2⟩).symm
  · rw [hfl]
    constructor
    · exact Int.floor_nonneg.2 hx0
    · have : ⌊x⌋ < (2 : Int) ^ 31 := by
        rw [Int.floor_lt]
        exact_mod_cast hint
      exact this
  · rw [hfl]
    have hn0 : 0 ≤ ⌊1000 / rate⌋ := Int.floor_nonneg.2 (le_of_lt hq)
    have hqlt : 1000 / rate < ((2147483648 : Nat) : ℚ) := by
      apply lt_of_round_pos_lt _ _ (by norm_num) (by norm_num)
      rw [← hxe]
      exact_mod_cast hint'
    have hnlt : ⌊1000 / rate⌋ < 2147483648 := by
      rw [Int.floor_lt]
      exact_mod_cast hqlt
    constructor
    · rw [Int.le_floor]
      by_cases hz : ⌊1000 / rate⌋ = 0
      · rw [hz]; simpa using hx0
      · have hm0 : 0 < ⌊1000 / rate⌋.toNat := by omega
        have hcast : ((⌊1000 / rate⌋.toNat : Nat) : ℚ) = ((⌊1000 / rate⌋ : Int) : ℚ) := by
          have : ((⌊1000 / rate⌋.toNat : Nat) : Int) = ⌊1000 / rate⌋ :=
            Int.toNat_of_nonneg hn0
          exact_mod_cast this
        have := le_round_pos ((⌊1000 / rate⌋.toNat : Nat) : ℚ) (1000 / rate)
          (by exact_mod_cast hm0) (by rw [hcast]; exact Int.floor_le _)
          (round_pos_nat _ hm0 (by omega))
        rw [hcast, ← hxe] at this
        exact this
    · have hcast : (((⌊1000 / rate⌋ + 1).toNat : Nat) : ℚ) = ((⌊1000 / rate⌋ : Int) : ℚ) + 1 := by
        have : (((⌊1000 / rate⌋ + 1).toNat : Nat) : Int) = ⌊1000 / rate⌋ + 1 :=
          Int.toNat_of_nonneg (by omega)
        exact_mod_cast this
      have := round_pos_le (((⌊1000 / rate⌋ + 1).toNat : Nat) : ℚ) (1000 / rate) hq
        (by rw [hcast]; exact le_of_lt (Int.lt_floor_add_one _))
        (round_pos_nat _ (by omega) (by omega))
      rw [hcast, ← hxe] at this
      have h2 : ((⌊x⌋ : Int) : ℚ) ≤ ((⌊1000 / rate⌋ + 1 : Int) : ℚ) := by
        push_cast
        exact le_trans (Int.floor_le x) this
      exact_mod_cast h2
  · intro hfix h
    have hge := double_above_1000 rate hfix h
    have hfixD : round_pos (9007199254740991 / 9007199254740992)
        = 9007199254740991 / 9007199254740992 := by decide!
    have hqle : 1000 / rate ≤ 9007199254740991 / 9007199254740992 := by
      rw [div_le_iff₀ hrate]
      have : (9007199254740991 : ℚ) / 9007199254740992 * (1000 + 1 / 8796093022208)
          ≤ 9007199254740991 / 9007199254740992 * rate :=
        mul_le_mul_of_nonneg_left hge (by norm_num)
      have h1000 : (1000 : ℚ)
          ≤ 9007199254740991 / 9007199254740992 * (1000 + 1 / 8796093022208) := by norm_num
      linarith
    have := round_pos_le _ _ hq hqle hfixD
    rw [← hxe] at this
    rw [hfl, Int.floor_eq_iff]
    constructor
    · simpa using hx0
    · have : x < 1 := lt_of_le_of_lt this (by norm_num)
      simpa using this
  · intro duration payload fill_byte s t hstop hdur hdue
    obtain ⟨s1, status, hiter, _, _, h3, _⟩ :=
      Rcl.thread_iter_due be duration rate payload fill_byte s t hstop hdur hdue
    exact ⟨s1, status, _, hiter, h3⟩
  · intro duration other payload1 payload2 d u hdur
    constructor
    · intro hdue
      obtain ⟨d1, status, hiter, _, _, a3, _⟩ :=
        Rcl.dual_iter_not_left be duration rate other payload1 payload2 d u hdur
      exact ⟨d1, status, _, _, hiter, by rw [a3, if_pos hdue]⟩
    · intro hdue
      obtain ⟨d1, status, hiter, _, _, _, _, _, b3, _⟩ :=
        Rcl.dual_iter_not_left be duration other rate payload1 payload2 d u hdur
      exact ⟨d1, status, _, _, hiter, by rw [b3, if_pos hdue]⟩

/-- Instance of C15 (amended): at 3 Hz the rounded quotient is the `double` nearest to
`1000 / 3` and the period is 333 ms; at 2000 Hz the period is 0 ms. -/
theorem period_is_truncated_double_quotient_witness :
    ((0 : ℚ) < 3 ∧ interval_ms 3 = some (5864062014805333 / 17592186044416) ∧
      (5864062014805333 / 17592186044416 : ℚ) < 2 ^ 31) ∧
    ((333 : Int) = trunc_int (interval_ms 3)) ∧
    ((0 : ℚ) < 2000 ∧ interval_ms 2000 = some (1 / 2) ∧ ((1 : ℚ) / 2 < 2 ^ 31) ∧
      round_double 2000 = 2000 ∧ (1000 : ℚ) < 2000) ∧
    trunc_int (interval_ms 2000) = 0 :=
  ⟨⟨by norm_num, by decide!, by norm_num⟩,
   (period_is_truncated_double_quotient false 3 (5864062014805333 / 17592186044416)
     (by norm_num) (by decide!) (by norm_num)).2.2.1 333 (by norm_num) (by norm_num),
   ⟨by norm_num, by decide!, by norm_num, by decide!, by norm_num⟩,
   (period_is_truncated_double_quotient false 2000 (1 / 2) (by norm_num) (by decide!)
     (by norm_num)).2.2.2.2.2.1 (by decide!) (by norm_num)⟩

/-! ## Spacing of emission attempts: claim C22 -/

/-- Positive multiples of 64 below `2 ^ 59` are binary64 values. -/
theorem round_pos_mul64 (m : Nat) (h0 : 0 < m) (h : m < 2 ^ 53) :
    round_pos ((64 * m : Nat) : ℚ) = ((64 * m : Nat) : ℚ) := by
  by_cases hsmall : 64 * m < 2 ^ 53
  · exact round_pos_nat (64 * m) (by omega) hsmall
  · have hn : (0 : ℚ) < ((64 * m : Nat) : ℚ) := by exact_mod_cast (by omega : 0 < 64 * m)
    obtain ⟨h1, h2⟩ := binade_spec ((64 * m : Nat) : ℚ) hn
    have hb53 : 53 ≤ binade ((64 * m : Nat) : ℚ) := by
      have : pow2 ((53 : Nat) : Int) < pow2 (binade ((64 * m : Nat) : ℚ) + 1) := by
        rw [pow2_nat]
        exact lt_of_le_of_lt (by exact_mod_cast (not_lt.1 hsmall)) h2
      have := (pow2_lt_pow2_iff _ _).1 this
      omega
    have hb58 : binade ((64 * m : Nat) : ℚ) ≤ 58 := by
      have : pow2 (binade ((64 * m : Nat) : ℚ)) < pow2 ((59 : Nat) : Int) := by
        rw [pow2_nat]
        exact lt_of_le_of_lt h1 (by exact_mod_cast (by omega : 64 * m < 2 ^ 59))
      have := (pow2_lt_pow2_iff _ _).1 this
      omega
    have hmax : max (binade ((64 * m : Nat) : ℚ)) (-1022) = binade ((64 * m : Nat) : ℚ) := by
      omega
    obtain ⟨j, hj⟩ : ∃ j : Nat, binade ((64 * m : Nat) : ℚ) - 52 = (j : Int) :=
      ⟨(binade ((64 * m : Nat) : ℚ) - 52).toNat, (Int.toNat_of_nonneg (by omega)).symm⟩
    have hj6 : j ≤ 6 := by omega
    have hq := pow2_pos (binade ((64 * m : Nat) : ℚ) - 52)
    have hsplit : 64 * m = m * 2 ^ (6 - j) * 2 ^ j := by
      rw [mul_assoc, ← pow_add, Nat.sub_add_cancel hj6]
      ring
    have hdiv : ((64 * m : Nat) : ℚ) / pow2 (binade ((64 * m : Nat) : ℚ) - 52)
        = (((m * 2 ^ (6 - j) : Nat) : Int) : ℚ) := by
      rw [div_eq_iff (ne_of_gt hq), hj, pow2_nat]
      have : (((64 * m : Nat) : Nat) : ℚ) = ((m * 2 ^ (6 - j) * 2 ^ j : Nat) : ℚ) := by
        rw [← hsplit]
      rw [this]
      push_cast
      ring
    unfold round_pos
    rw [hmax, hdiv, round_half_even_int, ← hdiv]
    exact div_mul_cancel₀ _ (ne_of_gt hq)

/-- The elapsed time in seconds that the loops compute is not below a `double` duration
of at most `2 ^ 59` ns once a whole number of milliseconds not below the duration has
elapsed. -/
theorem duration_le_seconds (D : ℚ) (e : Int) (m : Nat) (hD : 0 < D)
    (hfix : round_double D = D) (hrange : D * 1000000000 ≤ 2 ^ 59)
    (hme : (m : Int) * 1000000 ≤ e) (hDm : D * 1000000000 ≤ (m : ℚ) * 1000000) :
    D ≤ seconds e := by
  rw [round_double_pos D hD] at hfix
  have hm0 : 0 < m := by
    by_contra hc
    have : m = 0 := by omega
    rw [this] at hDm
    simp only [Nat.cast_zero, zero_mul] at hDm
    nlinarith
  have hF : ∃ F : ℚ, 0 < F ∧ round_pos F = F ∧ F ≤ (e : ℚ) ∧ D * 1000000000 ≤ F := by
    by_cases hsmall : 15625 * m < 2 ^ 53
    · refine ⟨((64 * (15625 * m) : Nat) : ℚ), ?_, round_pos_mul64 _ (by omega) hsmall, ?_, ?_⟩
      · exact_mod_cast (by omega : 0 < 64 * (15625 * m))
      · have : ((64 * (15625 * m) : Nat) : Int) ≤ e := by push_cast; omega
        exact_mod_cast this
      · push_cast
        linarith
    · refine ⟨576460752303423488, by norm_num, by decide!, ?_, ?_⟩
      · have : (576460752303423488 : Int) ≤ e := by omega
        exact_mod_cast this
      · norm_num at hrange
        exact hrange
  obtain ⟨F, hF0, hFfix, hFe, hDF⟩ := hF
  have he : (0 : ℚ) < (e : ℚ) := lt_of_lt_of_le hF0 hFe
  have h1 : F ≤ round_double (e : ℚ) := by
    rw [round_double_pos _ he]
    exact le_round_pos F _ hF0 hFe hFfix
  have h2 : D ≤ round_double (e : ℚ) / 1000000000 := by
    rw [le_div_iff₀ (by norm_num : (0 : ℚ) < 1000000000)]
    linarith
  unfold seconds
  rw [round_double_pos _ (lt_of_lt_of_le hD h2)]
  exact le_round_pos D _ hD h2 hfix

theorem add_ms_neg_add (t p : Int) : add_ms (add_ms t p) (-p) = t := by
  unfold add_ms; ring

/-- Readings that are each at least `p` ms after the one before: the last of `n` readings
is at least `n * p` ms after the starting point. -/
theorem spaced_readings_reach (p : Int) (ts : List Int) :
    ∀ a0 : Int, List.Chain (fun a b => add_ms a p ≤ b) a0 ts → ts ≠ [] →
      ∃ t ∈ ts, a0 + (ts.length : Int) * (p * 1000000) ≤ t := by
  induction ts with
  | nil => intro a0 _ h; exact absurd rfl h
  | cons b rest ih =>
    intro a0 hch _
    obtain ⟨hab, hrest⟩ := List.chain_cons.1 hch
    unfold add_ms at hab
    by_cases hr : rest = []
    · subst hr
      refine ⟨b, List.mem_cons_self b [], ?_⟩
      simp only [List.length_singleton, Nat.cast_one, one_mul]
      exact hab
    · obtain ⟨t, ht, hle⟩ := ih b hrest hr
      refine ⟨t, List.mem_cons_of_mem b ht, ?_⟩
      simp only [List.length_cons, Nat.cast_add, Nat.cast_one]
      have : ((rest.length : Int) + 1) * (p * 1000000)
          = (rest.length : Int) * (p * 1000000) + p * 1000000 := by ring
      rw [this]
      omega

/-- Number of readings spaced by `p ≥ 1` ms that fit before a `double` duration of at
most `2 ^ 59` ns has elapsed. -/
theorem spaced_readings_count (p : Int) (hp : 1 ≤ p) (duration : ℚ) (hD : 0 < duration)
    (hfix : round_double duration = duration) (hrange : duration * 1000000000 ≤ 2 ^ 59)
    (start : Int) (ts : List Int)
    (hch : List.Chain (fun a b => add_ms a p ≤ b) (add_ms start (-p)) ts)
    (hin : ∀ t ∈ ts, seconds (t - start) < duration) :
    ts.length ≤ ⌈1000 * duration / (p : ℚ)⌉₊ := by
  by_cases hne : ts = []
  · subst hne; exact Nat.zero_le _
  · obtain ⟨t, ht, hle⟩ := spaced_readings_reach p ts _ hch hne
    have hlt := hin t ht
    unfold add_ms at hle
    have hpq : (0 : ℚ) < (p : ℚ) := by exact_mod_cast (by omega : (0 : Int) < p)
    have hlen : 1 ≤ ts.length := Nat.one_le_iff_ne_zero.2 (fun h => hne (List.length_eq_zero.1 h))
    have hpn : ((p.toNat : Nat) : Int) = p := Int.toNat_of_nonneg (by omega)
    have hle' : (((ts.length - 1) * p.toNat : Nat) : Int) * 1000000 ≤ t - start := by
      have : (((ts.length - 1) * p.toNat : Nat) : Int) * 1000000
          = (ts.length : Int) * (p * 1000000) - p * 1000000 := by
        rw [Nat.cast_mul, Nat.cast_sub hlen, hpn]
        push_cast
        ring
      rw [this]; omega
    have hk : (((ts.length - 1 : Nat) : ℚ)) < 1000 * duration / (p : ℚ) := by
      by_contra hc
      have hge : 1000 * duration / (p : ℚ) ≤ ((ts.length - 1 : Nat) : ℚ) := not_lt.1 hc
      rw [div_le_iff₀ hpq] at hge
      have hpq' : (((p.toNat : Nat) : ℚ)) = (p : ℚ) := by exact_mod_cast hpn
      have hDm : duration * 1000000000
          ≤ (((ts.length - 1) * p.toNat : Nat) : ℚ) * 1000000 := by
        rw [Nat.cast_mul, hpq']
        linarith
      have := duration_le_seconds duration (t - start) _ hD hfix hrange hle' hDm
      exact absurd hlt (not_lt.2 this)
    have := Nat.lt_ceil.2 hk
    omega

/-- Attempt times of the threaded loop: spaced by the period from `next_pub` on, all
before the duration has elapsed, one per emission of the run. -/
theorem Rcl.thread_times_spaced (be : Bool) (duration rate : ℚ) (payload : Nat) (b : Byte)
    (ticks : List Rcl.ThreadTick) :
    ∀ s : Rcl.ThreadLoop,
      List.Chain (fun a c => add_ms a (trunc_int (interval_ms rate)) ≤ c)
        (add_ms s.ch.next_pub (-(trunc_int (interval_ms rate))))
        (Rcl.thread_attempt_times be duration rate payload b s ticks) ∧
      (∀ t ∈ Rcl.thread_attempt_times be duration rate payload b s ticks,
        ¬ duration_over duration s.start t) ∧
      (Rcl.thread_attempt_times be duration rate payload b s ticks).length
        = (Rcl.publisher_thread_run be duration rate payload b s ticks).2.length := by
  induction ticks with
  | nil =>
    intro s
    exact ⟨List.Chain.nil, fun t ht => absurd ht (List.not_mem_nil t), rfl⟩
  | cons t ts ih =>
    intro s
    by_cases hleft : t.should_stop = true ∨ duration_over duration s.start t.now
    · have hnone := Rcl.thread_iter_left be duration rate payload b s t hleft
      simp only [Rcl.thread_attempt_times, Rcl.publisher_thread_run, hnone]
      exact ⟨List.Chain.nil, fun t ht => absurd ht (List.not_mem_nil t), rfl⟩
    · have hstop : t.should_stop = false := by
        cases h : t.should_stop
        · rfl
        · exact absurd (Or.inl h) hleft
      have hdur : ¬ duration_over duration s.start t.now := fun h => hleft (Or.inr h)
      by_cases hdue : s.ch.next_pub ≤ t.now
      · obtain ⟨s1, status, hiter, _, _, hnext, _, hstart⟩ :=
          Rcl.thread_iter_due be duration rate payload b s t hstop hdur hdue
        obtain ⟨i1, i2, i3⟩ := ih s1
        rw [hnext, add_ms_neg_add] at i1
        rw [hstart] at i2
        simp only [Rcl.thread_attempt_times, Rcl.publisher_thread_run, hiter, Option.map_some',
          Option.toList_some, List.singleton_append, List.length_cons]
        refine ⟨List.Chain.cons ?_ i1, ?_, by rw [i3]⟩
        · unfold add_ms at *; omega
        · intro u hu
          rcases List.mem_cons.1 hu with h | h
          · rw [h]; exact hdur
          · exact i2 u h
      · obtain ⟨s1, status, hiter, _, _, hnext, _, hstart⟩ :=
          Rcl.thread_iter_not_due be duration rate payload b s t hstop hdur hdue
        obtain ⟨i1, i2, i3⟩ := ih s1
        rw [hnext] at i1
        rw [hstart] at i2
        simp only [Rcl.thread_attempt_times, Rcl.publisher_thread_run, hiter, Option.map_none',
          Option.toList_none, List.nil_append]
        exact ⟨i1, i2, i3⟩

/-- A reading, when the channel fired, in front of readings spaced from the new
`next_pub` on. -/
theorem spaced_after_optional (p next now : Int) (rest : List Int) (data : Emission)
    (h : List.Chain (fun a c => add_ms a p ≤ c)
      (add_ms (if next ≤ now then add_ms now p else next) (-p)) rest) :
    List.Chain (fun a c => add_ms a p ≤ c) (add_ms next (-p))
      (((if next ≤ now then some data else none).map (fun _ => now)).toList ++ rest) := by
  by_cases hdue : next ≤ now
  · rw [if_pos hdue, add_ms_neg_add] at h
    rw [if_pos hdue]
    simp only [Option.map_some', Option.toList_some, List.singleton_append]
    refine List.Chain.cons ?_ h
    unfold add_ms; omega
  · rw [if_neg hdue] at h
    rw [if_neg hdue]
    exact h

theorem optional_reading_mem (next now : Int) (rest : List Int) (data : Emission) (u : Int)
    (hu : u ∈ ((if next ≤ now then some data else none).map (fun _ => now)).toList ++ rest) :
    u = now ∨ u ∈ rest := by
  rcases List.mem_append.1 hu with h | h
  · by_cases hdue : next ≤ now
    · rw [if_pos hdue] at h
      simp only [Option.map_some', Option.toList_some, List.mem_singleton] at h
      exact Or.inl h
    · rw [if_neg hdue] at h
      exact absurd h (List.not_mem_nil u)
  · exact Or.inr h

theorem optional_reading_length (next now : Int) (data : Emission) :
    (((if next ≤ now then some data else none).map (fun _ => now)).toList).length
      = ((if next ≤ now then some data else none).toList).length := by
  by_cases hdue : next ≤ now
  · rw [if_pos hdue]; rfl
  · rw [if_neg hdue]; rfl

/-- Attempt times of the two channels of the polling loop. -/
theorem Rcl.dual_times_spaced (be : Bool) (duration rate1 rate2 : ℚ) (payload1 payload2 : Nat)
    (ticks : List Rcl.DualTick) :
    ∀ d : Rcl.DualLoop,
      (List.Chain (fun a c => add_ms a (trunc_int (interval_ms rate1)) ≤ c)
          (add_ms d.ch1.next_pub (-(trunc_int (interval_ms rate1))))
          (Rcl.dual_attempt_times be duration rate1 rate2 payload1 payload2 d ticks).1 ∧
        (∀ t ∈ (Rcl.dual_attempt_times be duration rate1 rate2 payload1 payload2 d ticks).1,
          ¬ duration_over duration d.start t) ∧
        (Rcl.dual_attempt_times be duration rate1 rate2 payload1 payload2 d ticks).1.length
          = (Rcl.run_dual_publisher_run be duration rate1 rate2 payload1 payload2
              d ticks).2.1.length) ∧
      (List.Chain (fun a c => add_ms a (trunc_int (interval_ms rate2)) ≤ c)
          (add_ms d.ch2.next_pub (-(trunc_int (interval_ms rate2))))
          (Rcl.dual_attempt_times be duration rate1 rate2 payload1 payload2 d ticks).2 ∧
        (∀ t ∈ (Rcl.dual_attempt_times be duration rate1 rate2 payload1 payload2 d ticks).2,
          ¬ duration_over duration d.start t) ∧
        (Rcl.dual_attempt_times be duration rate1 rate2 payload1 payload2 d ticks).2.length
          = (Rcl.run_dual_publisher_run be duration rate1 rate2 payload1 payload2
              d ticks).2.2.length) := by
  induction ticks with
  | nil =>
    intro d
    exact ⟨⟨List.Chain.nil, fun t ht => absurd ht (List.not_mem_nil t), rfl⟩,
      ⟨List.Chain.nil, fun t ht => absurd ht (List.not_mem_nil t), rfl⟩⟩
  | cons u us ih =>
    intro d
    by_cases hdur : duration_over duration d.start u.now
    · have hnone := Rcl.dual_iter_left be duration rate1 rate2 payload1 payload2 d u hdur
      simp only [Rcl.dual_attempt_times, Rcl.run_dual_publisher_run, hnone]
      exact ⟨⟨List.Chain.nil, fun t ht => absurd ht (List.not_mem_nil t), rfl⟩,
        ⟨List.Chain.nil, fun t ht => absurd ht (List.not_mem_nil t), rfl⟩⟩
    · obtain ⟨d1, status, hiter, _, _, hn1, _, _, hn2, _, hstart⟩ :=
        Rcl.dual_iter_not_left be duration rate1 rate2 payload1 payload2 d u hdur
      obtain ⟨⟨i1, i2, i3⟩, ⟨j1, j2, j3⟩⟩ := ih d1
      rw [hn1] at i1
      rw [hn2] at j1
      rw [hstart] at i2 j2
      simp only [Rcl.dual_attempt_times, Rcl.run_dual_publisher_run, hiter, List.length_append]
      refine ⟨⟨spaced_after_optional _ _ _ _ _ i1, ?_, ?_⟩,
        ⟨spaced_after_optional _ _ _ _ _ j1, ?_, ?_⟩⟩
      · intro t ht
        rcases optional_reading_mem _ _ _ _ _ ht with h | h
        · rw [h]; exact hdur
        · exact i2 t h
      · rw [optional_reading_length, i3]
      · intro t ht
        rcases optional_reading_mem _ _ _ _ _ ht with h | h
        · rw [h]; exact hdur
        · exact j2 t h
      · rw [optional_reading_length, j3]

/-- Readings spaced from a starting point on are spaced among themselves. -/
theorem spaced_from_start (p a0 : Int) (ts : List Int)
    (h : List.Chain (fun a c => add_ms a p ≤ c) a0 ts) :
    List.Chain' (fun a c => add_ms a p ≤ c) ts := by
  cases ts with
  | nil => exact List.chain'_nil
  | cons a rest => exact (List.chain_cons.1 h).2

theorem not_over_elapsed (duration : ℚ) (hd : 0 < duration) (start : Int) (ts : List Int)
    (h : ∀ t ∈ ts, ¬ duration_over duration start t) :
    ∀ t ∈ ts, seconds (t - start) < duration := by
  intro t ht
  by_contra hc
  exact h t ht ⟨hd, not_lt.1 hc⟩

theorem period_at_ten_hertz : trunc_int (interval_ms 10) = 100 := by decide!

theorem ceil_at_ten_hertz : ⌈1000 * (2 : ℚ) / ((100 : Int) : ℚ)⌉₊ = 20 := by
  have : 1000 * (2 : ℚ) / ((100 : Int) : ℚ) = ((20 : Nat) : ℚ) := by norm_num
  rw [this, Nat.ceil_natCast]

/-- Counterexample to C22 as worded: `run_dual_publisher` with the period 2142980125 ms
on both channels (about 24.8 days; the rate is a `double` near 4.67e-7 Hz) and the
`double` duration 576461653.625 s (about 18.27 years), with iterations once per period
from the start. The bound `⌈1000 * D / p⌉` is 269, and channel 1 makes 270 emission
attempts: at the 270th reading the elapsed time is exactly the duration,
576461653625000000 ns, but this count is not a `double`; it is converted to
576461653624999936, and the quotient by `1e9` is rounded to a `double` below the
duration, so the test `elapsed >= duration` is false. -/
theorem long_run_exceeds_the_attempt_bound :
    (round_double (8814578218021775 / 18889465931478580854784)
        = 8814578218021775 / 18889465931478580854784 ∧
      trunc_int (interval_ms (8814578218021775 / 18889465931478580854784)) = 2142980125) ∧
    (round_double (4611693229 / 8) = 4611693229 / 8 ∧ (0 : ℚ) < 4611693229 / 8) ∧
    ⌈1000 * (4611693229 / 8 : ℚ) / ((2142980125 : Int) : ℚ)⌉₊ = 269 ∧
    List.Pairwise (fun a b : Int => a ≤ b)
      ((List.range 270).map (fun i : Nat => (i : Int) * 2142980125000000)) ∧
    (Rcl.run_dual_publisher_run false (4611693229 / 8)
        (8814578218021775 / 18889465931478580854784)
        (8814578218021775 / 18889465931478580854784) 20 40 (Rcl.DualLoop.init 0)
        ((List.range 270).map (fun i : Nat =>
          { now := (i : Int) * 2142980125000000,
            timestamp1 := (i : Int) * 2142980125000000, send_ok1 := true,
            timestamp2 := (i : Int) * 2142980125000000, send_ok2 := true }))).2.1.length
      = 270 ∧
    ((269 : Int) * 2142980125000000 = 576461653625000000 ∧
      (576461653625000000 : ℚ) / 1000000000 = 4611693229 / 8 ∧
      round_double 576461653625000000 = 576461653624999936 ∧
      seconds (576461653625000000 - 0) = 4835710839291903 / 8388608 ∧
      (4835710839291903 / 8388608 : ℚ) < 4611693229 / 8) := by
  have hceil : ⌈1000 * (4611693229 / 8 : ℚ) / ((2142980125 : Int) : ℚ)⌉₊ = 269 := by
    have : 1000 * (4611693229 / 8 : ℚ) / ((2142980125 : Int) : ℚ) = ((269 : Nat) : ℚ) := by
      norm_num
    rw [this, Nat.ceil_natCast]
  have hmono : ∀ n : Nat, List.Pairwise (fun a b : Int => a ≤ b)
      ((List.range n).map (fun i : Nat => (i : Int) * 2142980125000000)) := by
    intro n
    refine List.pairwise_map.2 (List.Pairwise.imp ?_ (List.pairwise_lt_range n))
    intro a b h
    have hab : (a : Int) < (b : Int) := by exact_mod_cast h
    omega
  exact ⟨⟨by decide!, by decide!⟩, ⟨by decide!, by norm_num⟩, hceil, hmono 270, by decide!,
    by norm_num, by norm_num, by decide!, by decide!, by norm_num⟩

/-- C22 (amended). In the threaded and the polling publisher loop, the clock readings of
two consecutive emission attempts on the same channel are at least the period
`p = (int)(1000.0 / rate)` milliseconds apart, for every sequence of clock readings and
send outcomes and from every state of the loop; the run makes one emission per such
reading. Hence in a run from loop entry with a `double` duration `D > 0` seconds of at
most `2 ^ 59` ns (about 18.27 years) and period `p ≥ 1` ms a channel makes at most
`⌈1000 * D / p⌉` emission attempts, which is at most 20 for rate 10 Hz and duration
2 s. -/
theorem attempts_are_a_period_apart (be : Bool) (duration rate other_rate : ℚ)
    (payload other_payload : Nat) (fill_byte : Byte) (s : Rcl.ThreadLoop)
    (ticks : List Rcl.ThreadTick) (d : Rcl.DualLoop) (dticks : List Rcl.DualTick)
    (start : Int) :
    (List.Chain' (fun a c => add_ms a (trunc_int (interval_ms rate)) ≤ c)
        (Rcl.thread_attempt_times be duration rate payload fill_byte s ticks) ∧
      (Rcl.thread_attempt_times be duration rate payload fill_byte s ticks).length
        = (Rcl.publisher_thread_run be duration rate payload fill_byte s ticks).2.length) ∧
    (List.Chain' (fun a c => add_ms a (trunc_int (interval_ms rate)) ≤ c)
        (Rcl.dual_attempt_times be duration rate other_rate payload other_payload
          d dticks).1 ∧
      (Rcl.dual_attempt_times be duration rate other_rate payload other_payload
          d dticks).1.length
        = (Rcl.run_dual_publisher_run be duration rate other_rate payload other_payload
            d dticks).2.1.length) ∧
    (List.Chain' (fun a c => add_ms a (trunc_int (interval_ms rate)) ≤ c)
        (Rcl.dual_attempt_times be duration other_rate rate other_payload payload
          d dticks).2 ∧
      (Rcl.dual_attempt_times be duration other_rate rate other_payload payload
          d dticks).2.length
        = (Rcl.run_dual_publisher_run be duration other_rate rate other_payload payload
            d dticks).2.2.length) ∧
    (0 < duration → round_double duration = duration → duration * 1000000000 ≤ 2 ^ 59 →
      1 ≤ trunc_int (interval_ms rate) →
      (Rcl.publisher_thread_run be duration rate payload fill_byte
          (Rcl.ThreadLoop.init start) ticks).2.length
        ≤ ⌈1000 * duration / (trunc_int (interval_ms rate) : ℚ)⌉₊ ∧
      (Rcl.run_dual_publisher_run be duration rate other_rate payload other_payload
          (Rcl.DualLoop.init start) dticks).2.1.length
        ≤ ⌈1000 * duration / (trunc_int (interval_ms rate) : ℚ)⌉₊ ∧
      (Rcl.run_dual_publisher_run be duration other_rate rate other_payload payload
          (Rcl.DualLoop.init start) dticks).2.2.length
        ≤ ⌈1000 * duration / (trunc_int (interval_ms rate) : ℚ)⌉₊) ∧
    ((Rcl.publisher_thread_run be 2 10 payload fill_byte
          (Rcl.ThreadLoop.init start) ticks).2.length ≤ 20 ∧
      (Rcl.run_dual_publisher_run be 2 10 other_rate payload other_payload
          (Rcl.DualLoop.init start) dticks).2.1.length ≤ 20 ∧
      (Rcl.run_dual_publisher_run be 2 other_rate 10 other_payload payload
          (Rcl.DualLoop.init start) dticks).2.2.length ≤ 20) := by
  have bound : ∀ (D r r2 : ℚ), 0 < D → round_double D = D → D * 1000000000 ≤ 2 ^ 59 →
      1 ≤ trunc_int (interval_ms r) →
      (Rcl.publisher_thread_run be D r payload fill_byte
          (Rcl.ThreadLoop.init start) ticks).2.length
        ≤ ⌈1000 * D / (trunc_int (interval_ms r) : ℚ)⌉₊ ∧
      (Rcl.run_dual_publisher_run be D r r2 payload other_payload
          (Rcl.DualLoop.init start) dticks).2.1.length
        ≤ ⌈1000 * D / (trunc_int (interval_ms r) : ℚ)⌉₊ ∧
      (Rcl.run_dual_publisher_run be D r2 r other_payload payload
          (Rcl.DualLoop.init start) dticks).2.2.length
        ≤ ⌈1000 * D / (trunc_int (interval_ms r) : ℚ)⌉₊ := by
    intro D r r2 hD hfix hrange hp
    obtain ⟨a1, a2, a3⟩ := Rcl.thread_times_spaced be D r payload fill_byte ticks
      (Rcl.ThreadLoop.init start)
    obtain ⟨⟨b1, b2, b3⟩, _⟩ := Rcl.dual_times_spaced be D r r2 payload other_payload dticks
      (Rcl.DualLoop.init start)
    obtain ⟨_, ⟨c1, c2, c3⟩⟩ := Rcl.dual_times_spaced be D r2 r other_payload payload dticks
      (Rcl.DualLoop.init start)
    refine ⟨?_, ?_, ?_⟩
    · rw [← a3]
      exact spaced_readings_count _ hp D hD hfix hrange start _ a1
        (not_over_elapsed D hD start _ a2)
    · rw [← b3]
      exact spaced_readings_count _ hp D hD hfix hrange start _ b1
        (not_over_elapsed D hD start _ b2)
    · rw [← c3]
      exact spaced_readings_count _ hp D hD hfix hrange start _ c1
        (not_over_elapsed D hD start _ c2)
  obtain ⟨a1, _, a3⟩ := Rcl.thread_times_spaced be duration rate payload fill_byte ticks s
  obtain ⟨⟨b1, _, b3⟩, _⟩ :=
    Rcl.dual_times_spaced be duration rate other_rate payload other_payload dticks d
  obtain ⟨_, ⟨c1, _, c3⟩⟩ :=
    Rcl.dual_times_spaced be duration other_rate rate other_payload payload dticks d
  refine ⟨⟨spaced_from_start _ _ _ a1, a3⟩, ⟨spaced_from_start _ _ _ b1, b3⟩,
    ⟨spaced_from_start _ _ _ c1, c3⟩, bound duration rate other_rate, ?_⟩
  have h := bound 2 10 other_rate (by norm_num) (by decide!) (by norm_num)
    (by rw [period_at_ten_hertz]; norm_num)
  rw [period_at_ten_hertz, ceil_at_ten_hertz] at h
  exact h

/-- Instance of C22 (amended): the threaded loop at 10 Hz for 2 s, polled at 0, 50 and 100 ms, fires
at 0 and at 100 ms; the two readings are 100 ms apart and the run makes at most
`⌈1000 * 2 / 100⌉` emissions. -/
theorem attempts_are_a_period_apart_witness :
    Rcl.thread_attempt_times false 2 10 20 0xA1 (Rcl.ThreadLoop.init 0)
        [{ should_stop := false, now := 0, timestamp := 1, send_ok := true },
         { should_stop := false, now := 50000000, timestamp := 50000001, send_ok := true },
         { should_stop := false, now := 100000000, timestamp := 100000001, send_ok := true }]
      = [0, 100000000] ∧
    ((0 : ℚ) < 2 ∧ round_double 2 = 2 ∧ (2 : ℚ) * 1000000000 ≤ 2 ^ 59 ∧
      1 ≤ trunc_int (interval_ms 10)) ∧
    (Rcl.publisher_thread_run false 2 10 20 0xA1 (Rcl.ThreadLoop.init 0)
        [{ should_stop := false, now := 0, timestamp := 1, send_ok := true },
         { should_stop := false, now := 50000000, timestamp := 50000001, send_ok := true },
         { should_stop := false, now := 100000000, timestamp := 100000001,
           send_ok := true }]).2.length
      ≤ ⌈1000 * (2 : ℚ) / (trunc_int (interval_ms 10) : ℚ)⌉₊ :=
  ⟨by decide!, ⟨by norm_num, by decide!, by norm_num, by decide!⟩,
   ((attempts_are_a_period_apart false 2 10 5 20 40 0xA1 (Rcl.ThreadLoop.init 0)
      [{ should_stop := false, now := 0, timestamp := 1, send_ok := true },
       { should_stop := false, now := 50000000, timestamp := 50000001, send_ok := true },
       { should_stop := false, now := 100000000, timestamp := 100000001, send_ok := true }]
      (Rcl.DualLoop.init 0) [] 0).2.2.2.1 (by norm_num) (by decide!) (by norm_num)
      (by decide!)).1⟩

end DualPubSub
